import Mathlib

/-!
# Modular navigation: layered grid map, planners and controller

A shallow embedding of the grid-map layers (`gridmap`), of the sampling path
planner (`omni_rrt_planner`), of the cost-map layer updates (`costmap_2d`), of
the path swap of the supervisor (`autonomy`), of the elastic-band controller
(`eband_local_planner`) and of the band trajectory planner
(`sim_band_planner`).

Conventions of the embedding:
* C++ `double`/`float` quantities are rationals (`ℚ`); the special values a
  measured range can take (`±inf`, `NaN`) are kept in `FVal`.
* A cell store is a total map from cell indices to log-odds.
* Library calls whose code is not part of the repository (Eigen rotations,
  line clipping and ray tracing helpers, the motion-planning library) are
  parameters of the definitions.
-/

namespace Gridmap

/-- Cell index `(i, j)` of the grid (an `Eigen::Array2i`). -/
abbrev Cell := Int × Int

/-- Dense store of log-odds values, one per cell index. -/
abbrev CellStore := Cell → ℚ

/-- Value conversion `static_cast<int>(double)`: truncation toward zero. -/
def truncToInt (q : ℚ) : Int :=
  if 0 ≤ q then Int.floor q else Int.ceil q

/-- Geometry of the grid (`MapDimensions`): world origin of cell `(0,0)`,
metres per cell, number of cells on each axis. -/
structure MapDimensions where
  origin : ℚ × ℚ
  resolution : ℚ
  size : Int × Int

/-- Modelled from the spec: `MapDimensions::getCellIndex` (its code is not among
the sources) is the floor of `(p - origin) / resolution` on each axis. -/
def MapDimensions.getCellIndex (d : MapDimensions) (p : ℚ × ℚ) : Cell :=
  (Int.floor ((p.1 - d.origin.1) / d.resolution),
   Int.floor ((p.2 - d.origin.2) / d.resolution))

/-- Modelled from the spec: `cell→world(i,j)` is the centre of the cell. -/
def MapDimensions.getCellCenter (d : MapDimensions) (c : Cell) : ℚ × ℚ :=
  (d.origin.1 + ((c.1 : ℚ) + 1 / 2) * d.resolution,
   d.origin.2 + ((c.2 : ℚ) + 1 / 2) * d.resolution)

/-- Modelled from the spec: the bounds check `contains(i, j)` of the grid geometry (the code of
`MapDimensions` is not among the sources): the index is inside the grid. -/
def MapDimensions.contains (d : MapDimensions) (c : Cell) : Bool :=
  decide (0 ≤ c.1) && decide (c.1 < d.size.1) && decide (0 ≤ c.2) && decide (c.2 < d.size.2)

/-- Clamp of a log-odds value to `[min_log, max_log]`. -/
def clampLog (min_log max_log x : ℚ) : ℚ :=
  max min_log (min max_log x)

/-- Map data of a layer: geometry, cell store, clamp bounds and the value that
stands for an unknown cell. -/
structure MapData where
  dimensions : MapDimensions
  cells : CellStore
  clampingThresMinLog : ℚ
  clampingThresMaxLog : ℚ
  unknown : ℚ

/-- Store with the value at one cell replaced. -/
def setCell (s : CellStore) (c : Cell) (v : ℚ) : CellStore :=
  fun k => if k = c then v else s k

/-- Modelled from the spec: the per-cell update of the cell store (`MapData::update`,
whose code is not among the sources): `cell ← clamp(cell + delta, min_log, max_log)`
where an unknown cell contributes nothing to the sum (`unknown + delta = delta`). -/
def updateValue (min_log max_log unknown : ℚ) (c delta : ℚ) : ℚ :=
  clampLog min_log max_log (if c = unknown then delta else c + delta)

/-- Modelled from the spec: `MapData::update(index, delta)`. -/
def MapData.update (m : MapData) (c : Cell) (delta : ℚ) : MapData :=
  { m with
    cells := setCell m.cells c
      (updateValue m.clampingThresMinLog m.clampingThresMaxLog m.unknown (m.cells c) delta) }

/-- Modelled from the spec: `MapData::setMinThres(index)` forces the cell to `min_log`. -/
def MapData.setMinThres (m : MapData) (c : Cell) : MapData :=
  { m with cells := setCell m.cells c m.clampingThresMinLog }

/-- Modelled from the spec: the ray-trace marker `AddLogCost` (its code is not among the
sources) adds its log cost to the visited cell with the same clamped update. -/
def MapData.addLogCost (m : MapData) (log_cost : ℚ) (c : Cell) : MapData :=
  m.update c log_cost

/-- Values a measured range (a C++ `float`) can take: a finite number, an infinity or NaN. -/
inductive FVal where
  | fin (q : ℚ)
  | posInf
  | negInf
  | nan
deriving DecidableEq

/-- Test `std::isfinite`. -/
def FVal.isFinite : FVal → Bool
  | .fin _ => true
  | _ => false

/-- IEEE comparison `a < b`: false as soon as one side is NaN. -/
def FVal.lt : FVal → FVal → Bool
  | .nan, _ => false
  | _, .nan => false
  | .fin a, .fin b => decide (a < b)
  | .fin _, .posInf => true
  | .fin _, .negInf => false
  | .posInf, _ => false
  | .negInf, .negInf => false
  | .negInf, _ => true

/-- Point or vector with three coordinates (`Eigen::Vector3d`). -/
abbrev Vec3 := ℚ × ℚ × ℚ

/-- The fields of `sensor_msgs::LaserScan` that `processData` reads. -/
structure LaserScan where
  angle_min : ℚ
  angle_increment : ℚ
  range_max : FVal
  ranges : List FVal

/-- What one call of `LaserData::processData` receives besides the message, and the helper
calls whose code is not among the sources, taken as parameters:
* `sensor_pt_2d`: x and y of the translation of `sensor_transform`;
* `unitDirection angle`: `AngleAxisd(angle, UnitZ) * UnitX`;
* `project range dir`: `sensor_transform * (range * dir)`;
* `clipEnd start end xmax ymax`: the end cell after `cohenSutherlandLineClipEnd`;
* `raytraceLine start end size_x max_range`: the cells on which `raytraceLine` calls its marker;
* `footprint`: the indices of `buildFootprintSet` for the robot pose looked up at the stamp. -/
structure LaserInput where
  sensor_pt_2d : ℚ × ℚ
  unitDirection : ℚ → Vec3
  project : FVal → Vec3 → Vec3
  clipEnd : Cell → Cell → Int → Int → Cell
  raytraceLine : Cell → Cell → Int → Nat → List Cell
  footprint : List Cell

/-- The laser layer `LaserData`: its parameters, its cached beam directions and its map data. -/
structure LaserData where
  hit_probability_log : ℚ
  miss_probability_log : ℚ
  min_obstacle_height : ℚ
  max_obstacle_height : ℚ
  obstacle_range : ℚ
  raytrace_range : ℚ
  laser_directions : List Vec3
  map_data : MapData

/-- The direction table built when the beam count changes: entry `i` is the direction at the
angle reached after `i` additions of `angle_increment` to `angle_min`. -/
def directionTable (unitDirection : ℚ → Vec3) (angle increment : ℚ) : Nat → List Vec3
  | 0 => []
  | n + 1 => unitDirection angle :: directionTable unitDirection (angle + increment) increment n

/-- The range used for a beam: a non-finite positive reading is replaced by `range_max`. -/
def beamRange (msg : LaserScan) (r : FVal) : FVal :=
  if !r.isFinite && FVal.lt (.fin 0) r then msg.range_max else r

/-- The height filter: the beam is skipped when its end point is below `min_obstacle_height`
or above `max_obstacle_height`. -/
def LaserData.heightRejected (L : LaserData) (pt : Vec3) : Bool :=
  decide (pt.2.2 < L.min_obstacle_height) || decide (pt.2.2 > L.max_obstacle_height)

/-- The end cell of a beam: cell of the end point, clipped to the grid. -/
def beamEnd (inp : LaserInput) (d : MapDimensions) (sensor_pt_map : Cell) (pt : Vec3) : Cell :=
  inp.clipEnd sensor_pt_map (d.getCellIndex (pt.1, pt.2.1)) (d.size.1 - 1) (d.size.2 - 1)

/-- The ray-trace range in cells: `static_cast<unsigned int>(raytrace_range / resolution)`. -/
def LaserData.cellRaytraceRange (L : LaserData) (d : MapDimensions) : Nat :=
  (truncToInt (L.raytrace_range / d.resolution)).toNat

/-- The footprint loop: every footprint index inside the grid is forced to `min_log`. -/
def clearFootprint (footprint : List Cell) (m : MapData) : MapData :=
  footprint.foldl (fun acc c => if acc.dimensions.contains c then acc.setMinThres c else acc) m

/-- The miss marks of one ray: the marker is applied to every cell `raytraceLine` visits. -/
def markRay (miss_log : ℚ) (cells : List Cell) (m : MapData) : MapData :=
  cells.foldl (fun acc c => acc.addLogCost miss_log c) m

/-- One iteration of the beam loop of `LaserData::processData`. -/
def LaserData.processBeam (L : LaserData) (inp : LaserInput) (msg : LaserScan)
    (sensor_pt_map : Cell) (m : MapData) (beam : FVal × Vec3) : MapData :=
  let range := beamRange msg beam.1
  let pt := inp.project range beam.2
  if L.heightRejected pt then m
  else
    let ray_end := beamEnd inp m.dimensions sensor_pt_map pt
    let m1 := markRay L.miss_probability_log
      (inp.raytraceLine sensor_pt_map ray_end m.dimensions.size.1
        (L.cellRaytraceRange m.dimensions)) m
    let m2 :=
      if FVal.lt range msg.range_max && FVal.lt range (.fin L.obstacle_range) then
        (m1.update ray_end (-L.miss_probability_log)).update ray_end L.hit_probability_log
      else m1
    clearFootprint inp.footprint m2

/-- The direction cache after the size check: rebuilt only when the beam count differs. -/
def LaserData.refreshDirections (L : LaserData) (inp : LaserInput) (msg : LaserScan) : List Vec3 :=
  if L.laser_directions.length ≠ msg.ranges.length then
    directionTable inp.unitDirection msg.angle_min msg.angle_increment msg.ranges.length
  else L.laser_directions

/-- Embedding of `LaserData::processData` for a scan whose transforms are available: the
returned flag and the layer afterwards. -/
def LaserData.processData (L : LaserData) (inp : LaserInput) (msg : LaserScan) : Bool × LaserData :=
  let sensor_pt_map := L.map_data.dimensions.getCellIndex inp.sensor_pt_2d
  if sensor_pt_map.1 < 0 ∨ sensor_pt_map.1 ≥ L.map_data.dimensions.size.1 ∨ sensor_pt_map.2 < 0 ∨
      sensor_pt_map.2 ≥ L.map_data.dimensions.size.2 then
    (false, L)
  else
    let dirs := L.refreshDirections inp msg
    (true,
      { L with
        laser_directions := dirs
        map_data := (msg.ranges.zip dirs).foldl (L.processBeam inp msg sensor_pt_map) L.map_data })

/-- A cell value respects the clamp bounds or is the unknown value. -/
def MapData.cellOk (m : MapData) (v : ℚ) : Prop :=
  (m.clampingThresMinLog ≤ v ∧ v ≤ m.clampingThresMaxLog) ∨ v = m.unknown

/-- Every cell of the store respects the clamp bounds or is unknown. -/
def MapData.storeOk (m : MapData) : Prop :=
  ∀ c : Cell, m.cellOk (m.cells c)

/-- The map data keeps the clamp bounds `lo`, `hi` and the unknown value `u`, and every one of
its cells lies in `[lo, hi]` or equals `u`. -/
def MapData.within (lo hi u : ℚ) (m : MapData) : Prop :=
  m.clampingThresMinLog = lo ∧ m.clampingThresMaxLog = hi ∧ m.unknown = u ∧
    ∀ c : Cell, (lo ≤ m.cells c ∧ m.cells c ≤ hi) ∨ m.cells c = u

/-- The operations a layer performs on its cell store. -/
inductive LayerOp where
  | update (c : Cell) (delta : ℚ)
  | mark (log_cost : ℚ) (c : Cell)
  | setMin (c : Cell)
  | laserScan (L : LaserData) (inp : LaserInput) (msg : LaserScan)

/-- Effect of one layer operation on the map data; a laser scan is processed by the layer
`L` holding this map data. -/
def LayerOp.apply (m : MapData) : LayerOp → MapData
  | .update c delta => m.update c delta
  | .mark log_cost c => m.addLogCost log_cost c
  | .setMin c => m.setMinThres c
  | .laserScan L inp msg => ({ L with map_data := m }.processData inp msg).2.map_data

/-- Example grid: 5 x 5 cells of one metre, origin at the world origin. -/
def exampleDims : MapDimensions :=
  { origin := (0, 0), resolution := 1, size := (5, 5) }

/-- Example map data: every cell unknown (0), clamp bounds `[-2, 7/2]`. -/
def exampleMap : MapData :=
  { dimensions := exampleDims, cells := fun _ => 0,
    clampingThresMinLog := -2, clampingThresMaxLog := 7 / 2, unknown := 0 }

/-- Example laser layer: hit log-odds `3/2`, miss log-odds `-2/5`, heights in `[0, 2]`,
obstacle range `7/2`, ray-trace range `4`, no cached directions yet. -/
def exampleLaser : LaserData :=
  { hit_probability_log := 3 / 2, miss_probability_log := -2 / 5,
    min_obstacle_height := 0, max_obstacle_height := 2,
    obstacle_range := 7 / 2, raytrace_range := 4,
    laser_directions := [], map_data := exampleMap }

/-- Example input: a sensor at `(1/2, 1/2, 1/2)` without rotation, beams along the X axis
(the example scan has its only beam at angle 0), clipping by clamping the end cell to the grid
and a ray trace that visits the cells of a row from the start cell to the end cell, both
included, at most `max_range` steps away; the footprint is the sensor's own cell. -/
def exampleInput : LaserInput :=
  { sensor_pt_2d := (1 / 2, 1 / 2),
    unitDirection := fun _ => (1, 0, 0),
    project := fun r d =>
      match r with
      | .fin q => (1 / 2 + q * d.1, 1 / 2 + q * d.2.1, 1 / 2 + q * d.2.2)
      | _ => (1 / 2, 1 / 2, 1 / 2),
    clipEnd := fun _ e xmax ymax => (max 0 (min xmax e.1), max 0 (min ymax e.2)),
    raytraceLine := fun s e _ max_range =>
      (List.range (min (e.1 - s.1).toNat max_range + 1)).map (fun k => (s.1 + (k : Int), s.2)),
    footprint := [(0, 0)] }

/-- Example scan: one beam at angle 0 measuring 2 m, maximum range 10 m. -/
def exampleScan : LaserScan :=
  { angle_min := 0, angle_increment := 1 / 100, range_max := .fin 10, ranges := [.fin 2] }

/-- The fields of `sensor_msgs::Range` that `rangeCallback` reads. -/
structure RangeMsg where
  range : FVal
  max_range : FVal
  field_of_view : ℚ

/-- What one call of `RangeData::rangeCallback` receives besides the message, and the helper
calls whose code is not among the sources, taken as parameters:
* `sensor_pt_2d`: x and y of the translation of the looked-up transform `t`;
* `left_pt_2d`, `right_pt_2d`: x and y of the far corners of the cone, `t` applied to
  `(range cos(fov/2), ± range sin(fov/2), 0)`;
* `drawLine a b`: the cells of the line between two cells;
* `clipRayEnd start end size`: the end cell after `clipRayEnd`;
* `raytraceLine start end size_x`: the cells on which `raytraceLine` calls its marker. -/
structure RangeInput where
  sensor_pt_2d : ℚ × ℚ
  left_pt_2d : ℚ × ℚ
  right_pt_2d : ℚ × ℚ
  drawLine : Cell → Cell → List Cell
  clipRayEnd : Cell → Cell → Int × Int → Cell
  raytraceLine : Cell → Cell → Int → List Cell

/-- The range layer `RangeData`: the parameters `rangeCallback` reads, the member
`obstacle_range_` that `onInitialize` sets, its sub-sampling counter and its map data. -/
structure RangeData where
  hit_probability_log : ℚ
  miss_probability_log : ℚ
  obstacle_range : ℚ
  sub_sample : Int
  sub_sample_count : Int
  map_data : MapData

/-- Modelled from the spec: `worldToMapNoBounds` (its code is not among the sources) is the
world-to-cell mapping without bounds check, the floor of `(p - origin) / resolution`. -/
def MapData.worldToMapNoBounds (m : MapData) (p : ℚ × ℚ) : Cell :=
  m.dimensions.getCellIndex p

/-- The weight of the `i`-th cell of a far edge of `n` cells: `1 - |i / n - 0.5|`. -/
def rangeFraction (i n : Nat) : ℚ :=
  1 - |(i : ℚ) / (n : ℚ) - 1 / 2|

/-- One iteration of the loop over the cells of the far edge in `rangeCallback`. -/
def RangeData.processRay (R : RangeData) (inp : RangeInput) (msg : RangeMsg)
    (sensor_pt_map : Cell) (n : Nat) (m : MapData) (ic : Nat × Cell) : MapData :=
  let ray_end := inp.clipRayEnd sensor_pt_map ic.2 m.dimensions.size
  let m1 := markRay R.miss_probability_log
    (inp.raytraceLine sensor_pt_map ray_end m.dimensions.size.1) m
  if FVal.lt msg.range msg.max_range then
    m1.update ray_end (rangeFraction ic.1 n * R.hit_probability_log)
  else m1

/-- Embedding of `RangeData::rangeCallback` for a message whose transform is available. -/
def RangeData.rangeCallback (R : RangeData) (inp : RangeInput) (msg : RangeMsg) : RangeData :=
  if R.sub_sample = 0 ∨ (R.sub_sample > 0 ∧ R.sub_sample_count > R.sub_sample) then
    let sensor_pt_map := R.map_data.worldToMapNoBounds inp.sensor_pt_2d
    if sensor_pt_map.1 < 0 ∨ sensor_pt_map.1 ≥ R.map_data.dimensions.size.1 ∨
        sensor_pt_map.2 < 0 ∨ sensor_pt_map.2 ≥ R.map_data.dimensions.size.2 then
      { R with sub_sample_count := 0 }
    else
      let left_pt_map := R.map_data.worldToMapNoBounds inp.left_pt_2d
      let right_pt_map := R.map_data.worldToMapNoBounds inp.right_pt_2d
      let line := inp.drawLine left_pt_map right_pt_map
      { R with
        sub_sample_count := 0
        map_data := ((List.range line.length).zip line).foldl
          (R.processRay inp msg sensor_pt_map line.length) R.map_data }
  else
    { R with sub_sample_count := R.sub_sample_count + 1 }

/-- Example range layer on the example map, every message accepted (`sub_sample = 0`), with the
default obstacle range of 2.5 m. -/
def exampleRange : RangeData :=
  { hit_probability_log := 3 / 5, miss_probability_log := -2, obstacle_range := 5 / 2,
    sub_sample := 0, sub_sample_count := 0, map_data := exampleMap }

/-- Example range input: a sensor one metre left of the grid looking along X, far corners two
metres ahead; the far edge is a column of cells, clipping clamps the end cell to the grid and
the ray trace visits the end cell. -/
def exampleRangeInput : RangeInput :=
  { sensor_pt_2d := (-1 / 2, 5 / 2), left_pt_2d := (3 / 2, 7 / 2), right_pt_2d := (3 / 2, 3 / 2),
    drawLine := fun a b => (List.range ((a.2 - b.2).toNat + 1)).map (fun k => (a.1, b.2 + (k : Int))),
    clipRayEnd := fun _ e size => (max 0 (min (size.1 - 1) e.1), max 0 (min (size.2 - 1) e.2)),
    raytraceLine := fun _ e _ => [e] }

/-- Example range message: 2 m measured, 4 m maximum, a field of view of one radian. -/
def exampleRangeMsg : RangeMsg :=
  { range := .fin 2, max_range := .fin 4, field_of_view := 1 }

/-- Example laser input whose sensor is one metre left of the grid. -/
def exampleInputOff : LaserInput :=
  { exampleInput with sensor_pt_2d := (-1 / 2, 1 / 2) }

/-- The cells one beam can write with ray-trace marks or end-point updates: none when the
height filter rejects the beam, otherwise its end cell and the cells of its ray. -/
def LaserData.beamTouched (L : LaserData) (inp : LaserInput) (msg : LaserScan)
    (sensor_pt_map : Cell) (d : MapDimensions) (beam : FVal × Vec3) : List Cell :=
  let range := beamRange msg beam.1
  let pt := inp.project range beam.2
  if L.heightRejected pt then []
  else
    let ray_end := beamEnd inp d sensor_pt_map pt
    ray_end :: inp.raytraceLine sensor_pt_map ray_end d.size.1 (L.cellRaytraceRange d)

/-- The cells a whole scan can write with ray-trace marks or end-point updates. -/
def LaserData.scanTouched (L : LaserData) (inp : LaserInput) (msg : LaserScan) : List Cell :=
  (msg.ranges.zip (L.refreshDirections inp msg)).flatMap
    (L.beamTouched inp msg (L.map_data.dimensions.getCellIndex inp.sensor_pt_2d)
      L.map_data.dimensions)

/-- The beam passes the height filter. -/
def LaserData.beamAccepted (L : LaserData) (inp : LaserInput) (msg : LaserScan)
    (beam : FVal × Vec3) : Bool :=
  !L.heightRejected (inp.project (beamRange msg beam.1) beam.2)

/-- The geometry and the clamp parameters of `m2` are those of `m1`. -/
def MapData.sameFrame (m1 m2 : MapData) : Prop :=
  m2.dimensions = m1.dimensions ∧ m2.clampingThresMinLog = m1.clampingThresMinLog ∧
    m2.clampingThresMaxLog = m1.clampingThresMaxLog ∧ m2.unknown = m1.unknown

/-- Modelled from the spec: the axis-aligned box `AABB` (its declaration is not among the
sources), given by its first cell and its extent in cells. -/
structure AABB where
  roi_start : Cell
  roi_size : Int × Int

/-- The cell lies inside the box. -/
def AABB.contains (bb : AABB) (c : Cell) : Bool :=
  decide (bb.roi_start.1 ≤ c.1) && decide (c.1 < bb.roi_start.1 + bb.roi_size.1) &&
    decide (bb.roi_start.2 ≤ c.2) && decide (c.2 < bb.roi_start.2 + bb.roi_size.2)

/-- The base map layer: the static map rasterised into log-odds. -/
structure BaseMapLayer where
  cells : CellStore

/-- Modelled from the spec: `BaseMapLayer::draw(grid)` (its code is not among the sources)
copies the base map into the working cells. -/
def BaseMapLayer.draw (b : BaseMapLayer) (_grid : CellStore) : CellStore :=
  b.cells

/-- Modelled from the spec: `BaseMapLayer::draw(grid, bb)` is the same draw restricted to the
box: cells outside the box are not written. -/
def BaseMapLayer.drawBox (b : BaseMapLayer) (grid : CellStore) (bb : AABB) : CellStore :=
  fun c => if bb.contains c then b.cells c else grid c

/-- A sensor layer as the layered map sees it: the layer's own map data and `render`, the
values its `update` writes into the grid (a function of the layer's data and of the grid before
the call; the code of the layers' `update` is not among the sources). -/
structure Layer where
  map_data : MapData
  render : MapData → CellStore → CellStore

/-- Modelled from the spec: `Layer::update(grid)` applies the layer to the whole grid. -/
def Layer.update (l : Layer) (grid : CellStore) : CellStore :=
  l.render l.map_data grid

/-- Modelled from the spec: `Layer::update(grid, bb)` is the same update restricted to the box:
cells outside the box are not written. -/
def Layer.updateBox (l : Layer) (grid : CellStore) (bb : AABB) : CellStore :=
  fun c => if bb.contains c then l.render l.map_data grid c else grid c

/-- Modelled from the spec: `Layer::clearRadius(cell_index, cell_radius)` (its code is not among
the sources) forces every cell of the layer within `cell_radius` cells of `cell_index` to
`min_log`. -/
def Layer.clearRadius (l : Layer) (cell_index : Cell) (cell_radius : Int) : Layer :=
  { l with
    map_data :=
      { l.map_data with
        cells := fun c =>
          if 0 ≤ cell_radius ∧
              (c.1 - cell_index.1) ^ 2 + (c.2 - cell_index.2) ^ 2 ≤ cell_radius ^ 2 then
            l.map_data.clampingThresMinLog
          else l.map_data.cells c } }

/-- The layered map: the base layer, the sensor layers in declared order and the shared map
data whose cells are the merged grid. -/
structure LayeredMap where
  base_map_layer : BaseMapLayer
  layers : List Layer
  map_data : MapData

/-- Embedding of `LayeredMap::update()`: draw the base map, then update from every layer. -/
def LayeredMap.update (M : LayeredMap) : LayeredMap :=
  { M with
    map_data :=
      { M.map_data with
        cells := M.layers.foldl (fun grid l => l.update grid)
          (M.base_map_layer.draw M.map_data.cells) } }

/-- Embedding of `LayeredMap::update(const AABB&)`: the same two steps restricted to the box. -/
def LayeredMap.updateBox (M : LayeredMap) (bb : AABB) : LayeredMap :=
  { M with
    map_data :=
      { M.map_data with
        cells := M.layers.foldl (fun grid l => l.updateBox grid bb)
          (M.base_map_layer.drawBox M.map_data.cells bb) } }

/-- Embedding of `LayeredMap::clearRadius`: the cell of the pose and the radius converted to
whole cells (`const int cell_radius = radius / resolution`) are handed to every layer. -/
def LayeredMap.clearRadius (M : LayeredMap) (pose : ℚ × ℚ) (radius : ℚ) : LayeredMap :=
  let cell_index := M.map_data.dimensions.getCellIndex pose
  let cell_radius := truncToInt (radius / M.map_data.dimensions.resolution)
  { M with layers := M.layers.map (fun l => l.clearRadius cell_index cell_radius) }

/-- Squared distance between two world points. -/
def distSq (a b : ℚ × ℚ) : ℚ :=
  (a.1 - b.1) ^ 2 + (a.2 - b.2) ^ 2

/-- Example map data with every cell at the upper clamp bound `7/2`. -/
def occupiedMap : MapData :=
  { exampleMap with cells := fun _ => 7 / 2 }

/-- Example layered map: an empty base map, one sensor layer whose cells are all occupied and
which writes its own values into the grid, and a merged grid that is all occupied. -/
def exampleLayered : LayeredMap :=
  { base_map_layer := { cells := fun _ => 0 },
    layers := [{ map_data := occupiedMap, render := fun m _ => m.cells }],
    map_data := occupiedMap }

/-- The type tags of `XmlRpc::XmlRpcValue`. -/
inductive XmlRpcType where
  | TypeInvalid
  | TypeBoolean
  | TypeInt
  | TypeDouble
  | TypeString
  | TypeDateTime
  | TypeBase64
  | TypeArray
  | TypeStruct
deriving DecidableEq

/-- A parameter value (`XmlRpc::XmlRpcValue`): a tagged value; a struct maps member names to
values. -/
inductive XmlRpcValue where
  | invalid
  | boolean (b : Bool)
  | int (i : Int)
  | double (d : ℚ)
  | string (s : String)
  | dateTime (t : Int)
  | base64 (bytes : List Nat)
  | array (xs : List XmlRpcValue)
  | struct (members : List (String × XmlRpcValue))

/-- The tag of a value, `XmlRpcValue::getType()`. -/
def XmlRpcValue.getType : XmlRpcValue → XmlRpcType
  | .invalid => .TypeInvalid
  | .boolean _ => .TypeBoolean
  | .int _ => .TypeInt
  | .double _ => .TypeDouble
  | .string _ => .TypeString
  | .dateTime _ => .TypeDateTime
  | .base64 _ => .TypeBase64
  | .array _ => .TypeArray
  | .struct _ => .TypeStruct

/-- The member of a struct value with the given name, if the value is a struct that has one. -/
def XmlRpcValue.member (v : XmlRpcValue) (name : String) : Option XmlRpcValue :=
  match v with
  | .struct members => List.lookup name members
  | _ => none

/-- The test `XmlRpcValue::hasMember(name)`: the value is a struct with a member of that name. -/
def XmlRpcValue.hasMember (v : XmlRpcValue) (name : String) : Bool :=
  (v.member name).isSome

/-- The access `parameters[name]`: the member of that name (an invalid value when the struct
has none). -/
def XmlRpcValue.index (v : XmlRpcValue) (name : String) : XmlRpcValue :=
  (v.member name).getD .invalid

/-- What a parameter read can throw: the `std::runtime_error` of the reader itself, or the
exception of the XmlRpc library when a value is converted to a type it does not hold. -/
inductive ConfigError where
  | runtime_error (what : String)
  | XmlRpcException
deriving DecidableEq

/-- Embedding of `get_config_with_default_warn<T>`; `convert` is the library's conversion
`T(value)`, which yields nothing when the value does not hold a `T`. -/
def get_config_with_default_warn {T : Type} (convert : XmlRpcValue → Option T)
    (parameters : XmlRpcValue) (param_name : String) (default_val : T) (xml_type : XmlRpcType) :
    Except ConfigError T :=
  if parameters.hasMember param_name then
    let value := parameters.index param_name
    if value.getType ≠ xml_type then
      .error (.runtime_error (param_name ++ " has incorrect type"))
    else
      match convert value with
      | some t => .ok t
      | none => .error .XmlRpcException
  else
    .ok default_val

/-- The conversion `double(value)`. -/
def XmlRpcValue.toDouble : XmlRpcValue → Option ℚ
  | .double d => some d
  | _ => none

/-- Example parameters: a hit probability given as a double and a sub-sampling count given as
a string by mistake. -/
def exampleParameters : XmlRpcValue :=
  .struct [("hit_probability", .double (4 / 5)), ("sub_sample", .string "2")]

/-- Example scan whose only beam measures 3 m, beyond the scan's maximum range of 2.5 m but
below the obstacle range of the example layer (3.5 m). -/
def exampleScanBeyondMax : LaserScan :=
  { angle_min := 0, angle_increment := 1 / 100, range_max := .fin (5 / 2), ranges := [.fin 3] }

/-- The map after the ray-trace marks of one beam, before the end-point test. -/
def LaserData.rayMarked (L : LaserData) (inp : LaserInput) (msg : LaserScan)
    (sensor_pt_map : Cell) (m : MapData) (beam : FVal × Vec3) : MapData :=
  let pt := inp.project (beamRange msg beam.1) beam.2
  let ray_end := beamEnd inp m.dimensions sensor_pt_map pt
  markRay L.miss_probability_log
    (inp.raytraceLine sensor_pt_map ray_end m.dimensions.size.1
      (L.cellRaytraceRange m.dimensions)) m

/-- The two end-point updates of one beam, `-miss` then `+hit` at the end cell, applied to the
map that carries the ray-trace marks. -/
def LaserData.endpointUpdated (L : LaserData) (inp : LaserInput) (msg : LaserScan)
    (sensor_pt_map : Cell) (m : MapData) (beam : FVal × Vec3) : MapData :=
  let pt := inp.project (beamRange msg beam.1) beam.2
  let ray_end := beamEnd inp m.dimensions sensor_pt_map pt
  ((L.rayMarked inp msg sensor_pt_map m beam).update ray_end (-L.miss_probability_log)).update
    ray_end L.hit_probability_log

/-- Example input of a sensor mounted 2.5 m high, above the height band `[0, 2]` of the example
layer, looking along the X axis: the end point of every horizontal beam is at that height. -/
def exampleInputHigh : LaserInput :=
  { exampleInput with
    project := fun r d =>
      match r with
      | .fin q => (1 / 2 + q * d.1, 1 / 2 + q * d.2.1, 5 / 2 + q * d.2.2)
      | _ => (1 / 2, 1 / 2, 5 / 2) }

/-- Example map data on which the cell `(0, 0)`, the footprint cell of the example input, holds
the log-odds 1 from earlier evidence; every other cell is unknown. -/
def exampleMapMarked : MapData :=
  { exampleMap with cells := fun c => if c = (0, 0) then 1 else 0 }

/-- Example laser layer on the marked example map. -/
def exampleLaserMarked : LaserData :=
  { exampleLaser with map_data := exampleMapMarked }

/-- Example scan without beams. -/
def exampleScanEmpty : LaserScan :=
  { angle_min := 0, angle_increment := 1 / 100, range_max := .fin 10, ranges := [] }

/-- The layer after a sequence of scans, each handed to `processData` with its input. -/
def LaserData.processScans (L : LaserData) : List (LaserInput × LaserScan) → LaserData
  | [] => L
  | p :: rest => ((L.processData p.1 p.2).2).processScans rest

/-- The effect of the size check of `processData` on the parameters the cached direction table
was built with (`angle_min`, `angle_increment`, beam count): a scan whose beam count differs
from the table's replaces them by its own, any other scan keeps them. -/
def tableStep (p : ℚ × ℚ × Nat) (msg : LaserScan) : ℚ × ℚ × Nat :=
  if p.2.2 ≠ msg.ranges.length then (msg.angle_min, msg.angle_increment, msg.ranges.length)
  else p

/-- The parameters the cached direction table was built with after a sequence of accepted
scans, starting from the empty table of a new layer. -/
def tableParams (scans : List LaserScan) : ℚ × ℚ × Nat :=
  scans.foldl tableStep (0, 0, 0)

/-- Example direction function: a rational unit vector for every angle, `(1, 0, 0)` at angle 0
and a different vector at every other angle (the rational parametrisation of the circle by
half the angle); it stands in for the rotation of the X axis, whose values are irrational. -/
def exampleDirection (a : ℚ) : Vec3 :=
  ((1 - (a / 2) ^ 2) / (1 + (a / 2) ^ 2), 2 * (a / 2) / (1 + (a / 2) ^ 2), 0)

/-- Example input of the sensor of `exampleInput` with the example direction function. -/
def exampleInputTurning : LaserInput :=
  { exampleInput with unitDirection := exampleDirection }

/-- Example scan with the beam count of `exampleScan` (one beam) but starting at angle 1. -/
def exampleScanTurned : LaserScan :=
  { angle_min := 1, angle_increment := 1 / 100, range_max := .fin 10, ranges := [.fin 2] }

/-- The gate of `rangeCallback`: the message is processed when
`sub_sample_ == 0 || (sub_sample_ > 0 && sub_sample_count_ > sub_sample_)`. -/
def RangeData.accepts (R : RangeData) : Bool :=
  decide (R.sub_sample = 0 ∨ (R.sub_sample > 0 ∧ R.sub_sample_count > R.sub_sample))

/-- The layer after a sequence of range messages, each handed to `rangeCallback`. -/
def RangeData.feed (R : RangeData) : List (RangeInput × RangeMsg) → RangeData
  | [] => R
  | p :: rest => (R.rangeCallback p.1 p.2).feed rest

/-- Example range layer with the default `sub_sample = 1`, in the state an accepted message
leaves it in (`sub_sample_count = 0`). -/
def exampleRangeGated : RangeData :=
  { exampleRange with sub_sample := 1, sub_sample_count := 0 }

/-- Example range input on the grid: the sensor in cell `(0, 2)` looking along X, the far
corners two metres ahead, so that the far edge is the column of cells `(2, 1)`, `(2, 2)`,
`(2, 3)`; clipping and ray trace as in `exampleRangeInput`. -/
def exampleRangeInputOn : RangeInput :=
  { exampleRangeInput with
    sensor_pt_2d := (1 / 2, 5 / 2), left_pt_2d := (5 / 2, 7 / 2), right_pt_2d := (5 / 2, 3 / 2) }

/-- The cells of the far edge of the cone: the line `drawLine(left_pt_map, right_pt_map)`. -/
def RangeData.farEdge (R : RangeData) (inp : RangeInput) : List Cell :=
  inp.drawLine (R.map_data.worldToMapNoBounds inp.left_pt_2d)
    (R.map_data.worldToMapNoBounds inp.right_pt_2d)

/-- Example range input on the grid with the far corners three metres ahead of the sensor in
cell `(0, 2)`: the far edge is the column of cells `(3, 1)`, `(3, 2)`, `(3, 3)`. -/
def exampleRangeInputFar : RangeInput :=
  { exampleRangeInput with
    sensor_pt_2d := (1 / 2, 5 / 2), left_pt_2d := (7 / 2, 7 / 2), right_pt_2d := (7 / 2, 3 / 2) }

/-- Example range message: 3 m measured, beyond the obstacle range of 2.5 m of the example
layer, with a maximum range of 4 m. -/
def exampleRangeMsgFar : RangeMsg :=
  { range := .fin 3, max_range := .fin 4, field_of_view := 1 }

end Gridmap

namespace OmniRRT

/-- A single-channel float image (`cv::Mat`): its size and the value at a row and a column. -/
structure Mat where
  rows : Int
  cols : Int
  val : Int → Int → ℚ

/-- The planner's `Costmap`: the distance-to-collision field, the cost field and the geometry
they were built with. -/
structure Costmap where
  distance_to_collision : Mat
  cost : Mat
  resolution : ℚ
  origin_x : ℚ
  origin_y : ℚ

/-- A state of the SE(2) state space: position and yaw. -/
structure SE2State where
  x : ℚ
  y : ℚ
  yaw : ℚ
deriving DecidableEq

/-- A planar rigid transform (`Eigen::Isometry2d`): the translation and the cosine and sine of
the rotation. -/
structure Isometry2d where
  tx : ℚ
  ty : ℚ
  c : ℚ
  s : ℚ
deriving DecidableEq

/-- The ten body-frame offset points of `ValidityChecker` and `CostMapObjective`. -/
def offsets_ : List (ℚ × ℚ) :=
  [(-268 / 1000, 0), (268 / 1000, 0), (265 / 1000, -185 / 1000), (77 / 1000, -185 / 1000),
   (-77 / 1000, -185 / 1000), (-265 / 1000, -185 / 1000), (265 / 1000, 185 / 1000),
   (-265 / 1000, 185 / 1000), (-77 / 1000, 185 / 1000), (77 / 1000, 185 / 1000)]

/-- The product `Eigen::Rotation2Dd(theta) * v`, given the cosine and sine of `theta`. -/
def rotate (cs : ℚ × ℚ) (v : ℚ × ℚ) : ℚ × ℚ :=
  (cs.1 * v.1 - cs.2 * v.2, cs.2 * v.1 + cs.1 * v.2)

/-- The cell `(mx, my)` at which the fields are read for one offset point of a state:
`static_cast<int>((offset_xy - origin) / resolution - 0.5)` on each axis. The parameter
`trig` gives the cosine and sine of an angle. -/
def offsetCell (trig : ℚ → ℚ × ℚ) (cm : Costmap) (st : SE2State) (offset : ℚ × ℚ) : Int × Int :=
  let r := rotate (trig st.yaw) offset
  (Gridmap.truncToInt ((st.x + r.1 - cm.origin_x) / cm.resolution - 1 / 2),
   Gridmap.truncToInt ((st.y + r.2 - cm.origin_y) / cm.resolution - 1 / 2))

/-- The largest finite `double`, `std::numeric_limits<double>::max()`. -/
def DBL_MAX : ℚ := 2 ^ 1024 - 2 ^ 971

/-- The `distance` of one offset point in `ValidityChecker::clearance`: the value of the
distance field at the cell when the cell is inside the field, 0 otherwise. -/
def ValidityChecker.offsetDistance (trig : ℚ → ℚ × ℚ) (cm : Costmap) (st : SE2State)
    (offset : ℚ × ℚ) : ℚ :=
  let m := offsetCell trig cm st offset
  if m.1 ≥ 0 ∧ m.1 < cm.distance_to_collision.cols ∧ m.2 ≥ 0 ∧
      m.2 < cm.distance_to_collision.rows then
    cm.distance_to_collision.val m.2 m.1
  else 0

/-- Embedding of `ValidityChecker::clearance`. -/
def ValidityChecker.clearance (trig : ℚ → ℚ × ℚ) (cm : Costmap) (st : SE2State) : ℚ :=
  offsets_.foldl (fun min_distance offset =>
    min min_distance (ValidityChecker.offsetDistance trig cm st offset)) DBL_MAX

/-- Embedding of `ValidityChecker::isValid`. -/
def ValidityChecker.isValid (trig : ℚ → ℚ × ℚ) (cm : Costmap) (st : SE2State) : Bool :=
  decide (ValidityChecker.clearance trig cm st > 0)

/-- The `cost` of one offset point in `CostMapObjective::stateCost`: the value of the cost
field at the cell when the cell is inside the field, 1 otherwise. -/
def CostMapObjective.offsetCost (trig : ℚ → ℚ × ℚ) (cm : Costmap) (st : SE2State)
    (offset : ℚ × ℚ) : ℚ :=
  let m := offsetCell trig cm st offset
  if m.1 ≥ 0 ∧ m.1 < cm.cost.cols ∧ m.2 ≥ 0 ∧ m.2 < cm.cost.rows then
    cm.cost.val m.2 m.1
  else 1

/-- Embedding of `CostMapObjective::stateCost`. -/
def CostMapObjective.stateCost (trig : ℚ → ℚ × ℚ) (cm : Costmap) (st : SE2State) : ℚ :=
  offsets_.foldl (fun max_cost offset =>
    max max_cost (CostMapObjective.offsetCost trig cm st offset)) 0


/-- The status a planner of the motion-planning library reports (`ompl::base::PlannerStatus`). -/
inductive PlannerStatus where
  | UNKNOWN
  | INVALID_START
  | INVALID_GOAL
  | UNRECOGNIZED_GOAL_TYPE
  | TIMEOUT
  | APPROXIMATE_SOLUTION
  | EXACT_SOLUTION
  | CRASH
  | ABORT
deriving DecidableEq

/-- The outcome of `PathPlanner::plan`. -/
inductive Outcome where
  | FAILED
  | SUCCESSFUL
deriving DecidableEq

/-- The result of `PathPlanner::plan`: outcome, cost and the nodes of the path. -/
structure Result where
  outcome : Outcome
  cost : ℚ
  path : List Isometry2d

/-- The calls into Eigen and into the motion-planning library, whose code is not part of the
repository, taken as parameters:
* `trig theta`: cosine and sine of an angle;
* `smallestAngle (c, s)`: `Rotation2Dd(R).smallestAngle()` of the rotation with that cosine
  and sine;
* `distance`: the distance of the state space (`si_->distance`);
* `checkMotion cm`: the motion check of the space information built on the costmap;
* `solve cm start goal`: the status after the two `solve` calls and the solution path;
* `simplify cm`: `PathSimplifier::simplify(path, 0.05)`;
* `interpolate`: `PathGeometric::interpolate()`;
* `checkAndRepair cm`: `PathGeometric::checkAndRepair(1000)`, the path afterwards and the
  second flag of the returned pair. -/
structure Lib where
  trig : ℚ → ℚ × ℚ
  smallestAngle : ℚ × ℚ → ℚ
  distance : SE2State → SE2State → ℚ
  checkMotion : Costmap → SE2State → SE2State → Bool
  solve : Costmap → SE2State → SE2State → PlannerStatus × List SE2State
  simplify : Costmap → List SE2State → List SE2State
  interpolate : List SE2State → List SE2State
  checkAndRepair : Costmap → List SE2State → List SE2State × Bool

/-- The state built from a pose: `setX`, `setY`, `setYaw(Rotation2Dd(p.linear()).smallestAngle())`. -/
def toState (lib : Lib) (p : Isometry2d) : SE2State :=
  { x := p.tx, y := p.ty, yaw := lib.smallestAngle (p.c, p.s) }

/-- The pose built from a state: `Translation2d(x, y) * Rotation2Dd(theta)`. -/
def toPose (lib : Lib) (st : SE2State) : Isometry2d :=
  { tx := st.x, ty := st.y, c := (lib.trig st.yaw).1, s := (lib.trig st.yaw).2 }

/-- All motions between consecutive states pass the motion check. -/
def checkMotions (lib : Lib) (cm : Costmap) : List SE2State → Bool
  | a :: b :: rest => lib.checkMotion cm a b && checkMotions lib cm (b :: rest)
  | _ => true

/-- The library's `PathGeometric::check()`: the first state is valid and every motion between
consecutive states passes the motion check; an empty path passes. -/
def PathGeometric.check (lib : Lib) (cm : Costmap) (states : List SE2State) : Bool :=
  match states with
  | [] => true
  | s0 :: _ => ValidityChecker.isValid lib.trig cm s0 && checkMotions lib cm states

/-- An optimization objective of the library, as far as path costs need it: the cost of a
motion; costs are combined by addition starting from 0. -/
structure Objective where
  motionCost : SE2State → SE2State → ℚ

/-- The library's `PathLengthOptimizationObjective`: the cost of a motion is its length. -/
def pathLengthObjective (lib : Lib) : Objective :=
  { motionCost := lib.distance }

/-- The library's `MultiOptimizationObjective`: the weighted sum of its components. -/
def multiObjective (components : List (Objective × ℚ)) : Objective :=
  { motionCost := fun a b =>
      components.foldl (fun c comp => c + comp.2 * comp.1.motionCost a b) 0 }

/-- The library's `PathGeometric::cost(objective)`: the motion costs between consecutive states
accumulated from the first state on. -/
def PathGeometric.costFrom (obj : Objective) : ℚ → List SE2State → ℚ
  | acc, a :: b :: rest => PathGeometric.costFrom obj (acc + obj.motionCost a b) (b :: rest)
  | acc, _ => acc

/-- The library's `PathGeometric::cost(objective)`. -/
def PathGeometric.cost (obj : Objective) (states : List SE2State) : ℚ :=
  PathGeometric.costFrom obj 0 states

/-- The library's `PathGeometric::length()`: the sum of the distances between consecutive
states. -/
def PathGeometric.length (lib : Lib) : List SE2State → ℚ
  | a :: b :: rest => lib.distance a b + PathGeometric.length lib (b :: rest)
  | _ => 0

/-- The member `objective_` as `plan` sets it: a multi-objective to which only the path-length
objective is added, with weight 1 (the line adding the cost-map objective is commented out). -/
def OmniRRTPlanner.objective_ (lib : Lib) : Objective :=
  multiObjective [(pathLengthObjective lib, 1)]

/-- Embedding of `OmniRRTPlanner::plan` on the costmap `cm` built from the grid. -/
def OmniRRTPlanner.plan (lib : Lib) (cm : Costmap) (start goal : Isometry2d) : Result :=
  let ompl_start := toState lib start
  let ompl_goal := toState lib goal
  let solved := lib.solve cm ompl_start ompl_goal
  if solved.1 = PlannerStatus.EXACT_SOLUTION ∨ solved.1 = PlannerStatus.APPROXIMATE_SOLUTION then
    let result_path := lib.interpolate (lib.simplify cm solved.2)
    let check_ret := lib.checkAndRepair cm result_path
    if check_ret.2 = true then
      { outcome := Outcome.SUCCESSFUL,
        cost := PathGeometric.cost (OmniRRTPlanner.objective_ lib) check_ret.1,
        path := check_ret.1.map (toPose lib) }
    else
      { outcome := Outcome.FAILED, cost := 0, path := [] }
  else
    { outcome := Outcome.FAILED, cost := 0, path := [] }

/-- What goes wrong when a state object is used without storage: a read or write through the
component pointers of a compound state whose components were never allocated (undefined
behaviour in C++). -/
inductive Fault where
  | unallocatedComponents
deriving DecidableEq

/-- A state object of the library's SE(2) space (`ompl::base::SE2StateSpace::StateType`): the
storage of its components `x`, `y` and `yaw`, present only when a state space allocated it. -/
structure StateObject where
  components : Option SE2State

/-- The declaration `ompl::base::SE2StateSpace::StateType state;` of `valid`: the default
constructor of the library's compound state allocates no component storage. -/
def StateObject.declared : StateObject :=
  { components := none }

/-- The declaration `ompl::base::ScopedState<ompl::base::SE2StateSpace> state(si_);` of `cost`:
the state space allocates the components (the three setters overwrite whatever they hold). -/
def StateObject.scoped : StateObject :=
  { components := some { x := 0, y := 0, yaw := 0 } }

/-- The setter `setX`: a write through the component pointers. -/
def StateObject.setX (obj : StateObject) (v : ℚ) : Except Fault StateObject :=
  match obj.components with
  | none => .error Fault.unallocatedComponents
  | some c => .ok { components := some { c with x := v } }

/-- The setter `setY`: a write through the component pointers. -/
def StateObject.setY (obj : StateObject) (v : ℚ) : Except Fault StateObject :=
  match obj.components with
  | none => .error Fault.unallocatedComponents
  | some c => .ok { components := some { c with y := v } }

/-- The setter `setYaw`: a write through the component pointers. -/
def StateObject.setYaw (obj : StateObject) (v : ℚ) : Except Fault StateObject :=
  match obj.components with
  | none => .error Fault.unallocatedComponents
  | some c => .ok { components := some { c with yaw := v } }

/-- The body of the loops of `valid` and `cost` for one pose, on the state object `obj`:
`setX`, `setY`, `setYaw(Rotation2Dd(p.linear()).smallestAngle())`, then `trajectory.append`,
which copies the components of the state. -/
def buildState (obj : StateObject) (lib : Lib) (p : Isometry2d) : Except Fault SE2State :=
  match obj.setX p.tx with
  | .error e => .error e
  | .ok s1 =>
    match s1.setY p.ty with
    | .error e => .error e
    | .ok s2 =>
      match s2.setYaw (lib.smallestAngle (p.c, p.s)) with
      | .error e => .error e
      | .ok s3 =>
        match s3.components with
        | none => .error Fault.unallocatedComponents
        | some c => .ok c

/-- The loop of `valid` over the nodes of the path: each pose is written into a state object
declared on the stack and appended to the trajectory. -/
def OmniRRTPlanner.validTrajectory (lib : Lib) : List Isometry2d → Except Fault (List SE2State)
  | [] => .ok []
  | p :: rest =>
    match buildState StateObject.declared lib p with
    | .error e => .error e
    | .ok st =>
      match OmniRRTPlanner.validTrajectory lib rest with
      | .error e => .error e
      | .ok sts => .ok (st :: sts)

/-- Embedding of `OmniRRTPlanner::valid`, called after `plan` built the space information on
the costmap `cm`: the value of `trajectory.check()`, or the fault of the loop that builds the
trajectory. -/
def OmniRRTPlanner.valid (lib : Lib) (cm : Costmap) (path : List Isometry2d) :
    Except Fault Bool :=
  match OmniRRTPlanner.validTrajectory lib path with
  | .error e => .error e
  | .ok trajectory => .ok (PathGeometric.check lib cm trajectory)

/-- Embedding of `OmniRRTPlanner::cost`, called after `plan` built the space information on
the costmap `cm`. -/
def OmniRRTPlanner.cost (lib : Lib) (cm : Costmap) (path : List Isometry2d) : ℚ :=
  let trajectory := path.map (toState lib)
  if !PathGeometric.check lib cm trajectory then
    let check_ret := lib.checkAndRepair cm trajectory
    if !check_ret.2 then DBL_MAX
    else PathGeometric.cost (OmniRRTPlanner.objective_ lib) check_ret.1
  else PathGeometric.cost (OmniRRTPlanner.objective_ lib) trajectory

/-- The trapezoid rule of the library's cost integral: mean of the two state costs times the
distance between the states. -/
def trapezoid (c1 c2 dist : ℚ) : ℚ :=
  (1 / 2) * dist * (c1 + c2)

/-- Modelled from the spec: the integral of the per-state cost along the states of a path,
the trapezoid rule applied between consecutive states with `CostMapObjective::stateCost` as
the per-state cost. -/
def stateCostIntegral (lib : Lib) (cm : Costmap) : List SE2State → ℚ
  | a :: b :: rest =>
    trapezoid (CostMapObjective.stateCost lib.trig cm a) (CostMapObjective.stateCost lib.trig cm b)
      (lib.distance a b) + stateCostIntegral lib cm (b :: rest)
  | _ => 0

/-- Example costmap: fields of 10 x 10 cells of one metre, every cell at distance 1 from
collision and at cost `1/2`. -/
def exampleCostmap : Costmap :=
  { distance_to_collision := { rows := 10, cols := 10, val := fun _ _ => 1 },
    cost := { rows := 10, cols := 10, val := fun _ _ => 1 / 2 },
    resolution := 1, origin_x := 0, origin_y := 0 }

/-- Example library behaviour for states of yaw 0: cosine 1 and sine 0, the distance of SE(2)
(planar distance, exact when the squared length is the square of a rational, plus half the
yaw difference), a motion check that tests the end state, a planner that answers with the
straight segment from start to goal, no simplification, no interpolation, and a repair that
leaves the path as it is and reports whether it passes the check. -/
def exampleLib : Lib :=
  { trig := fun _ => (1, 0),
    smallestAngle := fun _ => 0,
    distance := fun a b => Rat.sqrt ((a.x - b.x) ^ 2 + (a.y - b.y) ^ 2) + 1 / 2 * |a.yaw - b.yaw|,
    checkMotion := fun cm _ b => ValidityChecker.isValid (fun _ => (1, 0)) cm b,
    solve := fun _ s g => (PlannerStatus.EXACT_SOLUTION, [s, g]),
    simplify := fun _ p => p,
    interpolate := fun p => p,
    checkAndRepair := fun cm p =>
      (p, match p with
        | [] => true
        | s0 :: rest =>
          ValidityChecker.isValid (fun _ => (1, 0)) cm s0 &&
            rest.all (ValidityChecker.isValid (fun _ => (1, 0)) cm)) }

/-- Example poses: `(2, 5)` and `(5, 5)`, both without rotation. -/
def examplePath : List Isometry2d :=
  [{ tx := 2, ty := 5, c := 1, s := 0 }, { tx := 5, ty := 5, c := 1, s := 0 }]

/-- The local `check_ret` of `plan` together with the repaired path: what the library hands
back after solving from `start` to `goal`, simplifying, interpolating and repairing. -/
def OmniRRTPlanner.repaired (lib : Lib) (cm : Costmap) (start goal : Isometry2d) :
    List SE2State × Bool :=
  lib.checkAndRepair cm
    (lib.interpolate (lib.simplify cm (lib.solve cm (toState lib start) (toState lib goal)).2))

/-- Position of a state. -/
def SE2State.position (st : SE2State) : ℚ × ℚ :=
  (st.x, st.y)

/-- Example costmap of 10 x 10 cells of one metre with its origin at the world origin, whose
fields tell the cells apart: the distance field holds `row + column / 10` and the cost field
`(row + column) / 100`. -/
def exampleCostmapGraded : Costmap :=
  { distance_to_collision := { rows := 10, cols := 10, val := fun r c => (r : ℚ) + (c : ℚ) / 10 },
    cost := { rows := 10, cols := 10, val := fun r c => ((r : ℚ) + (c : ℚ)) / 100 },
    resolution := 1, origin_x := 0, origin_y := 0 }

/-- The geometry of the grid the example costmap was built from. -/
def exampleCostmapDims : Gridmap.MapDimensions :=
  { origin := (0, 0), resolution := 1, size := (10, 10) }

/-- Example state of yaw 0 whose first offset point `(-0.268, 0)` is the world point
`(1.2, 1.2)`. -/
def exampleOffsetState : SE2State :=
  { x := 6 / 5 + 268 / 1000, y := 6 / 5, yaw := 0 }

/-- The distance at the cell that contains an offset point of a state: the offset rotated by the
yaw and translated to the position, the cell given by the world-to-cell mapping of the grid the
field was built from (the floor of `(p - origin) / resolution`), the value of the distance
field there, and 0 when that cell lies outside the field. -/
def containingCellDistance (trig : ℚ → ℚ × ℚ) (cm : Costmap) (st : SE2State)
    (offset : ℚ × ℚ) : ℚ :=
  let r := rotate (trig st.yaw) offset
  let dims : Gridmap.MapDimensions :=
    { origin := (cm.origin_x, cm.origin_y), resolution := cm.resolution,
      size := (cm.distance_to_collision.cols, cm.distance_to_collision.rows) }
  let m := dims.getCellIndex (st.x + r.1, st.y + r.2)
  if dims.contains m then cm.distance_to_collision.val m.2 m.1 else 0

/-- Example costmap of 10 x 10 cells of one metre with its origin at the world origin, whose
distance field is 0 in row 0 and 1 in every other row. -/
def exampleCostmapRowZero : Costmap :=
  { distance_to_collision := { rows := 10, cols := 10, val := fun r _ => if r = 0 then 0 else 1 },
    cost := { rows := 10, cols := 10, val := fun _ _ => 1 / 2 },
    resolution := 1, origin_x := 0, origin_y := 0 }

/-- Example state of yaw 0 at `(0.25, 2.5)`: its offset points `(-0.268, 0)` and
`(-0.265, ±0.185)` lie left of the grid of the example costmaps. -/
def exampleEdgeState : SE2State :=
  { x := 1 / 4, y := 5 / 2, yaw := 0 }

end OmniRRT

namespace costmap_2d

/-- The byte array of a costmap, indexed by `j * size_x + i`. -/
abbrev CharMap := Nat → Nat

/-- A costmap (`Costmap2D`): its size in cells and its byte array. -/
structure Costmap2D where
  size_x : Nat
  size_y : Nat
  costmap_ : CharMap

/-- A costmap layer (`CostmapLayer`): the flag `enabled_` and the layer's own byte array
`costmap_`. -/
structure CostmapLayer where
  enabled_ : Bool
  costmap_ : CharMap

/-- Array with the byte at one index replaced. -/
def setAt (a : CharMap) (k v : Nat) : CharMap :=
  fun n => if n = k then v else a n

/-- The inner loop of the window updates: `count` cells from index `it` on, the index being an
`unsigned int` incremented after each cell; `cell k old` is the byte the loop body leaves at
index `k` when it held `old`. -/
def rowLoop (cell : Nat → Nat → Nat) : Nat → Nat → CharMap → CharMap
  | 0, _, master => master
  | count + 1, it, master =>
    rowLoop cell count ((it + 1) % 2 ^ 32) (setAt master it (cell it (master it)))

/-- The outer loop of the window updates: `count` rows from row `j` on, each starting at index
`j * span + min_i` (in `unsigned int` arithmetic) and covering the columns `min_i .. max_i - 1`. -/
def windowLoop (cell : Nat → Nat → Nat) (span min_i max_i : Nat) : Nat → Nat → CharMap → CharMap
  | 0, _, master => master
  | count + 1, j, master =>
    windowLoop cell span min_i max_i count (j + 1)
      (rowLoop cell (max_i - min_i) ((j * span + min_i) % 2 ^ 32) master)

/-- The loop body of `updateWithMax` at one cell: a layer cell that is `NO_INFORMATION` is
skipped; otherwise the master cell takes the layer's value when it is `NO_INFORMATION` or
smaller. -/
def maxCell (NO_INFORMATION : Nat) (layer_cost old_cost : Nat) : Nat :=
  if layer_cost = NO_INFORMATION then old_cost
  else if old_cost = NO_INFORMATION ∨ old_cost < layer_cost then layer_cost
  else old_cost

/-- Embedding of `CostmapLayer::updateWithMax`; the constant `NO_INFORMATION` of the cost values
header, which is not among the sources, is a parameter. -/
def CostmapLayer.updateWithMax (NO_INFORMATION : Nat) (layer : CostmapLayer)
    (master_grid : Costmap2D) (min_i min_j max_i max_j : Nat) : Costmap2D :=
  if !layer.enabled_ then master_grid
  else
    { master_grid with
      costmap_ := windowLoop (fun it old_cost => maxCell NO_INFORMATION (layer.costmap_ it) old_cost)
        master_grid.size_x min_i max_i (max_j - min_j) min_j master_grid.costmap_ }

/-- The loop body of `updateWithAddition` at one cell: a layer cell that is `NO_INFORMATION` is
skipped; a master cell that is `NO_INFORMATION` takes the layer's value; otherwise the byte
written is `std::max<unsigned char>(old_cost + layer_cost, INSCRIBED_INFLATED_OBSTACLE)`, both
arguments converted to `unsigned char`. -/
def additionCell (NO_INFORMATION INSCRIBED_INFLATED_OBSTACLE : Nat) (layer_cost old_cost : Nat) :
    Nat :=
  if layer_cost = NO_INFORMATION then old_cost
  else if old_cost = NO_INFORMATION then layer_cost
  else max ((old_cost + layer_cost) % 256) (INSCRIBED_INFLATED_OBSTACLE % 256)

/-- Embedding of `CostmapLayer::updateWithAddition`; the constants `NO_INFORMATION` and
`INSCRIBED_INFLATED_OBSTACLE` of the cost values header, which is not among the sources, are
parameters. -/
def CostmapLayer.updateWithAddition (NO_INFORMATION INSCRIBED_INFLATED_OBSTACLE : Nat)
    (layer : CostmapLayer) (master_grid : Costmap2D) (min_i min_j max_i max_j : Nat) : Costmap2D :=
  if !layer.enabled_ then master_grid
  else
    { master_grid with
      costmap_ := windowLoop
        (fun it old_cost =>
          additionCell NO_INFORMATION INSCRIBED_INFLATED_OBSTACLE (layer.costmap_ it) old_cost)
        master_grid.size_x min_i max_i (max_j - min_j) min_j master_grid.costmap_ }

/-- Example master grid: 4 x 3 cells, every byte 1. -/
def exampleMaster : Costmap2D :=
  { size_x := 4, size_y := 3, costmap_ := fun _ => 1 }

/-- Example layer: enabled, cost `index + 1` at every cell except index 5, which is 255. -/
def exampleCostLayer : CostmapLayer :=
  { enabled_ := true, costmap_ := fun k => if k = 5 then 255 else k + 1 }

/-- A point of a footprint (`geometry_msgs::Point`). -/
structure Point where
  x : ℚ
  y : ℚ
  z : ℚ
deriving DecidableEq

/-- Sign of a coordinate with the sign of zero being zero. -/
def sign0 (x : ℚ) : ℚ :=
  if x < 0 then -1 else if x > 0 then 1 else 0

/-- Modelled from the spec: the padding of a footprint behind `Costmap2DROS::getRobotFootprint`
(the code of `Costmap2DROS` is not among the sources; only its tests are): every coordinate is
moved away from zero by the padding. The test `padded_footprint_from_string_param` expects 1 to
become 1.5 and -1 to become -1.5; the test `footprint_empty` expects the point `(0.46, 0)`
padded by 0.01 to become `(0.47, 0)`, so a coordinate that is zero stays zero. -/
def padFootprint (footprint : List Point) (padding : ℚ) : List Point :=
  footprint.map (fun pt =>
    { pt with x := pt.x + sign0 pt.x * padding, y := pt.y + sign0 pt.y * padding })

/-- Modelled from the spec: `Costmap2DROS::getRobotFootprint` for a footprint given as a list of
`[x, y]` points and a footprint padding: the points with `z = 0`, padded. -/
def getRobotFootprint (points : List (ℚ × ℚ)) (footprint_padding : ℚ) : List Point :=
  padFootprint (points.map (fun p => { x := p.1, y := p.2, z := 0 })) footprint_padding

end costmap_2d

namespace navigation_interface

/-- A path (`navigation_interface::Path`): its nodes and its id. -/
structure Path where
  nodes : List OmniRRT.Isometry2d
  id : String
deriving DecidableEq

/-- The struct `KinodynamicState`: a pose and a velocity. -/
structure KinodynamicState where
  pose : OmniRRT.Isometry2d
  velocity : ℚ × ℚ × ℚ
deriving DecidableEq

/-- The struct `Trajectory`: cost, id, the frame of its header and its states. -/
structure Trajectory where
  cost : ℚ
  id : String
  frame_id : String
  states : List KinodynamicState

end navigation_interface

namespace autonomy

/-- The struct `TrackingPath` of the supervisor; times are seconds of the steady clock. -/
structure TrackingPath where
  goal : OmniRRT.Isometry2d
  start_time : ℚ
  start_cost : ℚ
  last_successful_time : ℚ
  last_successful_cost : ℚ
  path : navigation_interface.Path

/-- The member `path_persistence_time_`, initialised to `6.0` in the class. -/
def path_persistence_time_ : ℚ := 6

/-- Modelled from the spec: the swap test of the path-planner tick (the code of
`Autonomy::pathPlannerThread` is not among the sources): swap when
`new_cost < path_swap_fraction · old_cost` or when the current path has been without a
successful re-cost for longer than `path_persistence_time`. -/
def shouldSwap (path_swap_fraction now new_cost old_cost : ℚ) (current : TrackingPath) : Bool :=
  decide (new_cost < path_swap_fraction * old_cost) ||
    decide (now - current.last_successful_time > path_persistence_time_)

/-- A tracking path freshly created for a new path: it starts now with the new cost, and the
path carries the fresh id. -/
def adoptPath (goal : OmniRRT.Isometry2d) (now new_cost : ℚ) (new_path : navigation_interface.Path)
    (fresh_id : String) : TrackingPath :=
  { goal := goal, start_time := now, start_cost := new_cost, last_successful_time := now,
    last_successful_cost := new_cost, path := { new_path with id := fresh_id } }

/-- Modelled from the spec: steps 3 to 5 of a path-planner tick that produced a new path (the
code of `Autonomy::pathPlannerThread` is not among the sources): without a tracking path the
new path is adopted; otherwise it replaces the tracking path when the swap test holds, with a
fresh id, and the tracking path is kept when it does not. -/
def pathPlannerTick (path_swap_fraction : ℚ) (current : Option TrackingPath)
    (goal : OmniRRT.Isometry2d) (now new_cost old_cost : ℚ) (new_path : navigation_interface.Path)
    (fresh_id : String) : Option TrackingPath :=
  match current with
  | none => some (adoptPath goal now new_cost new_path fresh_id)
  | some cur =>
    if shouldSwap path_swap_fraction now new_cost old_cost cur then
      some (adoptPath goal now new_cost new_path fresh_id)
    else some cur

/-- Example tracking path: adopted at time 0 with cost 10, last re-costed at time 3. -/
def exampleTracking : TrackingPath :=
  { goal := { tx := 5, ty := 5, c := 1, s := 0 }, start_time := 0, start_cost := 10,
    last_successful_time := 3, last_successful_cost := 10,
    path := { nodes := OmniRRT.examplePath, id := "path-1" } }

end autonomy

namespace eband_local_planner

/-- Modelled from the spec: the controller states `nav_core::ControlState` (the declaration is
not among the sources): running, complete, failed. -/
inductive ControlState where
  | RUNNING
  | COMPLETE
  | FAILED
deriving DecidableEq

/-- A planar twist (`geometry_msgs::Twist`): linear x, linear y, angular z. -/
structure Twist where
  linear_x : ℚ
  linear_y : ℚ
  angular_z : ℚ
deriving DecidableEq

/-- The result of `computeControl` (`nav_core::Control`). -/
structure Control where
  state : ControlState
  cmd_vel : Twist
deriving DecidableEq

/-- A stamped pose of a plan, reduced to position and yaw. -/
abbrev PoseStamped := ℚ × ℚ × ℚ

/-- The members of `EBandPlannerROS` that `computeControl` reads and writes. -/
structure EBandPlannerROS where
  goal_reached_ : Bool
  plan_start_end_counter_ : List Int
  transformed_plan_ : List PoseStamped

/-- The answers of the collaborators during one call of `computeControl` (costmap, elastic
band, plan transformation, trajectory controller), whose code is not among the sources:
* `getRobotPose`: whether the robot pose was retrieved;
* `addFramesFront`: whether the robot pose was connected to the band;
* `transformGlobalPlan`: success flag, the transformed plan and the start-end counters it
  wrote;
* `addFramesBack frames`: whether the frames were appended to the band;
* `optimizeBand`, `setBand`, `setOdometry`: success flags;
* `getTwist`: success flag, the twist and the value written to `goal_reached_`. -/
structure ControlCalls where
  getRobotPose : Bool
  addFramesFront : Bool
  transformGlobalPlan : Bool × List PoseStamped × List Int
  addFramesBack : List PoseStamped → Bool
  optimizeBand : Bool
  setBand : Bool
  setOdometry : Bool
  getTwist : Bool × Twist × Bool

/-- The access `v.at(i)` of a vector: the element, or the exception `std::out_of_range`. -/
def vectorAt (v : List Int) (i : Nat) : Except String Int :=
  match v[i]? with
  | some x => .ok x
  | none => .error "std::out_of_range"

/-- The result with state `FAILED` and a default twist. -/
def failedControl : Control :=
  { state := ControlState.FAILED, cmd_vel := { linear_x := 0, linear_y := 0, angular_z := 0 } }

/-- The tail of `computeControl` from the band optimisation on. -/
def EBandPlannerROS.controlFromBand (P : EBandPlannerROS) (calls : ControlCalls) :
    Control × EBandPlannerROS :=
  if !calls.optimizeBand then (failedControl, P)
  else if !calls.setBand then (failedControl, P)
  else if !calls.setOdometry then (failedControl, P)
  else
    let P1 := { P with goal_reached_ := calls.getTwist.2.2 }
    if !calls.getTwist.1 then (failedControl, P1)
    else ({ state := ControlState.RUNNING, cmd_vel := calls.getTwist.2.1 }, P1)

/-- Embedding of `EBandPlannerROS::computeControl`: the returned control and the members
afterwards, or the exception that leaves the function (an out-of-range access to the start-end
counters, a failed assertion). -/
def EBandPlannerROS.computeControl (P : EBandPlannerROS) (calls : ControlCalls) :
    Except String (Control × EBandPlannerROS) :=
  if !calls.getRobotPose then .ok (failedControl, P)
  else if !calls.addFramesFront then .ok (failedControl, P)
  else
    let plan_start_end_counter := calls.transformGlobalPlan.2.2
    let P1 := { P with transformed_plan_ := calls.transformGlobalPlan.2.1 }
    if !calls.transformGlobalPlan.1 then .ok (failedControl, P1)
    else if P1.transformed_plan_.isEmpty then .ok (failedControl, P1)
    else do
      let old_end ← vectorAt P1.plan_start_end_counter_ 1
      let new_end ← vectorAt plan_start_end_counter 1
      if old_end > new_end then
        let new_start ← vectorAt plan_start_end_counter 0
        let old_end2 ← vectorAt P1.plan_start_end_counter_ 1
        let append_transformed_plan ←
          if old_end2 > new_start then
            (.ok P1.transformed_plan_ : Except String (List PoseStamped))
          else
            let discarded_frames := new_start - old_end2
            if discarded_frames + 1 ≥ 0 ∧ discarded_frames + 1 < (P1.transformed_plan_.length : Int)
            then .ok (P1.transformed_plan_.drop (discarded_frames + 1).toNat)
            else .error "assertion failed"
        if calls.addFramesBack append_transformed_plan then
          .ok (EBandPlannerROS.controlFromBand
            { P1 with plan_start_end_counter_ := plan_start_end_counter } calls)
        else .ok (failedControl, P1)
      else
        .ok (EBandPlannerROS.controlFromBand P1 calls)

/-- Example members after `setPlan` on a plan of five poses: goal not reached, counters
`[5, 5]`. -/
def examplePlanner : EBandPlannerROS :=
  { goal_reached_ := false, plan_start_end_counter_ := [5, 5],
    transformed_plan_ := [(0, 0, 0), (1, 0, 0)] }

/-- Example call in which every collaborator succeeds, nothing new enters the window, and the
trajectory controller answers with a zero twist and reports the goal reached. -/
def exampleCallsAtGoal : ControlCalls :=
  { getRobotPose := true, addFramesFront := true,
    transformGlobalPlan := (true, [(0, 0, 0), (1, 0, 0)], [5, 5]),
    addFramesBack := fun _ => true, optimizeBand := true, setBand := true, setOdometry := true,
    getTwist := (true, { linear_x := 0, linear_y := 0, angular_z := 0 }, true) }

end eband_local_planner

namespace sim_band_planner

/-- The product `a * b` of two planar rigid transforms. -/
def mul (a b : OmniRRT.Isometry2d) : OmniRRT.Isometry2d :=
  { tx := a.tx + (a.c * b.tx - a.s * b.ty), ty := a.ty + (a.s * b.tx + a.c * b.ty),
    c := a.c * b.c - a.s * b.s, s := a.s * b.c + a.c * b.s }

/-- The inverse of a planar rigid transform (`Isometry2d::inverse()`): the rotation transposed
and the translation `-Rᵀ t`. -/
def inverse (a : OmniRRT.Isometry2d) : OmniRRT.Isometry2d :=
  { tx := -(a.c * a.tx + a.s * a.ty), ty := -(-a.s * a.tx + a.c * a.ty), c := a.c, s := -a.s }

/-- A control point of a band node: body-frame offset, gradient and distance of the distance
field at it. -/
structure ControlPoint where
  offset : ℚ × ℚ
  gradient : ℚ × ℚ
  distance : ℚ
deriving DecidableEq

/-- A node of a band: its pose, its control points and the index of the closest one. -/
structure Node where
  pose : OmniRRT.Isometry2d
  control_points : List ControlPoint
  closest_point : Nat
deriving DecidableEq

/-- The value `node.control_points[node.closest_point].distance` (0 stands for the undefined
access when the index is out of range). -/
def Node.closestDistance (n : Node) : ℚ :=
  match n.control_points[n.closest_point]? with
  | some cp => cp.distance
  | none => 0

/-- A band: its nodes. -/
structure Band where
  nodes : List Node
deriving DecidableEq

/-- The moving window over the nominal path: the path, the window of nodes and the index of the
path node at which the window ends. -/
structure MovingWindow where
  nominal_path : navigation_interface.Path
  window : Band
  end_i : Nat
deriving DecidableEq

/-- The outcome of `TrajectoryPlanner::plan`. -/
inductive Outcome where
  | FAILED
  | PARTIAL
  | SUCCESSFUL
deriving DecidableEq

/-- The result of `TrajectoryPlanner::plan`. -/
structure Result where
  outcome : Outcome
  trajectory : navigation_interface.Trajectory
  path_start_i : Nat
  path_end_i : Nat
  cost : ℚ

/-- The members of `SimBandPlanner` that `plan` reads and writes; the gains that `plan` only
hands on to `simulate` are left to the parameter `simulate`. -/
structure SimBandPlanner where
  moving_window_ : Option MovingWindow
  max_window_length_ : ℚ
  max_holonomic_distance_ : ℚ
  max_reverse_distance_ : ℚ
  rotation_factor_ : ℚ
  max_distance_ : ℚ
  desired_speed_ : ℚ
  spline_ : Bool

/-- The calls of `plan` into code that is not among the sources, taken as parameters; a call
that throws yields an error:
* `updateWindow window robot_pose max_window_length`: the moving window after the update;
* `distanceField`: the construction of the local grid and of its distance field;
* `mkNode pose`: the constructor `Node(pose)`;
* `pathLength path`: `Path::length()`;
* `smallestAngle (c, s)`: `Rotation2Dd(R).smallestAngle()`;
* `simulate band rotation_factor reverse_direction`: the band after `simulate`;
* `splineBand band`: the band resampled along the fitted spline, distances updated. -/
structure PlanCalls where
  updateWindow : MovingWindow → OmniRRT.Isometry2d → ℚ → Except String MovingWindow
  distanceField : Except String Unit
  mkNode : OmniRRT.Isometry2d → Node
  pathLength : navigation_interface.Path → ℚ
  smallestAngle : ℚ × ℚ → ℚ
  simulate : Band → ℚ → Bool → Except String Band
  splineBand : Band → Except String Band

/-- The constant `M_PI` as a `double`. -/
def M_PI : ℚ := 884279719003555 / 281474976710656

/-- The identity transform. -/
def identityPose : OmniRRT.Isometry2d :=
  { tx := 0, ty := 0, c := 1, s := 0 }

/-- Subtraction of `std::size_t` values (64 bit, wrapping). -/
def subSizeT (a b : Nat) : Nat :=
  (a % 2 ^ 64 + 2 ^ 64 - b % 2 ^ 64) % 2 ^ 64

/-- The result object before `plan` fills it. -/
def emptyResult : Result :=
  { outcome := Outcome.FAILED,
    trajectory := { cost := 0, id := "", frame_id := "", states := [] },
    path_start_i := 0, path_end_i := 0, cost := 0 }

/-- The flags `long_path` and `reverse_direction` of `plan`. -/
def SimBandPlanner.regime (P : SimBandPlanner) (calls : PlanCalls) (mw : MovingWindow)
    (robot_pose : OmniRRT.Isometry2d) : Bool × Bool :=
  let path_length := calls.pathLength mw.nominal_path
  let goal_wrt_robot := mul (inverse robot_pose) (mw.nominal_path.nodes.getLastD identityPose)
  let rotation := |calls.smallestAngle (goal_wrt_robot.c, goal_wrt_robot.s)|
  if path_length < P.max_holonomic_distance_ then (false, false)
  else if goal_wrt_robot.tx < 0 ∧ path_length < P.max_reverse_distance_ ∧ rotation < M_PI / 2 then
    (true, true)
  else (true, false)

/-- The first part of the `try` block of `plan`: window update, distance field, assembly of the
band (robot node first, then the window without its first node, or its only node), choice of
the regime and simulation. The result is the moving window as the part leaves it and the
simulated band, or the exception thrown. -/
def SimBandPlanner.simulateBand (P : SimBandPlanner) (calls : PlanCalls) (mw : MovingWindow)
    (robot_state : navigation_interface.KinodynamicState) (map_to_odom : OmniRRT.Isometry2d) :
    MovingWindow × Except String Band :=
  let robot_pose := mul map_to_odom robot_state.pose
  match calls.updateWindow mw robot_pose P.max_window_length_ with
  | .error e => (mw, .error e)
  | .ok mw1 =>
    match calls.distanceField with
    | .error e => (mw1, .error e)
    | .ok _ =>
      let sim_band : Band :=
        { nodes := calls.mkNode robot_pose ::
            (if mw1.window.nodes.length > 1 then mw1.window.nodes.tail
             else mw1.window.nodes.head?.toList) }
      let flags := P.regime calls mw1 robot_pose
      (mw1, calls.simulate sim_band (if flags.1 then P.rotation_factor_ else 0) flags.2)

/-- The index of the first node whose closest control point has a negative distance. -/
def firstCollision : List Node → Option Nat
  | [] => none
  | n :: rest => if n.closestDistance < 0 then some 0 else (firstCollision rest).map (· + 1)

/-- The state built from a band node: the pose in the odom frame and the longitudinal velocity
`desired_speed_ * std::max(0.2, min_distance >= max_distance_ ? 1.0 : 4.0 * min_distance)`. -/
def SimBandPlanner.stateOf (P : SimBandPlanner) (odom_to_map : OmniRRT.Isometry2d) (node : Node) :
    navigation_interface.KinodynamicState :=
  let min_distance := node.closestDistance
  let velocity := P.desired_speed_ * max (1 / 5) (if min_distance ≥ P.max_distance_ then 1 else 4 * min_distance)
  { pose := mul odom_to_map node.pose, velocity := (velocity, 0, 0) }

/-- The result with the trajectory in the odom frame built from the nodes of the final band. -/
def SimBandPlanner.publish (P : SimBandPlanner) (map_to_odom : OmniRRT.Isometry2d)
    (result : Result) (nodes : List Node) : Result :=
  { result with
    cost := 0
    trajectory :=
      { result.trajectory with
        frame_id := "odom"
        states := result.trajectory.states ++ nodes.map (P.stateOf (inverse map_to_odom)) } }

/-- The second part of the `try` block of `plan`, from the copy of the simulated band into the
moving window on: trimming at the first node in collision, optional splining with its check,
and the conversion to a trajectory. -/
def SimBandPlanner.finish (P : SimBandPlanner) (calls : PlanCalls) (mw : MovingWindow)
    (band : Band) (map_to_odom : OmniRRT.Isometry2d) : Result × MovingWindow :=
  let mw1 : MovingWindow := { mw with window := { nodes := band.nodes } }
  let result0 : Result :=
    { emptyResult with outcome := Outcome.SUCCESSFUL, path_start_i := 0, path_end_i := mw1.end_i }
  let trimmed : List Node × Result × MovingWindow :=
    match firstCollision band.nodes with
    | none => (band.nodes, result0, mw1)
    | some i =>
      let nodes := band.nodes.take i
      (nodes,
        { result0 with
          outcome := Outcome.PARTIAL
          path_end_i := subSizeT mw1.end_i (subSizeT (subSizeT nodes.length 1) i) },
        { mw1 with window := { nodes := [] } })
  if trimmed.1.isEmpty then
    ({ trimmed.2.1 with outcome := Outcome.FAILED }, trimmed.2.2)
  else if P.spline_ && decide (trimmed.1.length > 1) then
    match calls.splineBand { nodes := trimmed.1 } with
    | .error _ => ({ trimmed.2.1 with outcome := Outcome.FAILED }, trimmed.2.2)
    | .ok splined =>
      if splined.nodes.any (fun n => decide (n.closestDistance < 0)) then
        ({ trimmed.2.1 with outcome := Outcome.FAILED }, trimmed.2.2)
      else (P.publish map_to_odom trimmed.2.1 splined.nodes, trimmed.2.2)
  else (P.publish map_to_odom trimmed.2.1 trimmed.1, trimmed.2.2)

/-- Embedding of `SimBandPlanner::plan`: the result and the planner afterwards. -/
def SimBandPlanner.plan (P : SimBandPlanner) (calls : PlanCalls)
    (robot_state : navigation_interface.KinodynamicState) (map_to_odom : OmniRRT.Isometry2d) :
    Result × SimBandPlanner :=
  match P.moving_window_ with
  | none => ({ emptyResult with outcome := Outcome.FAILED }, P)
  | some mw =>
    match P.simulateBand calls mw robot_state map_to_odom with
    | (mw1, .error _) =>
      ({ emptyResult with outcome := Outcome.FAILED }, { P with moving_window_ := some mw1 })
    | (mw1, .ok band) =>
      let r := P.finish calls mw1 band map_to_odom
      (r.1, { P with moving_window_ := some r.2 })

/-- The nodes of the band that remain after trimming at the first node in collision. -/
def trimToValid (nodes : List Node) : List Node :=
  match firstCollision nodes with
  | none => nodes
  | some i => nodes.take i

/-- Example node at a pose, with one control point at distance `d`. -/
def nodeAt (pose : OmniRRT.Isometry2d) (d : ℚ) : Node :=
  { pose := pose,
    control_points := [{ offset := (0, 0), gradient := (0, 0), distance := d }],
    closest_point := 0 }

/-- Example node at `(x, 0)` without rotation, with one control point at distance `d`. -/
def exampleNode (x d : ℚ) : Node :=
  nodeAt { tx := x, ty := 0, c := 1, s := 0 } d

/-- Example moving window: a nominal path of four poses along the X axis and a window holding
a node for each of them. -/
def exampleWindow : MovingWindow :=
  { nominal_path :=
      { nodes := [{ tx := 0, ty := 0, c := 1, s := 0 }, { tx := 1, ty := 0, c := 1, s := 0 },
          { tx := 2, ty := 0, c := 1, s := 0 }, { tx := 3, ty := 0, c := 1, s := 0 }],
        id := "path-1" },
    window := { nodes := [exampleNode 0 1, exampleNode 1 1, exampleNode 2 1, exampleNode 3 1] },
    end_i := 3 }

/-- Example calls: the window update keeps the window, the distance field is built, a new node
has one control point at distance `1/2`, the nominal path is 3 m long, the goal is not rotated
against the robot, the simulation leaves the poses and finds every node at `x ≥ 2` in collision
(distance `-1/10`), and splining keeps the poses but finds every node in collision (distance
`-1/20`). -/
def exampleBandCalls : PlanCalls :=
  { updateWindow := fun mw _ _ => .ok mw,
    distanceField := .ok (),
    mkNode := fun p => nodeAt p (1 / 2),
    pathLength := fun _ => 3,
    smallestAngle := fun _ => 0,
    simulate := fun band _ _ =>
      .ok { nodes := band.nodes.map (fun n =>
        if n.pose.tx ≥ 2 then exampleNode n.pose.tx (-1 / 10) else n) },
    splineBand := fun band =>
      .ok { nodes := band.nodes.map (fun n => exampleNode n.pose.tx (-1 / 20)) } }

/-- Example planner holding the example window, splining disabled. -/
def exampleBandPlanner : SimBandPlanner :=
  { moving_window_ := some exampleWindow, max_window_length_ := 5,
    max_holonomic_distance_ := 1, max_reverse_distance_ := 2, rotation_factor_ := 1,
    max_distance_ := 2 / 5, desired_speed_ := 1 / 2, spline_ := false }

/-- Example robot state: at the origin of the odom frame, at rest. -/
def exampleRobotState : navigation_interface.KinodynamicState :=
  { pose := identityPose, velocity := (0, 0, 0) }

/-- The band the example simulation returns: the robot node and the node at `x = 1` free, the
nodes at `x = 2` and `x = 3` in collision. -/
def exampleSimulatedBand : Band :=
  { nodes := [exampleNode 0 (1 / 2), exampleNode 1 1, exampleNode 2 (-1 / 10),
      exampleNode 3 (-1 / 10)] }

/-- Example planner holding the example window, splining enabled. -/
def exampleSplinePlanner : SimBandPlanner :=
  { exampleBandPlanner with spline_ := true }

/-- The band the example splining returns for the two free nodes: both in collision. -/
def exampleSplinedBand : Band :=
  { nodes := [exampleNode 0 (-1 / 20), exampleNode 1 (-1 / 20)] }

/-- The pose `goal_wrt_robot` of `plan`: the last node of the nominal path in the robot frame. -/
def goalWrtRobot (mw : MovingWindow) (robot_pose : OmniRRT.Isometry2d) : OmniRRT.Isometry2d :=
  mul (inverse robot_pose) (mw.nominal_path.nodes.getLastD identityPose)

/-- The condition of the `else if` of `plan` that selects the reverse regime: the goal is behind
the robot, the path is shorter than `max_reverse_distance_` and the rotation to the goal is
below `M_PI / 2`. -/
def SimBandPlanner.reverseCondition (P : SimBandPlanner) (calls : PlanCalls) (mw : MovingWindow)
    (robot_pose : OmniRRT.Isometry2d) : Prop :=
  (goalWrtRobot mw robot_pose).tx < 0 ∧ calls.pathLength mw.nominal_path < P.max_reverse_distance_ ∧
    |calls.smallestAngle ((goalWrtRobot mw robot_pose).c, (goalWrtRobot mw robot_pose).s)| <
      M_PI / 2

/-- The band `sim_band` that `plan` hands to `simulate`: the robot node, then the window
without its first node (or its only node). -/
def simBand (calls : PlanCalls) (mw : MovingWindow) (robot_pose : OmniRRT.Isometry2d) : Band :=
  { nodes := calls.mkNode robot_pose ::
      (if mw.window.nodes.length > 1 then mw.window.nodes.tail
       else mw.window.nodes.head?.toList) }

/-- Example calls for the reverse regime: as `exampleBandCalls` (the nominal path of the example
window is 3 m long), with a `simulate` that records the rotation factor and the reverse flag it
receives in the pose of the only node it returns (`tx` the factor, `ty` 1 for reverse and 0
otherwise). -/
def exampleReverseCalls : PlanCalls :=
  { exampleBandCalls with
    simulate := fun _ rotation_factor reverse_direction =>
      .ok { nodes := [nodeAt ⟨rotation_factor, if reverse_direction then 1 else 0, 1, 0⟩ 1] } }

/-- Example planner that may reverse along paths shorter than 4 m; everything else as in
`exampleBandPlanner` (`max_holonomic_distance = 1`, `rotation_factor = 1`). -/
def exampleReversePlanner : SimBandPlanner :=
  { exampleBandPlanner with max_reverse_distance_ := 4 }

/-- Example robot state one metre beyond the goal of the example window, facing away from it. -/
def exampleRobotStateBeyondGoal : navigation_interface.KinodynamicState :=
  { pose := { tx := 4, ty := 0, c := 1, s := 0 }, velocity := (0, 0, 0) }

end sim_band_planner

/-! ## Theorems -/

namespace Gridmap

theorem clampLog_bounds {lo hi : ℚ} (h : lo ≤ hi) (x : ℚ) :
    lo ≤ clampLog lo hi x ∧ clampLog lo hi x ≤ hi := by
  unfold clampLog
  exact ⟨le_max_left _ _, max_le h (min_le_left _ _)⟩

theorem within_update {lo hi u : ℚ} (h : lo ≤ hi) {m : MapData} (hm : m.within lo hi u)
    (c : Cell) (delta : ℚ) : (m.update c delta).within lo hi u := by
  obtain ⟨h1, h2, h3, h4⟩ := hm
  refine ⟨h1, h2, h3, fun k => ?_⟩
  show (lo ≤ setCell m.cells c _ k ∧ setCell m.cells c _ k ≤ hi) ∨ setCell m.cells c _ k = u
  unfold setCell
  by_cases hk : k = c
  · rw [if_pos hk, h1, h2]
    exact Or.inl (clampLog_bounds h _)
  · rw [if_neg hk]
    exact h4 k

theorem within_setMinThres {lo hi u : ℚ} (h : lo ≤ hi) {m : MapData} (hm : m.within lo hi u)
    (c : Cell) : (m.setMinThres c).within lo hi u := by
  obtain ⟨h1, h2, h3, h4⟩ := hm
  refine ⟨h1, h2, h3, fun k => ?_⟩
  show (lo ≤ setCell m.cells c _ k ∧ setCell m.cells c _ k ≤ hi) ∨ setCell m.cells c _ k = u
  unfold setCell
  by_cases hk : k = c
  · rw [if_pos hk, h1]
    exact Or.inl ⟨le_refl _, h⟩
  · rw [if_neg hk]
    exact h4 k

theorem within_markRay {lo hi u : ℚ} (h : lo ≤ hi) (miss_log : ℚ) (cells : List Cell) :
    ∀ m : MapData, m.within lo hi u → (markRay miss_log cells m).within lo hi u := by
  induction cells with
  | nil => intro m hm; exact hm
  | cons c rest ih =>
    intro m hm
    exact ih _ (within_update h hm c miss_log)

theorem within_clearFootprint {lo hi u : ℚ} (h : lo ≤ hi) (footprint : List Cell) :
    ∀ m : MapData, m.within lo hi u → (clearFootprint footprint m).within lo hi u := by
  induction footprint with
  | nil => intro m hm; exact hm
  | cons c rest ih =>
    intro m hm
    show (clearFootprint rest (if m.dimensions.contains c then m.setMinThres c else m)).within lo hi u
    by_cases hc : m.dimensions.contains c = true
    · rw [if_pos hc]; exact ih _ (within_setMinThres h hm c)
    · rw [if_neg hc]; exact ih _ hm

theorem within_processBeam {lo hi u : ℚ} (h : lo ≤ hi) (L : LaserData) (inp : LaserInput)
    (msg : LaserScan) (sensor_pt_map : Cell) {m : MapData} (hm : m.within lo hi u)
    (beam : FVal × Vec3) : (L.processBeam inp msg sensor_pt_map m beam).within lo hi u := by
  unfold LaserData.processBeam
  simp only []
  split
  · exact hm
  · apply within_clearFootprint h
    split
    · exact within_update h (within_update h (within_markRay h _ _ _ hm) _ _) _ _
    · exact within_markRay h _ _ _ hm

theorem within_beams {lo hi u : ℚ} (h : lo ≤ hi) (L : LaserData) (inp : LaserInput)
    (msg : LaserScan) (sensor_pt_map : Cell) (beams : List (FVal × Vec3)) :
    ∀ m : MapData, m.within lo hi u →
      (beams.foldl (L.processBeam inp msg sensor_pt_map) m).within lo hi u := by
  induction beams with
  | nil => intro m hm; exact hm
  | cons b rest ih =>
    intro m hm
    exact ih _ (within_processBeam h L inp msg sensor_pt_map hm b)

theorem within_processData {lo hi u : ℚ} (h : lo ≤ hi) (L : LaserData) (inp : LaserInput)
    (msg : LaserScan) (hm : L.map_data.within lo hi u) :
    (L.processData inp msg).2.map_data.within lo hi u := by
  unfold LaserData.processData
  simp only []
  split
  · exact hm
  · exact within_beams h L inp msg _ _ _ hm

theorem within_apply {lo hi u : ℚ} (h : lo ≤ hi) {m : MapData} (hm : m.within lo hi u)
    (op : LayerOp) : (LayerOp.apply m op).within lo hi u := by
  cases op with
  | update c delta => exact within_update h hm c delta
  | mark log_cost c => exact within_update h hm c log_cost
  | setMin c => exact within_setMinThres h hm c
  | laserScan L inp msg => exact within_processData h _ inp msg hm

theorem within_ops {lo hi u : ℚ} (h : lo ≤ hi) (ops : List LayerOp) :
    ∀ m : MapData, m.within lo hi u → (ops.foldl LayerOp.apply m).within lo hi u := by
  induction ops with
  | nil => intro m hm; exact hm
  | cons op rest ih =>
    intro m hm
    exact ih _ (within_apply h hm op)

/-- C1: when the clamp bounds form an interval and every cell of the store lies within the
bounds or is unknown, then after any finite sequence of layer operations (clamped updates with
any delta, ray-trace marks, forcing to the minimum, whole laser scans) every cell again lies
within the same bounds or is unknown. -/
theorem layer_ops_keep_cells_bounded (m : MapData) (ops : List LayerOp)
    (hb : m.clampingThresMinLog ≤ m.clampingThresMaxLog) (hs : m.storeOk) (c : Cell) :
    (m.clampingThresMinLog ≤ (ops.foldl LayerOp.apply m).cells c ∧
        (ops.foldl LayerOp.apply m).cells c ≤ m.clampingThresMaxLog) ∨
      (ops.foldl LayerOp.apply m).cells c = m.unknown :=
  (within_ops hb ops m ⟨rfl, rfl, rfl, hs⟩).2.2.2 c

theorem exampleMap_storeOk : exampleMap.storeOk := fun _ => Or.inr rfl

/-- Witness of C1 on the example map: an update beyond the upper bound, a forced minimum,
a miss mark and a whole laser scan. -/
theorem layer_ops_keep_cells_bounded_witness :
    exampleMap.clampingThresMinLog ≤ exampleMap.clampingThresMaxLog ∧ exampleMap.storeOk ∧
    ((exampleMap.clampingThresMinLog ≤
        ([LayerOp.update (1, 0) 10, LayerOp.setMin (2, 2), LayerOp.mark (-2 / 5) (1, 0),
          LayerOp.laserScan exampleLaser exampleInput exampleScan].foldl
            LayerOp.apply exampleMap).cells (1, 0) ∧
      ([LayerOp.update (1, 0) 10, LayerOp.setMin (2, 2), LayerOp.mark (-2 / 5) (1, 0),
          LayerOp.laserScan exampleLaser exampleInput exampleScan].foldl
            LayerOp.apply exampleMap).cells (1, 0) ≤ exampleMap.clampingThresMaxLog) ∨
      ([LayerOp.update (1, 0) 10, LayerOp.setMin (2, 2), LayerOp.mark (-2 / 5) (1, 0),
          LayerOp.laserScan exampleLaser exampleInput exampleScan].foldl
            LayerOp.apply exampleMap).cells (1, 0) = exampleMap.unknown) :=
  ⟨by norm_num [exampleMap], exampleMap_storeOk,
    layer_ops_keep_cells_bounded exampleMap _ (by norm_num [exampleMap]) exampleMap_storeOk (1, 0)⟩

/-- C2 (as stated) fails: with bounds `[-2, 7/2]`, cell value `3`, a hit of `3/2` and a miss of
`-2/5`, hit-then-miss gives `31/10` while miss-then-hit gives `7/2`. -/
theorem clamped_updates_do_not_commute :
    clampLog (-2) (7 / 2) (clampLog (-2) (7 / 2) (3 + 3 / 2) + -2 / 5) ≠
      clampLog (-2) (7 / 2) (clampLog (-2) (7 / 2) (3 + -2 / 5) + 3 / 2) := by
  norm_num [clampLog]

theorem clampLog_add_nonneg {lo hi c d1 d2 : ℚ} (h1 : lo ≤ c) (h2 : c ≤ hi) (ha : 0 ≤ d1)
    (hb : 0 ≤ d2) : clampLog lo hi (clampLog lo hi (c + d1) + d2) = min hi (c + d1 + d2) := by
  have e1 : clampLog lo hi (c + d1) = min hi (c + d1) :=
    max_eq_right (le_min (h1.trans h2) (by linarith))
  have e2 : clampLog lo hi (min hi (c + d1) + d2) = min hi (min hi (c + d1) + d2) :=
    max_eq_right (le_min (h1.trans h2)
      (by have := le_min (h1.trans h2) (show lo ≤ c + d1 by linarith); linarith))
  rw [e1, e2]
  rcases le_total hi (c + d1) with h | h
  · rw [min_eq_left h, min_eq_left (by linarith), min_eq_left (by linarith)]
  · rw [min_eq_right h]

theorem clampLog_add_nonpos {lo hi c d1 d2 : ℚ} (h1 : lo ≤ c) (h2 : c ≤ hi) (ha : d1 ≤ 0)
    (hb : d2 ≤ 0) : clampLog lo hi (clampLog lo hi (c + d1) + d2) = max lo (c + d1 + d2) := by
  have e1 : clampLog lo hi (c + d1) = max lo (c + d1) := by
    unfold clampLog
    rw [min_eq_right (by linarith)]
  have e2 : clampLog lo hi (max lo (c + d1) + d2) = max lo (max lo (c + d1) + d2) := by
    unfold clampLog
    rw [min_eq_right]
    have := max_le (h1.trans h2) (show c + d1 ≤ hi by linarith)
    linarith
  rw [e1, e2]
  rcases le_total (c + d1) lo with h | h
  · rw [max_eq_left h, max_eq_left (by linarith), max_eq_left (by linarith)]
  · rw [max_eq_right h]

/-- C2 (amended): for a cell value within the bounds and two deltas of the same sign, the two
clamped updates give the same value in either order. -/
theorem clamped_updates_commute_same_sign (lo hi c d1 d2 : ℚ) (h1 : lo ≤ c) (h2 : c ≤ hi)
    (hs : (0 ≤ d1 ∧ 0 ≤ d2) ∨ (d1 ≤ 0 ∧ d2 ≤ 0)) :
    clampLog lo hi (clampLog lo hi (c + d1) + d2) =
      clampLog lo hi (clampLog lo hi (c + d2) + d1) := by
  rcases hs with ⟨ha, hb⟩ | ⟨ha, hb⟩
  · rw [clampLog_add_nonneg h1 h2 ha hb, clampLog_add_nonneg h1 h2 hb ha, add_right_comm]
  · rw [clampLog_add_nonpos h1 h2 ha hb, clampLog_add_nonpos h1 h2 hb ha, add_right_comm]

/-- Witness of the amended C2: value `3` in `[-2, 7/2]`, deltas `3/2` and `1` . -/
theorem clamped_updates_commute_same_sign_witness :
    ((-2 : ℚ) ≤ 3 ∧ (3 : ℚ) ≤ 7 / 2 ∧ (((0 : ℚ) ≤ 3 / 2 ∧ (0 : ℚ) ≤ 1) ∨ ((3 / 2 : ℚ) ≤ 0 ∧ (1 : ℚ) ≤ 0))) ∧
    clampLog (-2) (7 / 2) (clampLog (-2) (7 / 2) (3 + 3 / 2) + 1) =
      clampLog (-2) (7 / 2) (clampLog (-2) (7 / 2) (3 + 1) + 3 / 2) :=
  ⟨⟨by norm_num, by norm_num, Or.inl ⟨by norm_num, by norm_num⟩⟩,
    clamped_updates_commute_same_sign (-2) (7 / 2) 3 (3 / 2) 1 (by norm_num) (by norm_num)
      (Or.inl ⟨by norm_num, by norm_num⟩)⟩

theorem contains_eq_false_iff (d : MapDimensions) (c : Cell) :
    d.contains c = false ↔ (c.1 < 0 ∨ c.1 ≥ d.size.1 ∨ c.2 < 0 ∨ c.2 ≥ d.size.2) := by
  unfold MapDimensions.contains
  simp only [Bool.and_eq_false_iff, decide_eq_false_iff_not, not_le, not_lt, ge_iff_le]
  tauto

/-- C6: when the sensor origin maps to a cell outside the grid, `processData` returns false
and leaves the laser layer (its cells included) as it was, and `rangeCallback` returns with
the cells of the range layer unchanged. -/
theorem sensor_off_grid_is_dropped (L : LaserData) (inp : LaserInput) (msg : LaserScan)
    (R : RangeData) (rinp : RangeInput) (rmsg : RangeMsg)
    (hL : L.map_data.dimensions.contains
      (L.map_data.dimensions.getCellIndex inp.sensor_pt_2d) = false)
    (hR : R.map_data.dimensions.contains
      (R.map_data.worldToMapNoBounds rinp.sensor_pt_2d) = false) :
    L.processData inp msg = (false, L) ∧
      (R.rangeCallback rinp rmsg).map_data = R.map_data := by
  constructor
  · unfold LaserData.processData
    simp only []
    rw [if_pos ((contains_eq_false_iff _ _).mp hL)]
  · unfold RangeData.rangeCallback
    simp only []
    split
    · rw [if_pos ((contains_eq_false_iff _ _).mp hR)]
    · rfl

/-- Witness of C6: sensors one metre left of the example grid. -/
theorem sensor_off_grid_is_dropped_witness :
    (exampleLaser.map_data.dimensions.contains
      (exampleLaser.map_data.dimensions.getCellIndex exampleInputOff.sensor_pt_2d) = false ∧
     exampleRange.map_data.dimensions.contains
      (exampleRange.map_data.worldToMapNoBounds exampleRangeInput.sensor_pt_2d) = false) ∧
    (exampleLaser.processData exampleInputOff exampleScan = (false, exampleLaser) ∧
      (exampleRange.rangeCallback exampleRangeInput exampleRangeMsg).map_data =
        exampleRange.map_data) :=
  ⟨⟨by decide!, by decide!⟩,
    sensor_off_grid_is_dropped exampleLaser exampleInputOff exampleScan exampleRange
      exampleRangeInput exampleRangeMsg (by decide!) (by decide!)⟩

theorem sameFrame_refl (m : MapData) : m.sameFrame m := ⟨rfl, rfl, rfl, rfl⟩

theorem sameFrame_trans {a b c : MapData} (h1 : a.sameFrame b) (h2 : b.sameFrame c) :
    a.sameFrame c :=
  ⟨h2.1.trans h1.1, h2.2.1.trans h1.2.1, h2.2.2.1.trans h1.2.2.1, h2.2.2.2.trans h1.2.2.2⟩

theorem sameFrame_update (m : MapData) (c : Cell) (delta : ℚ) : m.sameFrame (m.update c delta) :=
  ⟨rfl, rfl, rfl, rfl⟩

theorem sameFrame_setMinThres (m : MapData) (c : Cell) : m.sameFrame (m.setMinThres c) :=
  ⟨rfl, rfl, rfl, rfl⟩

theorem sameFrame_markRay (miss_log : ℚ) (cells : List Cell) :
    ∀ m : MapData, m.sameFrame (markRay miss_log cells m) := by
  induction cells with
  | nil => intro m; exact sameFrame_refl m
  | cons c rest ih =>
    intro m
    exact sameFrame_trans (sameFrame_update m c miss_log) (ih _)

theorem sameFrame_clearFootprint (footprint : List Cell) :
    ∀ m : MapData, m.sameFrame (clearFootprint footprint m) := by
  induction footprint with
  | nil => intro m; exact sameFrame_refl m
  | cons c rest ih =>
    intro m
    show m.sameFrame (clearFootprint rest (if m.dimensions.contains c then m.setMinThres c else m))
    by_cases hc : m.dimensions.contains c = true
    · rw [if_pos hc]; exact sameFrame_trans (sameFrame_setMinThres m c) (ih _)
    · rw [if_neg hc]; exact ih _

theorem sameFrame_processBeam (L : LaserData) (inp : LaserInput) (msg : LaserScan)
    (sensor_pt_map : Cell) (m : MapData) (beam : FVal × Vec3) :
    m.sameFrame (L.processBeam inp msg sensor_pt_map m beam) := by
  unfold LaserData.processBeam
  simp only []
  split
  · exact sameFrame_refl m
  · refine sameFrame_trans ?_ (sameFrame_clearFootprint _ _)
    split
    · exact sameFrame_trans (sameFrame_markRay _ _ m)
        (sameFrame_trans (sameFrame_update _ _ _) (sameFrame_update _ _ _))
    · exact sameFrame_markRay _ _ m

theorem sameFrame_beams (L : LaserData) (inp : LaserInput) (msg : LaserScan)
    (sensor_pt_map : Cell) (beams : List (FVal × Vec3)) :
    ∀ m : MapData, m.sameFrame (beams.foldl (L.processBeam inp msg sensor_pt_map) m) := by
  induction beams with
  | nil => intro m; exact sameFrame_refl m
  | cons b rest ih =>
    intro m
    exact sameFrame_trans (sameFrame_processBeam L inp msg sensor_pt_map m b) (ih _)

theorem update_cells_ne (m : MapData) {c k : Cell} (h : k ≠ c) (delta : ℚ) :
    (m.update c delta).cells k = m.cells k := by
  show setCell m.cells c _ k = m.cells k
  unfold setCell
  rw [if_neg h]

theorem markRay_cells_not_mem (miss_log : ℚ) (cells : List Cell) :
    ∀ (m : MapData) (k : Cell), k ∉ cells → (markRay miss_log cells m).cells k = m.cells k := by
  induction cells with
  | nil => intro m k _; rfl
  | cons c rest ih =>
    intro m k hk
    have h1 : k ≠ c := fun e => hk (e ▸ List.mem_cons_self _ _)
    have h2 : k ∉ rest := fun e => hk (List.mem_cons_of_mem _ e)
    show (markRay miss_log rest (m.update c miss_log)).cells k = m.cells k
    rw [ih _ k h2, update_cells_ne m h1]

theorem clearFootprint_cells (footprint : List Cell) :
    ∀ (m : MapData) (k : Cell), (clearFootprint footprint m).cells k =
      if k ∈ footprint ∧ m.dimensions.contains k = true then m.clampingThresMinLog
      else m.cells k := by
  induction footprint with
  | nil => intro m k; simp [clearFootprint]
  | cons c rest ih =>
    intro m k
    show (clearFootprint rest (if m.dimensions.contains c then m.setMinThres c else m)).cells k = _
    by_cases hc : m.dimensions.contains c = true
    · rw [if_pos hc, ih]
      show (if k ∈ rest ∧ m.dimensions.contains k = true then m.clampingThresMinLog
        else setCell m.cells c m.clampingThresMinLog k) = _
      unfold setCell
      by_cases hk : k = c
      · subst hk
        simp [hc]
      · simp [hk]
    · rw [if_neg hc, ih]
      by_cases hk : k = c
      · subst hk
        simp [hc]
      · simp [hk]

theorem processBeam_footprint_cell (L : LaserData) (inp : LaserInput) (msg : LaserScan)
    (sensor_pt_map : Cell) (m : MapData) (beam : FVal × Vec3) {k : Cell}
    (hk : k ∈ inp.footprint) (hin : m.dimensions.contains k = true) :
    (L.processBeam inp msg sensor_pt_map m beam).cells k =
      if L.beamAccepted inp msg beam = true then m.clampingThresMinLog else m.cells k := by
  unfold LaserData.processBeam LaserData.beamAccepted
  simp only []
  by_cases hr : L.heightRejected (inp.project (beamRange msg beam.1) beam.2) = true
  · simp [hr]
  · rw [if_neg hr, clearFootprint_cells]
    simp only [Bool.not_eq_true] at hr
    simp only [hr, Bool.not_false, if_true]
    split
    · have f := sameFrame_trans (sameFrame_markRay L.miss_probability_log
          (inp.raytraceLine sensor_pt_map
            (beamEnd inp m.dimensions sensor_pt_map (inp.project (beamRange msg beam.1) beam.2))
            m.dimensions.size.1 (L.cellRaytraceRange m.dimensions)) m)
        (sameFrame_trans (sameFrame_update _
          (beamEnd inp m.dimensions sensor_pt_map (inp.project (beamRange msg beam.1) beam.2))
          (-L.miss_probability_log))
          (sameFrame_update _
          (beamEnd inp m.dimensions sensor_pt_map (inp.project (beamRange msg beam.1) beam.2))
          L.hit_probability_log))
      rw [f.1, f.2.1, if_pos ⟨hk, hin⟩]
    · have f := sameFrame_markRay L.miss_probability_log
          (inp.raytraceLine sensor_pt_map
            (beamEnd inp m.dimensions sensor_pt_map (inp.project (beamRange msg beam.1) beam.2))
            m.dimensions.size.1 (L.cellRaytraceRange m.dimensions)) m
      rw [f.1, f.2.1, if_pos ⟨hk, hin⟩]

theorem processBeam_untouched_cell (L : LaserData) (inp : LaserInput) (msg : LaserScan)
    (sensor_pt_map : Cell) (m : MapData) (beam : FVal × Vec3) {k : Cell}
    (hk : k ∉ L.beamTouched inp msg sensor_pt_map m.dimensions beam)
    (hf : ¬ (k ∈ inp.footprint ∧ m.dimensions.contains k = true)) :
    (L.processBeam inp msg sensor_pt_map m beam).cells k = m.cells k := by
  unfold LaserData.processBeam
  unfold LaserData.beamTouched at hk
  simp only [] at hk ⊢
  by_cases hr : L.heightRejected (inp.project (beamRange msg beam.1) beam.2) = true
  · rw [if_pos hr]
  · rw [if_neg hr] at hk ⊢
    have h1 : k ≠ beamEnd inp m.dimensions sensor_pt_map
        (inp.project (beamRange msg beam.1) beam.2) :=
      fun e => hk (e ▸ List.mem_cons_self _ _)
    have h2 : k ∉ inp.raytraceLine sensor_pt_map
        (beamEnd inp m.dimensions sensor_pt_map (inp.project (beamRange msg beam.1) beam.2))
        m.dimensions.size.1 (L.cellRaytraceRange m.dimensions) :=
      fun e => hk (List.mem_cons_of_mem _ e)
    rw [clearFootprint_cells]
    split
    · have f := sameFrame_trans (sameFrame_markRay L.miss_probability_log
          (inp.raytraceLine sensor_pt_map
            (beamEnd inp m.dimensions sensor_pt_map (inp.project (beamRange msg beam.1) beam.2))
            m.dimensions.size.1 (L.cellRaytraceRange m.dimensions)) m)
        (sameFrame_trans (sameFrame_update _
          (beamEnd inp m.dimensions sensor_pt_map (inp.project (beamRange msg beam.1) beam.2))
          (-L.miss_probability_log))
          (sameFrame_update _
          (beamEnd inp m.dimensions sensor_pt_map (inp.project (beamRange msg beam.1) beam.2))
          L.hit_probability_log))
      rw [f.1, if_neg hf, update_cells_ne _ h1, update_cells_ne _ h1,
        markRay_cells_not_mem _ _ _ _ h2]
    · have f := sameFrame_markRay L.miss_probability_log
          (inp.raytraceLine sensor_pt_map
            (beamEnd inp m.dimensions sensor_pt_map (inp.project (beamRange msg beam.1) beam.2))
            m.dimensions.size.1 (L.cellRaytraceRange m.dimensions)) m
      rw [f.1, if_neg hf, markRay_cells_not_mem _ _ _ _ h2]

theorem beams_footprint_cell (L : LaserData) (inp : LaserInput) (msg : LaserScan)
    (sensor_pt_map : Cell) (beams : List (FVal × Vec3)) {k : Cell} (hk : k ∈ inp.footprint) :
    ∀ m : MapData, m.dimensions.contains k = true →
      (beams.foldl (L.processBeam inp msg sensor_pt_map) m).cells k =
        if beams.any (L.beamAccepted inp msg) = true then m.clampingThresMinLog
        else m.cells k := by
  induction beams with
  | nil => intro m _; simp
  | cons b rest ih =>
    intro m hin
    have f := sameFrame_processBeam L inp msg sensor_pt_map m b
    have hin2 : (L.processBeam inp msg sensor_pt_map m b).dimensions.contains k = true := by
      rw [f.1]; exact hin
    rw [List.foldl_cons, ih _ hin2, f.2.1,
      processBeam_footprint_cell L inp msg sensor_pt_map m b hk hin, List.any_cons]
    cases L.beamAccepted inp msg b
    · rw [Bool.false_or]
      simp only [Bool.false_eq_true, if_false]
    · rw [Bool.true_or]
      simp only [if_true]
      split <;> rfl

theorem beams_untouched_cell (L : LaserData) (inp : LaserInput) (msg : LaserScan)
    (sensor_pt_map : Cell) (d : MapDimensions) (beams : List (FVal × Vec3)) {k : Cell}
    (hk : ∀ b ∈ beams, k ∉ L.beamTouched inp msg sensor_pt_map d b)
    (hf : ¬ (k ∈ inp.footprint ∧ d.contains k = true)) :
    ∀ m : MapData, m.dimensions = d →
      (beams.foldl (L.processBeam inp msg sensor_pt_map) m).cells k = m.cells k := by
  induction beams with
  | nil => intro m _; rfl
  | cons b rest ih =>
    intro m hd
    have f := sameFrame_processBeam L inp msg sensor_pt_map m b
    rw [List.foldl_cons, ih (fun x hx => hk x (List.mem_cons_of_mem _ hx)) _ (f.1.trans hd)]
    apply processBeam_untouched_cell
    · rw [hd]; exact hk b (List.mem_cons_self _ _)
    · rw [hd]; exact hf

theorem directionTable_length (unitDirection : ℚ → Vec3) (increment : ℚ) (n : Nat) :
    ∀ angle : ℚ, (directionTable unitDirection angle increment n).length = n := by
  induction n with
  | zero => intro angle; rfl
  | succ n ih => intro angle; simp [directionTable, ih]

theorem refreshDirections_length (L : LaserData) (inp : LaserInput) (msg : LaserScan) :
    (L.refreshDirections inp msg).length = msg.ranges.length := by
  unfold LaserData.refreshDirections
  split
  · exact directionTable_length _ _ _ _
  · rename_i h
    exact not_not.mp h

/-- On a sensor inside the grid, the result of `processData`. -/
theorem processData_on_grid (L : LaserData) (inp : LaserInput) (msg : LaserScan)
    (h : L.map_data.dimensions.contains
      (L.map_data.dimensions.getCellIndex inp.sensor_pt_2d) = true) :
    L.processData inp msg = (true,
      { L with
        laser_directions := L.refreshDirections inp msg
        map_data := (msg.ranges.zip (L.refreshDirections inp msg)).foldl
          (L.processBeam inp msg (L.map_data.dimensions.getCellIndex inp.sensor_pt_2d))
          L.map_data }) := by
  unfold LaserData.processData
  simp only []
  rw [if_neg]
  intro hoff
  rw [← contains_eq_false_iff, h] at hoff
  exact Bool.noConfusion hoff

/-- C5 (amended): applying the same scan a second time leaves every footprint cell inside the
grid, and every cell that no beam of the scan reaches, with the value it had after the first
application. -/
theorem second_scan_keeps_footprint_and_unreached (L : LaserData) (inp : LaserInput)
    (msg : LaserScan) (c : Cell)
    (hc : (c ∈ inp.footprint ∧ L.map_data.dimensions.contains c = true) ∨
      c ∉ L.scanTouched inp msg) :
    ((L.processData inp msg).2.processData inp msg).2.map_data.cells c =
      (L.processData inp msg).2.map_data.cells c := by
  by_cases hon : L.map_data.dimensions.contains
      (L.map_data.dimensions.getCellIndex inp.sensor_pt_2d) = true
  · have e1 := processData_on_grid L inp msg hon
    have f := sameFrame_beams L inp msg
      (L.map_data.dimensions.getCellIndex inp.sensor_pt_2d)
      (msg.ranges.zip (L.refreshDirections inp msg)) L.map_data
    have hon2 : (L.processData inp msg).2.map_data.dimensions.contains
        ((L.processData inp msg).2.map_data.dimensions.getCellIndex inp.sensor_pt_2d) = true := by
      rw [e1]
      show MapDimensions.contains (MapData.dimensions (List.foldl _ _ _))
        (MapDimensions.getCellIndex (MapData.dimensions (List.foldl _ _ _)) _) = true
      rw [f.1]
      exact hon
    have e2 := processData_on_grid (L.processData inp msg).2 inp msg hon2
    have hdirs : (L.processData inp msg).2.refreshDirections inp msg =
        L.refreshDirections inp msg := by
      rw [e1]
      unfold LaserData.refreshDirections
      simp only []
      have hl := refreshDirections_length L inp msg
      unfold LaserData.refreshDirections at hl
      rw [if_neg (not_not.mpr hl)]
    rw [e2]
    simp only []
    rw [hdirs]
    rw [e1]
    simp only []
    rw [f.1]
    by_cases hf : c ∈ inp.footprint ∧ L.map_data.dimensions.contains c = true
    · obtain ⟨hk, hin⟩ := hf
      have hin2 : (List.foldl
          (L.processBeam inp msg (L.map_data.dimensions.getCellIndex inp.sensor_pt_2d))
          L.map_data (msg.ranges.zip (L.refreshDirections inp msg))).dimensions.contains c
            = true := by
        rw [f.1]; exact hin
      have a1 := beams_footprint_cell L inp msg
        (L.map_data.dimensions.getCellIndex inp.sensor_pt_2d)
        (msg.ranges.zip (L.refreshDirections inp msg)) hk L.map_data hin
      have a2 := beams_footprint_cell L inp msg
        (L.map_data.dimensions.getCellIndex inp.sensor_pt_2d)
        (msg.ranges.zip (L.refreshDirections inp msg)) hk _ hin2
      refine Eq.trans a2 ?_
      rw [f.2.1]
      by_cases hany : (msg.ranges.zip (L.refreshDirections inp msg)).any
          (L.beamAccepted inp msg) = true
      · rw [if_pos hany, a1, if_pos hany]
      · rw [if_neg hany]
    · have hk : c ∉ L.scanTouched inp msg := hc.resolve_left hf
      exact beams_untouched_cell L inp msg _ L.map_data.dimensions _
        (fun b hb hmem => hk (by
          unfold LaserData.scanTouched
          exact List.mem_flatMap.mpr ⟨b, hb, hmem⟩)) hf _ f.1
  · have hoff : L.map_data.dimensions.contains
        (L.map_data.dimensions.getCellIndex inp.sensor_pt_2d) = false := by
      simpa using hon
    have e : L.processData inp msg = (false, L) := by
      unfold LaserData.processData
      simp only []
      rw [if_pos ((contains_eq_false_iff _ _).mp hoff)]
    rw [e]
    show (L.processData inp msg).2.map_data.cells c = L.map_data.cells c
    rw [e]

/-- C5 (as stated) fails: on the example layer the scan is accepted, and the cell `(1, 0)` on
the ray holds `-2/5` after the first application and `-4/5` after the second. -/
theorem second_scan_changes_ray_cell :
    (exampleLaser.processData exampleInput exampleScan).1 = true ∧
    ((exampleLaser.processData exampleInput exampleScan).2.processData
        exampleInput exampleScan).2.map_data.cells (1, 0) ≠
      (exampleLaser.processData exampleInput exampleScan).2.map_data.cells (1, 0) :=
  ⟨by decide!, by decide!⟩

/-- Witness of the amended C5: the footprint cell `(0, 0)` of the example scan. -/
theorem second_scan_keeps_footprint_and_unreached_witness :
    (((0, 0) ∈ exampleInput.footprint ∧
        exampleLaser.map_data.dimensions.contains (0, 0) = true) ∨
      (0, 0) ∉ exampleLaser.scanTouched exampleInput exampleScan) ∧
    ((exampleLaser.processData exampleInput exampleScan).2.processData
        exampleInput exampleScan).2.map_data.cells (0, 0) =
      (exampleLaser.processData exampleInput exampleScan).2.map_data.cells (0, 0) :=
  ⟨Or.inl ⟨by decide!, by decide!⟩,
    second_scan_keeps_footprint_and_unreached exampleLaser exampleInput exampleScan (0, 0)
      (Or.inl ⟨by decide!, by decide!⟩)⟩

/-- C3 (as stated) fails: on the example map (resolution 1) with pose `(9/10, 9/10)` inside the
grid and radius `9/10`, the centre of cell `(1, 1)` lies within the radius, yet after
`clearRadius` neither the merged grid nor the layer holds `min_log` there. -/
theorem clearRadius_misses_cell_in_radius :
    exampleLayered.map_data.dimensions.contains
        (exampleLayered.map_data.dimensions.getCellIndex (9 / 10, 9 / 10)) = true ∧
    (0 : ℚ) ≤ 9 / 10 ∧
    distSq (exampleLayered.map_data.dimensions.getCellCenter (1, 1)) (9 / 10, 9 / 10) ≤
        (9 / 10) ^ 2 ∧
    (exampleLayered.clearRadius (9 / 10, 9 / 10) (9 / 10)).map_data.cells (1, 1) ≠
        exampleLayered.map_data.clampingThresMinLog ∧
    ∀ l ∈ (exampleLayered.clearRadius (9 / 10, 9 / 10) (9 / 10)).layers,
      l.map_data.cells (1, 1) ≠ l.map_data.clampingThresMinLog := by
  refine ⟨by decide!, by decide!, by decide!, by decide!, ?_⟩
  intro l hl
  have hl2 : l = Layer.clearRadius
      { map_data := occupiedMap, render := fun m _ => m.cells }
      (exampleLayered.map_data.dimensions.getCellIndex (9 / 10, 9 / 10))
      (truncToInt (9 / 10 / exampleLayered.map_data.dimensions.resolution)) := by
    simpa [LayeredMap.clearRadius, exampleLayered] using hl
  subst hl2
  decide!

theorem truncToInt_nonneg {q : ℚ} (h : 0 ≤ q) : 0 ≤ truncToInt q := by
  unfold truncToInt
  rw [if_pos h]
  exact Int.floor_nonneg.mpr h

/-- C3 (amended): for a radius `r ≥ 0` on a grid of positive resolution, after
`clearRadius(p, r)` every sensor layer holds `min_log`, in its own cell store, at every cell
within `trunc(r / resolution)` cells of the cell containing `p`; the merged grid is not
written. -/
theorem clearRadius_clears_layers_in_cell_radius (M : LayeredMap) (pose : ℚ × ℚ) (radius : ℚ)
    (c : Cell) (hr : 0 ≤ radius) (hres : 0 < M.map_data.dimensions.resolution)
    (hc : (c.1 - (M.map_data.dimensions.getCellIndex pose).1) ^ 2 +
        (c.2 - (M.map_data.dimensions.getCellIndex pose).2) ^ 2 ≤
      truncToInt (radius / M.map_data.dimensions.resolution) ^ 2) :
    (∀ l ∈ (M.clearRadius pose radius).layers,
        l.map_data.cells c = l.map_data.clampingThresMinLog) ∧
      (M.clearRadius pose radius).layers.length = M.layers.length ∧
      (M.clearRadius pose radius).map_data = M.map_data := by
  refine ⟨?_, ?_, rfl⟩
  · intro l hl
    unfold LayeredMap.clearRadius at hl
    simp only [List.mem_map] at hl
    obtain ⟨l0, _, rfl⟩ := hl
    show (if 0 ≤ truncToInt (radius / M.map_data.dimensions.resolution) ∧ _ then
      l0.map_data.clampingThresMinLog else l0.map_data.cells c) = l0.map_data.clampingThresMinLog
    rw [if_pos ⟨truncToInt_nonneg (div_nonneg hr hres.le), hc⟩]
  · unfold LayeredMap.clearRadius
    simp only [List.length_map]

/-- Witness of the amended C3: pose `(5/2, 5/2)`, radius `3/2` (one whole cell), cell `(3, 2)`. -/
theorem clearRadius_clears_layers_in_cell_radius_witness :
    ((0 : ℚ) ≤ 3 / 2 ∧ 0 < exampleLayered.map_data.dimensions.resolution ∧
      (((3, 2) : Cell).1 - (exampleLayered.map_data.dimensions.getCellIndex (5 / 2, 5 / 2)).1) ^ 2 +
        (((3, 2) : Cell).2 - (exampleLayered.map_data.dimensions.getCellIndex (5 / 2, 5 / 2)).2) ^ 2 ≤
      truncToInt ((3 / 2 : ℚ) / exampleLayered.map_data.dimensions.resolution) ^ 2) ∧
    ((∀ l ∈ (exampleLayered.clearRadius (5 / 2, 5 / 2) (3 / 2)).layers,
        l.map_data.cells (3, 2) = l.map_data.clampingThresMinLog) ∧
      (exampleLayered.clearRadius (5 / 2, 5 / 2) (3 / 2)).layers.length =
        exampleLayered.layers.length ∧
      (exampleLayered.clearRadius (5 / 2, 5 / 2) (3 / 2)).map_data = exampleLayered.map_data) :=
  ⟨⟨by decide!, by decide!, by decide!⟩,
    clearRadius_clears_layers_in_cell_radius exampleLayered (5 / 2, 5 / 2) (3 / 2) (3, 2)
      (by decide!) (by decide!) (by decide!)⟩

theorem layers_updateBox_outside (bb : AABB) (c : Cell) (hc : bb.contains c = false)
    (layers : List Layer) :
    ∀ grid : CellStore, layers.foldl (fun g l => l.updateBox g bb) grid c = grid c := by
  induction layers with
  | nil => intro grid; rfl
  | cons l rest ih =>
    intro grid
    rw [List.foldl_cons, ih]
    unfold Layer.updateBox
    simp only [hc, Bool.false_eq_true, if_false]

/-- C4: `LayeredMap::update(bb)` (base draw restricted to the box, then every layer's update
restricted to the box) leaves every cell outside the box with the value it had. -/
theorem updateBox_keeps_cells_outside (M : LayeredMap) (bb : AABB) (c : Cell)
    (hc : bb.contains c = false) :
    (M.updateBox bb).map_data.cells c = M.map_data.cells c := by
  show M.layers.foldl (fun g l => l.updateBox g bb)
    (M.base_map_layer.drawBox M.map_data.cells bb) c = M.map_data.cells c
  rw [layers_updateBox_outside bb c hc]
  unfold BaseMapLayer.drawBox
  simp only [hc, Bool.false_eq_true, if_false]

/-- Witness of C4: the box of the four cells `(0..1, 0..1)` and the cell `(3, 3)` outside it. -/
theorem updateBox_keeps_cells_outside_witness :
    AABB.contains { roi_start := (0, 0), roi_size := (2, 2) } (3, 3) = false ∧
    (exampleLayered.updateBox { roi_start := (0, 0), roi_size := (2, 2) }).map_data.cells (3, 3) =
      exampleLayered.map_data.cells (3, 3) :=
  ⟨by decide!, updateBox_keeps_cells_outside exampleLayered _ (3, 3) (by decide!)⟩

/-- C17: `get_config_with_default_warn` returns the default when the parameters have no member
of that name, returns the stored value when the member has the expected type (and converts to
`T`), and throws `std::runtime_error` exactly when the member is present with another type. -/
theorem get_config_default_value_or_type_error {T : Type} (convert : XmlRpcValue → Option T)
    (parameters : XmlRpcValue) (param_name : String) (default_val : T) (xml_type : XmlRpcType) :
    (parameters.member param_name = none →
      get_config_with_default_warn convert parameters param_name default_val xml_type =
        .ok default_val) ∧
    (∀ (v : XmlRpcValue) (t : T), parameters.member param_name = some v →
      v.getType = xml_type → convert v = some t →
      get_config_with_default_warn convert parameters param_name default_val xml_type = .ok t) ∧
    ((∃ what, get_config_with_default_warn convert parameters param_name default_val xml_type =
        .error (.runtime_error what)) ↔
      ∃ v, parameters.member param_name = some v ∧ v.getType ≠ xml_type) := by
  unfold get_config_with_default_warn XmlRpcValue.hasMember XmlRpcValue.index
  cases hm : parameters.member param_name with
  | none => simp
  | some v =>
    simp only [Option.isSome_some, if_true, Option.getD_some]
    refine ⟨fun h => Option.noConfusion h, ?_, ?_⟩
    · intro v2 t hv ht hc
      have hv2 : v = v2 := Option.some.inj hv
      subst hv2
      simp [ht, hc]
    · by_cases ht : v.getType = xml_type
      · simp only [ht, ne_eq, not_true_eq_false, if_false]
        constructor
        · rintro ⟨what, hw⟩
          cases hc : convert v with
          | none => rw [hc] at hw; cases hw
          | some t => rw [hc] at hw; cases hw
        · rintro ⟨v2, hv, hne⟩
          have hv2 : v = v2 := Option.some.inj hv
          subst hv2
          exact absurd ht hne
      · simp only [ne_eq, ht, not_false_eq_true, if_true]
        exact ⟨fun _ => ⟨v, rfl, ht⟩, fun _ => ⟨_, rfl⟩⟩

/-- The three behaviours of the parameter reader on the example parameters: a missing member
gives the default, a double member gives its value, a string where an int is expected throws. -/
theorem get_config_examples :
    get_config_with_default_warn XmlRpcValue.toDouble exampleParameters "miss_probability"
        (2 / 5) .TypeDouble = .ok (2 / 5) ∧
    get_config_with_default_warn XmlRpcValue.toDouble exampleParameters "hit_probability"
        (7 / 10) .TypeDouble = .ok (4 / 5) ∧
    get_config_with_default_warn XmlRpcValue.toDouble exampleParameters "sub_sample"
        1 .TypeInt = .error (.runtime_error "sub_sample has incorrect type") := by
  refine ⟨?_, ?_, ?_⟩ <;>
    simp [get_config_with_default_warn, XmlRpcValue.hasMember, XmlRpcValue.member,
      XmlRpcValue.index, exampleParameters, List.lookup, XmlRpcValue.getType,
      XmlRpcValue.toDouble]

/-- C21 (as stated) fails: the only beam of the example scan measures a finite 3 m, below the
obstacle range of 3.5 m, and passes the height filter, yet `processData` applies no end-point
update: the scan's `range_max` is 2.5 m, and the end cell `(3, 0)` holds the miss mark `-2/5`
of the ray alone, where the end-point updates would have left `3/2`. -/
theorem finite_range_beyond_range_max_gets_no_hit :
    exampleLaser.beamAccepted exampleInput exampleScanBeyondMax (.fin 3, (1, 0, 0)) = true ∧
    (3 : ℚ) < exampleLaser.obstacle_range ∧
    (exampleLaser.processData exampleInput exampleScanBeyondMax).1 = true ∧
    (exampleLaser.processData exampleInput exampleScanBeyondMax).2.map_data.cells (3, 0) =
      -2 / 5 ∧
    (clearFootprint exampleInput.footprint
      (exampleLaser.rayMarked exampleInput exampleScanBeyondMax (0, 0) exampleMap
        (.fin 3, (1, 0, 0)))).cells (3, 0) = -2 / 5 ∧
    (clearFootprint exampleInput.footprint
      (exampleLaser.endpointUpdated exampleInput exampleScanBeyondMax (0, 0) exampleMap
        (.fin 3, (1, 0, 0)))).cells (3, 0) = 3 / 2 := by
  refine ⟨by decide!, by decide!, by decide!, by decide!, by decide!, by decide!⟩

/-- C21 (amended): for a beam that passes the height filter and whose measured range is finite,
`+inf` or NaN, `processData` applies the end-point updates (`-miss`, then `+hit`, at the beam's
end cell, after the ray-trace marks and before the footprint is cleared) if and only if the
measured range is finite, below the scan's `range_max` and below `obstacle_range`. -/
theorem endpoint_updates_iff_finite_below_range_max_and_obstacle_range (L : LaserData)
    (inp : LaserInput) (msg : LaserScan) (sensor_pt_map : Cell) (m : MapData) (r : FVal)
    (dir : Vec3) (hr : r ≠ FVal.negInf)
    (hacc : L.beamAccepted inp msg (r, dir) = true) :
    ((∃ q : ℚ, r = .fin q ∧ FVal.lt (.fin q) msg.range_max = true ∧ q < L.obstacle_range) →
      L.processBeam inp msg sensor_pt_map m (r, dir) =
        clearFootprint inp.footprint (L.endpointUpdated inp msg sensor_pt_map m (r, dir))) ∧
    (¬ (∃ q : ℚ, r = .fin q ∧ FVal.lt (.fin q) msg.range_max = true ∧ q < L.obstacle_range) →
      L.processBeam inp msg sensor_pt_map m (r, dir) =
        clearFootprint inp.footprint (L.rayMarked inp msg sensor_pt_map m (r, dir))) := by
  have hrej : L.heightRejected (inp.project (beamRange msg r) dir) = false := by
    simpa [LaserData.beamAccepted] using hacc
  constructor
  · rintro ⟨q, rfl, h1, h2⟩
    have hb : beamRange msg (.fin q) = .fin q := by simp [beamRange, FVal.isFinite]
    rw [hb] at hrej
    have hcond : (FVal.lt (.fin q) msg.range_max &&
        FVal.lt (.fin q) (.fin L.obstacle_range)) = true := by
      rw [h1]
      simp [FVal.lt, h2]
    unfold LaserData.processBeam LaserData.endpointUpdated LaserData.rayMarked
    simp only [hb, hrej, hcond, Bool.false_eq_true, if_false, if_true]
  · intro hno
    have hcond : (FVal.lt (beamRange msg r) msg.range_max &&
        FVal.lt (beamRange msg r) (.fin L.obstacle_range)) = false := by
      cases r with
      | fin q =>
        have hb : beamRange msg (.fin q) = .fin q := by simp [beamRange, FVal.isFinite]
        rw [hb]
        by_cases h1 : FVal.lt (.fin q) msg.range_max = true
        · have h2 : ¬ q < L.obstacle_range := fun h2 => hno ⟨q, rfl, h1, h2⟩
          simp [FVal.lt, h2]
        · simp [h1]
      | posInf =>
        have hb : beamRange msg .posInf = msg.range_max := by
          simp [beamRange, FVal.isFinite, FVal.lt]
        rw [hb]
        have : FVal.lt msg.range_max msg.range_max = false := by
          cases msg.range_max <;> simp [FVal.lt]
        simp [this]
      | negInf => exact absurd rfl hr
      | nan =>
        have hb : beamRange msg .nan = .nan := by simp [beamRange, FVal.isFinite, FVal.lt]
        rw [hb]
        simp [FVal.lt]
    unfold LaserData.processBeam LaserData.rayMarked
    simp only [hrej, hcond, Bool.false_eq_true, if_false]

/-- Witness of C21 (amended): the beam of the example scan, 2 m measured with a maximum range
of 10 m and an obstacle range of 3.5 m. -/
theorem endpoint_updates_iff_finite_below_range_max_and_obstacle_range_witness :
    ((FVal.fin 2 ≠ FVal.negInf ∧
      exampleLaser.beamAccepted exampleInput exampleScan (.fin 2, (1, 0, 0)) = true) ∧
     (∃ q : ℚ, FVal.fin 2 = .fin q ∧ FVal.lt (.fin q) exampleScan.range_max = true ∧
        q < exampleLaser.obstacle_range)) ∧
    exampleLaser.processBeam exampleInput exampleScan (0, 0) exampleMap (.fin 2, (1, 0, 0)) =
      clearFootprint exampleInput.footprint
        (exampleLaser.endpointUpdated exampleInput exampleScan (0, 0) exampleMap
          (.fin 2, (1, 0, 0))) :=
  ⟨⟨⟨by decide, by decide!⟩, ⟨2, rfl, by decide!, by decide!⟩⟩,
    (endpoint_updates_iff_finite_below_range_max_and_obstacle_range exampleLaser exampleInput
      exampleScan (0, 0) exampleMap (.fin 2) (1, 0, 0) (by decide) (by decide!)).1
      ⟨2, rfl, by decide!, by decide!⟩⟩

theorem beams_all_rejected (L : LaserData) (inp : LaserInput) (msg : LaserScan)
    (sensor_pt_map : Cell) (beams : List (FVal × Vec3))
    (h : ∀ b ∈ beams, L.beamAccepted inp msg b = false) :
    ∀ m : MapData, beams.foldl (L.processBeam inp msg sensor_pt_map) m = m := by
  induction beams with
  | nil => intro m; rfl
  | cons b rest ih =>
    intro m
    have hb : L.heightRejected (inp.project (beamRange msg b.1) b.2) = true := by
      simpa [LaserData.beamAccepted] using h b (List.mem_cons_self _ _)
    have hstep : L.processBeam inp msg sensor_pt_map m b = m := by
      unfold LaserData.processBeam
      simp only [hb, if_true]
    rw [List.foldl_cons, hstep]
    exact ih (fun b2 hb2 => h b2 (List.mem_cons_of_mem _ hb2)) m

/-- A scan none of whose beams passes the height filter (a scan without beams included) leaves
the cells as they were, the footprint cells included. -/
theorem processData_all_rejected_keeps_map (L : LaserData) (inp : LaserInput) (msg : LaserScan)
    (h : ∀ b ∈ msg.ranges.zip (L.refreshDirections inp msg), L.beamAccepted inp msg b = false) :
    (L.processData inp msg).2.map_data = L.map_data := by
  unfold LaserData.processData
  simp only []
  split
  · rfl
  · exact beams_all_rejected L inp msg _ _ h L.map_data

/-- C22 at the failing input: a scan whose only beam is rejected by the height filter (the
sensor is mounted above the height band), and a scan without beams, on a map whose footprint
cell `(0, 0)` holds the log-odds 1: `processData` returns true and the footprint cell, which
lies inside the grid, still holds 1, not `min_log = -2`. -/
theorem footprint_not_cleared_without_accepted_beam :
    exampleInputHigh.footprint = [(0, 0)] ∧
    exampleLaserMarked.map_data.dimensions.contains (0, 0) = true ∧
    exampleLaserMarked.map_data.clampingThresMinLog = -2 ∧
    exampleLaserMarked.beamAccepted exampleInputHigh exampleScan (.fin 2, (1, 0, 0)) = false ∧
    (exampleLaserMarked.processData exampleInputHigh exampleScan).1 = true ∧
    (exampleLaserMarked.processData exampleInputHigh exampleScan).2.map_data.cells (0, 0) = 1 ∧
    (exampleLaserMarked.processData exampleInput exampleScanEmpty).1 = true ∧
    (exampleLaserMarked.processData exampleInput exampleScanEmpty).2.map_data.cells (0, 0) =
      1 := by
  refine ⟨rfl, by decide!, by decide!, by decide!, by decide!, by decide!, by decide!,
    by decide!⟩

theorem directionTable_getElem (u : ℚ → Vec3) (inc : ℚ) (n : Nat) :
    ∀ (angle : ℚ) (i : Nat), i < n →
      (directionTable u angle inc n)[i]? = some (u (angle + (i : ℚ) * inc)) := by
  induction n with
  | zero => intro angle i hi; exact absurd hi (Nat.not_lt_zero i)
  | succ n ih =>
    intro angle i hi
    cases i with
    | zero => simp [directionTable]
    | succ j =>
      have h := ih (angle + inc) j (Nat.lt_of_succ_lt_succ hi)
      simp only [directionTable, List.getElem?_cons_succ, h]
      congr 2
      push_cast
      ring

theorem tableStep_count (p : ℚ × ℚ × Nat) (msg : LaserScan) :
    (tableStep p msg).2.2 = msg.ranges.length := by
  unfold tableStep
  by_cases h : p.2.2 ≠ msg.ranges.length
  · rw [if_pos h]
  · rw [if_neg h]; exact not_not.mp h

theorem refreshDirections_of_table (u : ℚ → Vec3) (L : LaserData) (inp : LaserInput)
    (msg : LaserScan) (p : ℚ × ℚ × Nat) (hu : inp.unitDirection = u)
    (hL : L.laser_directions = directionTable u p.1 p.2.1 p.2.2) :
    L.refreshDirections inp msg =
      directionTable u (tableStep p msg).1 (tableStep p msg).2.1 (tableStep p msg).2.2 := by
  unfold LaserData.refreshDirections tableStep
  rw [hL, directionTable_length, hu]
  by_cases h : p.2.2 ≠ msg.ranges.length
  · rw [if_pos h, if_pos h]
  · rw [if_neg h, if_neg h]

theorem processData_directions_and_dimensions (L : LaserData) (inp : LaserInput)
    (msg : LaserScan)
    (h : L.map_data.dimensions.contains
      (L.map_data.dimensions.getCellIndex inp.sensor_pt_2d) = true) :
    (L.processData inp msg).2.laser_directions = L.refreshDirections inp msg ∧
      (L.processData inp msg).2.map_data.dimensions = L.map_data.dimensions := by
  rw [processData_on_grid L inp msg h]
  exact ⟨rfl, (sameFrame_beams L inp msg _ _ L.map_data).1⟩

theorem processScans_table (u : ℚ → Vec3) (history : List (LaserInput × LaserScan)) :
    ∀ (L : LaserData) (p : ℚ × ℚ × Nat),
      L.laser_directions = directionTable u p.1 p.2.1 p.2.2 →
      (∀ e ∈ history, e.1.unitDirection = u) →
      (∀ e ∈ history, L.map_data.dimensions.contains
        (L.map_data.dimensions.getCellIndex e.1.sensor_pt_2d) = true) →
      (L.processScans history).laser_directions =
        directionTable u ((history.map Prod.snd).foldl tableStep p).1
          ((history.map Prod.snd).foldl tableStep p).2.1
          ((history.map Prod.snd).foldl tableStep p).2.2 := by
  induction history with
  | nil => intro L p hL _ _; exact hL
  | cons e rest ih =>
    intro L p hL hu hacc
    have h1 := processData_directions_and_dimensions L e.1 e.2
      (hacc e (List.mem_cons_self _ _))
    have hdir : (L.processData e.1 e.2).2.laser_directions =
        directionTable u (tableStep p e.2).1 (tableStep p e.2).2.1 (tableStep p e.2).2.2 := by
      rw [h1.1]
      exact refreshDirections_of_table u L e.1 e.2 p (hu e (List.mem_cons_self _ _)) hL
    have hrest := ih (L.processData e.1 e.2).2 (tableStep p e.2) hdir
      (fun e2 he2 => hu e2 (List.mem_cons_of_mem _ he2))
      (fun e2 he2 => by rw [h1.2]; exact hacc e2 (List.mem_cons_of_mem _ he2))
    simpa [LaserData.processScans] using hrest

/-- C23 (as stated) fails: after the example scan (one beam, `angle_min = 0`) a second accepted
scan with one beam and `angle_min = 1` is processed with the cached direction of angle 0,
`(1, 0, 0)`, not with the direction at its own `angle_min + 0 * angle_increment`. -/
theorem same_beam_count_keeps_stale_direction :
    (exampleLaser.processData exampleInputTurning exampleScan).1 = true ∧
    ((exampleLaser.processData exampleInputTurning exampleScan).2.processData
      exampleInputTurning exampleScanTurned).1 = true ∧
    exampleScan.ranges.length = exampleScanTurned.ranges.length ∧
    ((exampleLaser.processData exampleInputTurning exampleScan).2.refreshDirections
      exampleInputTurning exampleScanTurned)[0]? = some (1, 0, 0) ∧
    exampleInputTurning.unitDirection
      (exampleScanTurned.angle_min + 0 * exampleScanTurned.angle_increment) =
        (3 / 5, 4 / 5, 0) := by
  refine ⟨by decide!, by decide!, by decide, by decide!, by decide!⟩

/-- C23 (amended): for a new layer (empty direction cache), every sequence of accepted scans and
the scan then processed, the direction used for beam `i` is the unit vector at angle
`a + i * inc`, where `a`, `inc` are the `angle_min` and `angle_increment` the cached table was
last built with: those of the processed scan when its beam count differs from the table's
(which is the beam count of the previous accepted scan, 0 before the first), and otherwise
the ones already used for the previous scan. -/
theorem beam_direction_from_last_table_rebuild (u : ℚ → Vec3) (L0 : LaserData)
    (history : List (LaserInput × LaserScan)) (inp : LaserInput) (msg : LaserScan)
    (hempty : L0.laser_directions = [])
    (hu : ∀ e ∈ history, e.1.unitDirection = u) (hcur : inp.unitDirection = u)
    (hacc : ∀ e ∈ history, L0.map_data.dimensions.contains
      (L0.map_data.dimensions.getCellIndex e.1.sensor_pt_2d) = true) :
    (∀ i : Nat, i < msg.ranges.length →
      ((L0.processScans history).refreshDirections inp msg)[i]? =
        some (u ((tableParams (history.map Prod.snd ++ [msg])).1 +
          (i : ℚ) * (tableParams (history.map Prod.snd ++ [msg])).2.1))) ∧
    ((tableParams (history.map Prod.snd)).2.2 ≠ msg.ranges.length →
      tableParams (history.map Prod.snd ++ [msg]) =
        (msg.angle_min, msg.angle_increment, msg.ranges.length)) ∧
    ((tableParams (history.map Prod.snd)).2.2 = msg.ranges.length →
      tableParams (history.map Prod.snd ++ [msg]) = tableParams (history.map Prod.snd)) ∧
    (∀ (earlier : List (LaserInput × LaserScan)) (prev : LaserInput × LaserScan),
      history = earlier ++ [prev] →
        (tableParams (history.map Prod.snd)).2.2 = prev.2.ranges.length) ∧
    (history = [] → (tableParams (history.map Prod.snd)).2.2 = 0) := by
  have happ : tableParams (history.map Prod.snd ++ [msg]) =
      tableStep (tableParams (history.map Prod.snd)) msg := by
    unfold tableParams
    rw [List.foldl_append]
    rfl
  refine ⟨?_, ?_, ?_, ?_, ?_⟩
  · intro i hi
    have hL := processScans_table u history L0 (0, 0, 0) (by rw [hempty]; rfl) hu hacc
    have hr := refreshDirections_of_table u (L0.processScans history) inp msg
      ((history.map Prod.snd).foldl tableStep (0, 0, 0)) hcur hL
    rw [hr, happ]
    have hcount := tableStep_count (tableParams (history.map Prod.snd)) msg
    unfold tableParams at hcount ⊢
    exact directionTable_getElem u _ _ _ i (by rw [hcount]; exact hi)
  · intro h
    rw [happ]
    unfold tableStep
    rw [if_pos h]
  · intro h
    rw [happ]
    unfold tableStep
    rw [if_neg (not_not.mpr h)]
  · intro earlier prev he
    subst he
    unfold tableParams
    rw [List.map_append, List.foldl_append]
    exact tableStep_count _ _
  · intro he
    subst he
    rfl

/-- Witness of C23 (amended): the example scan followed by the turned scan of the same beam
count, both with the example direction function. -/
theorem beam_direction_from_last_table_rebuild_witness :
    (exampleLaser.laser_directions = [] ∧
      (∀ e ∈ [(exampleInputTurning, exampleScan)], e.1.unitDirection = exampleDirection) ∧
      exampleInputTurning.unitDirection = exampleDirection ∧
      (∀ e ∈ [(exampleInputTurning, exampleScan)], exampleLaser.map_data.dimensions.contains
        (exampleLaser.map_data.dimensions.getCellIndex e.1.sensor_pt_2d) = true)) ∧
    ((exampleLaser.processScans [(exampleInputTurning, exampleScan)]).refreshDirections
      exampleInputTurning exampleScanTurned)[0]? =
        some (exampleDirection ((tableParams ([exampleScan] ++ [exampleScanTurned])).1 +
          ((0 : Nat) : ℚ) * (tableParams ([exampleScan] ++ [exampleScanTurned])).2.1)) :=
  ⟨⟨rfl, by intro e he; rw [List.mem_singleton.mp he]; rfl, rfl,
      by intro e he; rw [List.mem_singleton.mp he]; decide!⟩,
    (beam_direction_from_last_table_rebuild exampleDirection exampleLaser
      [(exampleInputTurning, exampleScan)] exampleInputTurning exampleScanTurned rfl
      (by intro e he; rw [List.mem_singleton.mp he]; rfl) rfl
      (by intro e he; rw [List.mem_singleton.mp he]; decide!)).1 0 (by decide)⟩

theorem rangeCallback_of_not_accepts (R : RangeData) (inp : RangeInput) (msg : RangeMsg)
    (h : R.accepts = false) :
    R.rangeCallback inp msg = { R with sub_sample_count := R.sub_sample_count + 1 } := by
  unfold RangeData.rangeCallback
  rw [if_neg]
  simpa [RangeData.accepts] using h

/-- With `sub_sample = n ≥ 1`, the messages that follow an accepted one are skipped as long as
there are at most `n + 1` of them: each only increments the counter. -/
theorem feed_skips_up_to_sub_sample_plus_one (msgs : List (RangeInput × RangeMsg)) :
    ∀ R : RangeData, 1 ≤ R.sub_sample → 0 ≤ R.sub_sample_count →
      R.sub_sample_count + msgs.length ≤ R.sub_sample + 1 →
      R.feed msgs = { R with sub_sample_count := R.sub_sample_count + msgs.length } := by
  induction msgs with
  | nil => intro R _ _ _; simp [RangeData.feed]
  | cons p rest ih =>
    intro R hn hc hlen
    have hlen2 : R.sub_sample_count + ((rest.length : Int) + 1) ≤ R.sub_sample + 1 := by
      simpa using hlen
    have hacc : R.accepts = false := by
      have h1 : ¬ R.sub_sample = 0 := by omega
      have h2 : ¬ R.sub_sample_count > R.sub_sample := by
        have : (0 : Int) ≤ rest.length := Int.natCast_nonneg _
        omega
      simp [RangeData.accepts, h1, h2]
    have hstep := rangeCallback_of_not_accepts R p.1 p.2 hacc
    have hrest := ih (R.rangeCallback p.1 p.2) (by rw [hstep]; exact hn)
      (by rw [hstep]; show 0 ≤ R.sub_sample_count + 1; omega)
      (by rw [hstep]; show R.sub_sample_count + 1 + (rest.length : Int) ≤ R.sub_sample + 1; omega)
    rw [RangeData.feed, hrest, hstep]
    simp only [List.length_cons, Nat.cast_add, Nat.cast_one]
    congr 1
    ring

/-- C24 at the failing input: with the default `sub_sample = 1`, after an accepted message
(`sub_sample_count = 0`) the next two messages are skipped (the counter goes to 1 and 2, the
cell `(2, 2)` of the far edge stays unknown) and only the third one is accepted (the counter
returns to 0 and the cell receives its evidence): one message in three, not every message. -/
theorem sub_sample_one_accepts_every_third_message :
    exampleRangeGated.sub_sample = 1 ∧ exampleRangeGated.sub_sample_count = 0 ∧
    exampleRangeGated.accepts = false ∧
    (exampleRangeGated.feed [(exampleRangeInputOn, exampleRangeMsg)]).sub_sample_count = 1 ∧
    (exampleRangeGated.feed [(exampleRangeInputOn, exampleRangeMsg)]).map_data.cells (2, 2) =
      0 ∧
    (exampleRangeGated.feed [(exampleRangeInputOn, exampleRangeMsg)]).accepts = false ∧
    (exampleRangeGated.feed [(exampleRangeInputOn, exampleRangeMsg),
      (exampleRangeInputOn, exampleRangeMsg)]).sub_sample_count = 2 ∧
    (exampleRangeGated.feed [(exampleRangeInputOn, exampleRangeMsg),
      (exampleRangeInputOn, exampleRangeMsg)]).map_data.cells (2, 2) = 0 ∧
    (exampleRangeGated.feed [(exampleRangeInputOn, exampleRangeMsg),
      (exampleRangeInputOn, exampleRangeMsg)]).accepts = true ∧
    (exampleRangeGated.feed [(exampleRangeInputOn, exampleRangeMsg),
      (exampleRangeInputOn, exampleRangeMsg),
      (exampleRangeInputOn, exampleRangeMsg)]).sub_sample_count = 0 ∧
    (exampleRangeGated.feed [(exampleRangeInputOn, exampleRangeMsg),
      (exampleRangeInputOn, exampleRangeMsg),
      (exampleRangeInputOn, exampleRangeMsg)]).map_data.cells (2, 2) = -3 / 2 := by
  refine ⟨rfl, rfl, by decide!, by decide!, by decide!, by decide!, by decide!, by decide!,
    by decide!, by decide!, by decide!⟩

theorem feed_accepts_after_sub_sample_plus_one (msgs : List (RangeInput × RangeMsg))
    (R : RangeData) (hn : 1 ≤ R.sub_sample) (hc : R.sub_sample_count = 0)
    (hlen : (msgs.length : Int) = R.sub_sample + 1) : (R.feed msgs).accepts = true := by
  rw [feed_skips_up_to_sub_sample_plus_one msgs R hn (by omega) (by omega)]
  have h : R.sub_sample_count + (msgs.length : Int) > R.sub_sample := by omega
  simp [RangeData.accepts, h]
  omega

theorem rangeFraction_eq (i n : Nat) (hn : 0 < n) :
    rangeFraction i n = 1 - |(((2 * (i : ℤ) - (n : ℤ) : ℤ)) : ℚ)| / (2 * (n : ℚ)) := by
  have hnq : (0 : ℚ) < (n : ℚ) := Nat.cast_pos.mpr hn
  have h2 : (0 : ℚ) < 2 * (n : ℚ) := by linarith
  have h : (i : ℚ) / (n : ℚ) - 1 / 2 = (((2 * (i : ℤ) - (n : ℤ) : ℤ)) : ℚ) / (2 * (n : ℚ)) := by
    push_cast
    field_simp
    ring
  unfold rangeFraction
  rw [h, abs_div, abs_of_pos h2]

theorem rangeFraction_bounds (i n : Nat) (hi : i < n) :
    1 / 2 ≤ rangeFraction i n ∧ rangeFraction i n ≤ 1 ∧
      rangeFraction i n ≤ rangeFraction (n / 2) n := by
  have hn : 0 < n := by omega
  have hnq : (0 : ℚ) < (n : ℚ) := Nat.cast_pos.mpr hn
  have h2 : (0 : ℚ) < 2 * (n : ℚ) := by linarith
  rw [rangeFraction_eq i n hn, rangeFraction_eq (n / 2) n hn]
  have ha : |(2 * (i : ℤ) - (n : ℤ))| ≤ (n : ℤ) := abs_le.mpr ⟨by omega, by omega⟩
  have hb : |(2 * ((n / 2 : ℕ) : ℤ) - (n : ℤ))| ≤ |(2 * (i : ℤ) - (n : ℤ))| := by
    rcases abs_cases (2 * ((n / 2 : ℕ) : ℤ) - (n : ℤ)) with ⟨e1, _⟩ | ⟨e1, _⟩ <;>
      rcases abs_cases (2 * (i : ℤ) - (n : ℤ)) with ⟨e2, _⟩ | ⟨e2, _⟩ <;>
      rw [e1, e2] <;> omega
  have haq : |(((2 * (i : ℤ) - (n : ℤ) : ℤ)) : ℚ)| ≤ (n : ℚ) := by exact_mod_cast ha
  have hbq : |(((2 * ((n / 2 : ℕ) : ℤ) - (n : ℤ) : ℤ)) : ℚ)| ≤
      |(((2 * (i : ℤ) - (n : ℤ) : ℤ)) : ℚ)| := by exact_mod_cast hb
  refine ⟨?_, ?_, ?_⟩
  · have : |(((2 * (i : ℤ) - (n : ℤ) : ℤ)) : ℚ)| / (2 * (n : ℚ)) ≤ 1 / 2 := by
      rw [div_le_iff₀ h2]
      linarith
    linarith
  · have : 0 ≤ |(((2 * (i : ℤ) - (n : ℤ) : ℤ)) : ℚ)| / (2 * (n : ℚ)) :=
      div_nonneg (abs_nonneg _) h2.le
    linarith
  · have := (div_le_div_iff_of_pos_right h2).mpr hbq
    linarith

/-- C25: for an accepted range message of a sensor on the grid whose range is below `max_range`
and whose far edge rasterises to `N` cells, `rangeCallback` runs over the far edge and, after
the ray-trace marks of the `i`-th ray, adds `(1 - |i/N - 1/2|) * hit_log` by the clamped update
at the end cell of that ray (the `i`-th cell of the far edge, clipped to the grid); the weight
lies in `[1/2, 1]` for every `i < N` and no cell has a larger weight than the cell
`i = floor(N/2)`. -/
theorem rangeCallback_adds_centre_weighted_hit (R : RangeData) (inp : RangeInput) (msg : RangeMsg)
    (hacc : R.accepts = true)
    (hgrid : R.map_data.dimensions.contains
      (R.map_data.worldToMapNoBounds inp.sensor_pt_2d) = true)
    (hlt : FVal.lt msg.range msg.max_range = true) :
    (R.rangeCallback inp msg).map_data =
      ((List.range (R.farEdge inp).length).zip (R.farEdge inp)).foldl
        (fun m ic =>
          (markRay R.miss_probability_log
            (inp.raytraceLine (R.map_data.worldToMapNoBounds inp.sensor_pt_2d)
              (inp.clipRayEnd (R.map_data.worldToMapNoBounds inp.sensor_pt_2d) ic.2
                m.dimensions.size) m.dimensions.size.1) m).update
            (inp.clipRayEnd (R.map_data.worldToMapNoBounds inp.sensor_pt_2d) ic.2
              m.dimensions.size)
            ((1 - |(ic.1 : ℚ) / ((R.farEdge inp).length : ℚ) - 1 / 2|) *
              R.hit_probability_log))
        R.map_data ∧
    ∀ i : Nat, i < (R.farEdge inp).length →
      1 / 2 ≤ 1 - |(i : ℚ) / ((R.farEdge inp).length : ℚ) - 1 / 2| ∧
      1 - |(i : ℚ) / ((R.farEdge inp).length : ℚ) - 1 / 2| ≤ 1 ∧
      1 - |(i : ℚ) / ((R.farEdge inp).length : ℚ) - 1 / 2| ≤
        1 - |(((R.farEdge inp).length / 2 : ℕ) : ℚ) / ((R.farEdge inp).length : ℚ) - 1 / 2| := by
  constructor
  · have h1 : R.sub_sample = 0 ∨ (R.sub_sample > 0 ∧ R.sub_sample_count > R.sub_sample) := by
      simpa [RangeData.accepts] using hacc
    have h2 : ¬ ((R.map_data.worldToMapNoBounds inp.sensor_pt_2d).1 < 0 ∨
        (R.map_data.worldToMapNoBounds inp.sensor_pt_2d).1 ≥ R.map_data.dimensions.size.1 ∨
        (R.map_data.worldToMapNoBounds inp.sensor_pt_2d).2 < 0 ∨
        (R.map_data.worldToMapNoBounds inp.sensor_pt_2d).2 ≥ R.map_data.dimensions.size.2) := by
      intro hoff
      rw [← contains_eq_false_iff, hgrid] at hoff
      exact Bool.noConfusion hoff
    have hstep : R.processRay inp msg (R.map_data.worldToMapNoBounds inp.sensor_pt_2d)
        (R.farEdge inp).length =
        fun m ic =>
          (markRay R.miss_probability_log
            (inp.raytraceLine (R.map_data.worldToMapNoBounds inp.sensor_pt_2d)
              (inp.clipRayEnd (R.map_data.worldToMapNoBounds inp.sensor_pt_2d) ic.2
                m.dimensions.size) m.dimensions.size.1) m).update
            (inp.clipRayEnd (R.map_data.worldToMapNoBounds inp.sensor_pt_2d) ic.2
              m.dimensions.size)
            ((1 - |(ic.1 : ℚ) / ((R.farEdge inp).length : ℚ) - 1 / 2|) *
              R.hit_probability_log) := by
      funext m ic
      unfold RangeData.processRay rangeFraction
      simp only [hlt, if_true]
    rw [← hstep]
    unfold RangeData.rangeCallback RangeData.farEdge
    simp only []
    rw [if_pos h1, if_neg h2]
  · intro i hi
    exact rangeFraction_bounds i _ hi

/-- Witness of C25: the example message (2 m measured, 4 m maximum) on the example layer, which
accepts every message, with the sensor in cell `(0, 2)` and a far edge of three cells. -/
theorem rangeCallback_adds_centre_weighted_hit_witness :
    (exampleRange.accepts = true ∧
      exampleRange.map_data.dimensions.contains
        (exampleRange.map_data.worldToMapNoBounds exampleRangeInputOn.sensor_pt_2d) = true ∧
      FVal.lt exampleRangeMsg.range exampleRangeMsg.max_range = true ∧
      (exampleRange.farEdge exampleRangeInputOn).length = 3) ∧
    ∀ i : Nat, i < (exampleRange.farEdge exampleRangeInputOn).length →
      1 / 2 ≤ 1 - |(i : ℚ) / ((exampleRange.farEdge exampleRangeInputOn).length : ℚ) - 1 / 2| ∧
      1 - |(i : ℚ) / ((exampleRange.farEdge exampleRangeInputOn).length : ℚ) - 1 / 2| ≤ 1 ∧
      1 - |(i : ℚ) / ((exampleRange.farEdge exampleRangeInputOn).length : ℚ) - 1 / 2| ≤
        1 - |(((exampleRange.farEdge exampleRangeInputOn).length / 2 : ℕ) : ℚ) /
          ((exampleRange.farEdge exampleRangeInputOn).length : ℚ) - 1 / 2| :=
  ⟨⟨by decide!, by decide!, by decide!, by decide!⟩,
    (rangeCallback_adds_centre_weighted_hit exampleRange exampleRangeInputOn exampleRangeMsg
      (by decide!) (by decide!) (by decide!)).2⟩

/-- The cells `rangeCallback` writes do not depend on the member `obstacle_range_`. -/
theorem rangeCallback_ignores_obstacle_range (R : RangeData) (inp : RangeInput) (msg : RangeMsg)
    (x : ℚ) :
    ({ R with obstacle_range := x }.rangeCallback inp msg).map_data =
      (R.rangeCallback inp msg).map_data := by
  unfold RangeData.rangeCallback
  simp only []
  split
  · split
    · rfl
    · rfl
  · rfl

/-- C26 at the failing input: the example layer has `obstacle_range = 2.5` and the message
measures 3 m (maximum range 4 m), at or beyond the obstacle range; `rangeCallback` still adds
hit evidence at the end cell `(3, 2)` of the centre ray: the cell holds `-3/2`, the miss mark
`-2` plus the weighted hit `5/6 * 3/5`, where the miss mark alone leaves `-2`. -/
theorem range_beyond_obstacle_range_still_adds_hit :
    exampleRange.obstacle_range = 5 / 2 ∧
    exampleRangeMsgFar.range = .fin 3 ∧
    FVal.lt exampleRangeMsgFar.range (.fin exampleRange.obstacle_range) = false ∧
    exampleRange.farEdge exampleRangeInputFar = [(3, 1), (3, 2), (3, 3)] ∧
    (exampleRange.rangeCallback exampleRangeInputFar exampleRangeMsgFar).map_data.cells (3, 2) =
      -3 / 2 ∧
    (markRay exampleRange.miss_probability_log [(3, 2)] exampleMap).cells (3, 2) = -2 := by
  refine ⟨rfl, rfl, by decide!, by decide!, by decide!, by decide!⟩

end Gridmap

namespace OmniRRT

theorem foldl_min_le_init {α : Type} (g : α → ℚ) (l : List α) :
    ∀ init : ℚ, l.foldl (fun a o => min a (g o)) init ≤ init := by
  induction l with
  | nil => intro init; exact le_refl _
  | cons x rest ih =>
    intro init
    exact (ih _).trans (min_le_left _ _)

theorem foldl_min_le_mem {α : Type} (g : α → ℚ) (l : List α) :
    ∀ (init : ℚ) (o : α), o ∈ l → l.foldl (fun a o => min a (g o)) init ≤ g o := by
  induction l with
  | nil => intro init o ho; exact absurd ho (List.not_mem_nil o)
  | cons x rest ih =>
    intro init o ho
    rcases List.mem_cons.mp ho with h | h
    · subst h
      exact (foldl_min_le_init g rest _).trans (min_le_right _ _)
    · exact ih _ o h

theorem foldl_min_pos {α : Type} (g : α → ℚ) (l : List α) :
    ∀ init : ℚ, 0 < init → (∀ o ∈ l, 0 < g o) → 0 < l.foldl (fun a o => min a (g o)) init := by
  induction l with
  | nil => intro init h _; exact h
  | cons x rest ih =>
    intro init h hall
    exact ih _ (lt_min h (hall x (List.mem_cons_self _ _)))
      (fun o ho => hall o (List.mem_cons_of_mem _ ho))

theorem exists_min_mem {α : Type} (g : α → ℚ) (l : List α) (hne : l ≠ []) :
    ∃ o ∈ l, ∀ o2 ∈ l, g o ≤ g o2 := by
  induction l with
  | nil => exact absurd rfl hne
  | cons x rest ih =>
    by_cases hr : rest = []
    · subst hr
      exact ⟨x, List.mem_cons_self _ _, fun o2 h2 => by
        rcases List.mem_cons.mp h2 with h | h
        · rw [h]
        · exact absurd h (List.not_mem_nil o2)⟩
    · obtain ⟨o, ho, hmin⟩ := ih hr
      rcases le_total (g x) (g o) with h | h
      · exact ⟨x, List.mem_cons_self _ _, fun o2 h2 => by
          rcases List.mem_cons.mp h2 with e | e
          · rw [e]
          · exact h.trans (hmin o2 e)⟩
      · exact ⟨o, List.mem_cons_of_mem _ ho, fun o2 h2 => by
          rcases List.mem_cons.mp h2 with e | e
          · rw [e]; exact h
          · exact hmin o2 e⟩

theorem DBL_MAX_pos : 0 < DBL_MAX := by
  norm_num [DBL_MAX]

/-- The test `clearance(state) > 0.0` of `isValid` holds exactly when the least of the ten
distances that `clearance` reads is strictly positive. -/
theorem isValid_iff_min_offset_distance_pos (trig : ℚ → ℚ × ℚ) (cm : Costmap) (st : SE2State) :
    (ValidityChecker.isValid trig cm st = true ↔
      ∃ o ∈ offsets_,
        (∀ o2 ∈ offsets_, ValidityChecker.offsetDistance trig cm st o ≤
          ValidityChecker.offsetDistance trig cm st o2) ∧
        0 < ValidityChecker.offsetDistance trig cm st o) ∧
    offsets_.length = 10 := by
  refine ⟨?_, rfl⟩
  unfold ValidityChecker.isValid ValidityChecker.clearance
  rw [decide_eq_true_iff]
  constructor
  · intro h
    obtain ⟨o, ho, hmin⟩ := exists_min_mem (ValidityChecker.offsetDistance trig cm st) offsets_
      (by unfold offsets_; exact List.cons_ne_nil _ _)
    exact ⟨o, ho, hmin, lt_of_lt_of_le h (foldl_min_le_mem _ _ _ o ho)⟩
  · rintro ⟨o, _, hmin, hpos⟩
    exact foldl_min_pos _ _ _ DBL_MAX_pos (fun o2 h2 => lt_of_lt_of_le hpos (hmin o2 h2))

theorem costFrom_eq_add_length (lib : Lib) (states : List SE2State) :
    ∀ acc : ℚ, PathGeometric.costFrom (OmniRRTPlanner.objective_ lib) acc states =
      acc + PathGeometric.length lib states := by
  induction states with
  | nil => intro acc; simp [PathGeometric.costFrom, PathGeometric.length]
  | cons a rest ih =>
    intro acc
    cases rest with
    | nil => simp [PathGeometric.costFrom, PathGeometric.length]
    | cons b rest2 =>
      rw [PathGeometric.costFrom, ih, PathGeometric.length]
      simp only [OmniRRTPlanner.objective_, multiObjective, pathLengthObjective, List.foldl_cons,
        List.foldl_nil]
      ring

/-- C8 (as stated) fails: on the example costmap (cost `1/2` everywhere) the path from
`(2, 5)` to `(5, 5)` is valid, its cost is `3` (its length), while the integral of the state
cost along it is `3/2`. -/
theorem cost_is_not_state_cost_integral :
    PathGeometric.check exampleLib exampleCostmap (examplePath.map (toState exampleLib)) = true ∧
    OmniRRTPlanner.cost exampleLib exampleCostmap examplePath = 3 ∧
    stateCostIntegral exampleLib exampleCostmap (examplePath.map (toState exampleLib)) = 3 / 2 ∧
    OmniRRTPlanner.cost exampleLib exampleCostmap examplePath ≠
      stateCostIntegral exampleLib exampleCostmap (examplePath.map (toState exampleLib)) :=
  ⟨by decide!, by decide!, by decide!, by decide!⟩

/-- C8 (amended): for every path that passes the validity check (the `trajectory.check()` that
`cost` runs on the states it builds), `cost(path)` is the value of the path-length objective,
the sum of the state-space distances between consecutive states; the cost field does not enter
it. -/
theorem cost_of_valid_path_is_length (lib : Lib) (cm : Costmap) (path : List Isometry2d)
    (hv : PathGeometric.check lib cm (path.map (toState lib)) = true) :
    OmniRRTPlanner.cost lib cm path = PathGeometric.length lib (path.map (toState lib)) := by
  unfold OmniRRTPlanner.cost
  simp only [hv, Bool.not_true, Bool.false_eq_true, if_false]
  unfold PathGeometric.cost
  rw [costFrom_eq_add_length, zero_add]

/-- Witness of the amended C8: the example path on the example costmap. -/
theorem cost_of_valid_path_is_length_witness :
    PathGeometric.check exampleLib exampleCostmap (examplePath.map (toState exampleLib)) = true ∧
    OmniRRTPlanner.cost exampleLib exampleCostmap examplePath =
      PathGeometric.length exampleLib (examplePath.map (toState exampleLib)) :=
  ⟨by decide!, cost_of_valid_path_is_length exampleLib exampleCostmap examplePath (by decide!)⟩

/-- On a state object whose components are allocated, as in `cost`, the loop body builds the
state of the pose without fault. -/
theorem buildState_scoped (lib : Lib) (p : Isometry2d) :
    buildState StateObject.scoped lib p = .ok (toState lib p) := rfl

/-- On the state object declared in `valid` the first setter already faults. -/
theorem buildState_declared (lib : Lib) (p : Isometry2d) :
    buildState StateObject.declared lib p = .error Fault.unallocatedComponents := rfl

/-- For every path with at least one node, `valid` ends in the fault of its first `setX`; for
the empty path it returns true. -/
theorem valid_faults_on_nonempty_path (lib : Lib) (cm : Costmap) (path : List Isometry2d) :
    (path ≠ [] → OmniRRTPlanner.valid lib cm path = .error Fault.unallocatedComponents) ∧
    OmniRRTPlanner.valid lib cm [] = .ok true := by
  constructor
  · intro hne
    cases path with
    | nil => exact absurd rfl hne
    | cons p rest => rfl
  · rfl

/-- C9 at the failing input: `plan` with the example library from `(2, 5)` to `(5, 5)` returns
`SUCCESSFUL` with the path of these two poses, whose states pass the library's check; `valid`
on that path does not return true: it writes the first pose through a state object whose
components were never allocated. -/
theorem valid_after_successful_plan_faults :
    (OmniRRTPlanner.plan exampleLib exampleCostmap
      { tx := 2, ty := 5, c := 1, s := 0 } { tx := 5, ty := 5, c := 1, s := 0 }).outcome =
        Outcome.SUCCESSFUL ∧
    (OmniRRTPlanner.plan exampleLib exampleCostmap
      { tx := 2, ty := 5, c := 1, s := 0 } { tx := 5, ty := 5, c := 1, s := 0 }).path =
        examplePath ∧
    PathGeometric.check exampleLib exampleCostmap (examplePath.map (toState exampleLib)) =
      true ∧
    OmniRRTPlanner.valid exampleLib exampleCostmap
      (OmniRRTPlanner.plan exampleLib exampleCostmap
        { tx := 2, ty := 5, c := 1, s := 0 } { tx := 5, ty := 5, c := 1, s := 0 }).path =
      .error Fault.unallocatedComponents := by
  have hpath : (OmniRRTPlanner.plan exampleLib exampleCostmap
      { tx := 2, ty := 5, c := 1, s := 0 } { tx := 5, ty := 5, c := 1, s := 0 }).path =
        examplePath := by decide!
  refine ⟨by decide!, hpath, by decide!, ?_⟩
  rw [hpath]
  rfl

/-- C11: `plan` returns `FAILED` exactly when the search ended with neither an exact nor an
approximate solution or the repair of the simplified, interpolated path failed; every failed
result has an empty path and cost 0; a `SUCCESSFUL` result is returned only when the repair
succeeded on a solution. -/
theorem plan_failed_iff_no_solution_or_repair_failed (lib : Lib) (cm : Costmap)
    (start goal : Isometry2d) :
    ((OmniRRTPlanner.plan lib cm start goal).outcome = Outcome.FAILED ↔
      (¬ ((lib.solve cm (toState lib start) (toState lib goal)).1 = PlannerStatus.EXACT_SOLUTION ∨
          (lib.solve cm (toState lib start) (toState lib goal)).1 =
            PlannerStatus.APPROXIMATE_SOLUTION) ∨
        (OmniRRTPlanner.repaired lib cm start goal).2 = false)) ∧
    ((OmniRRTPlanner.plan lib cm start goal).outcome = Outcome.FAILED →
      (OmniRRTPlanner.plan lib cm start goal).path = [] ∧
        (OmniRRTPlanner.plan lib cm start goal).cost = 0) ∧
    ((OmniRRTPlanner.plan lib cm start goal).outcome = Outcome.SUCCESSFUL →
      (OmniRRTPlanner.repaired lib cm start goal).2 = true ∧
        ((lib.solve cm (toState lib start) (toState lib goal)).1 = PlannerStatus.EXACT_SOLUTION ∨
          (lib.solve cm (toState lib start) (toState lib goal)).1 =
            PlannerStatus.APPROXIMATE_SOLUTION)) := by
  unfold OmniRRTPlanner.plan OmniRRTPlanner.repaired
  simp only []
  by_cases h1 : (lib.solve cm (toState lib start) (toState lib goal)).1 =
      PlannerStatus.EXACT_SOLUTION ∨
      (lib.solve cm (toState lib start) (toState lib goal)).1 = PlannerStatus.APPROXIMATE_SOLUTION
  · rw [if_pos h1]
    by_cases h2 : (lib.checkAndRepair cm (lib.interpolate (lib.simplify cm
        (lib.solve cm (toState lib start) (toState lib goal)).2))).2 = true
    · rw [if_pos h2]
      simp [h1, h2]
    · rw [if_neg h2]
      simp [h1, h2]
  · rw [if_neg h1]
    simp [h1]

/-- C30 at the failing input: on a grid of one-metre cells with its origin at the world origin,
the offset point `(1.2, 1.2)` lies inside the grid in the cell `(1, 1)` of the world-to-cell
mapping (the floor of `(p - origin) / resolution`), but `clearance` and `stateCost` read their
fields at `(mx, my) = (0, 0)`, the truncation of `(p - origin) / resolution - 0.5`. -/
theorem planner_reads_neighbour_cell :
    exampleOffsetState.x + (rotate (1, 0) (-268 / 1000, 0)).1 = 6 / 5 ∧
    exampleOffsetState.y + (rotate (1, 0) (-268 / 1000, 0)).2 = 6 / 5 ∧
    exampleCostmapDims.contains (exampleCostmapDims.getCellIndex (6 / 5, 6 / 5)) = true ∧
    exampleCostmapDims.getCellIndex (6 / 5, 6 / 5) = (1, 1) ∧
    offsetCell (fun _ => (1, 0)) exampleCostmapGraded exampleOffsetState (-268 / 1000, 0) =
      (0, 0) ∧
    ValidityChecker.offsetDistance (fun _ => (1, 0)) exampleCostmapGraded exampleOffsetState
      (-268 / 1000, 0) = exampleCostmapGraded.distance_to_collision.val 0 0 ∧
    CostMapObjective.offsetCost (fun _ => (1, 0)) exampleCostmapGraded exampleOffsetState
      (-268 / 1000, 0) = exampleCostmapGraded.cost.val 0 0 ∧
    exampleCostmapGraded.distance_to_collision.val 0 0 ≠
      exampleCostmapGraded.distance_to_collision.val 1 1 ∧
    exampleCostmapGraded.cost.val 0 0 ≠ exampleCostmapGraded.cost.val 1 1 := by
  refine ⟨by decide!, by decide!, by decide!, by decide!, by decide!, by decide!, by decide!,
    by decide!, by decide!⟩

/-- C7 at the failing inputs. On a distance field that is 0 in row 0 and 1 elsewhere, the ten
offset points of the state `(1.468, 1.2)` all lie in cells of row 1, so the minimum of the
field at their cells is 1, yet `isValid` returns false: `clearance` reads row 0. On a field
that is 1 everywhere, the state `(0.25, 2.5)` has the offset point `(-0.018, 2.5)` outside the
field, which counts as distance 0, yet `isValid` returns true: `clearance` reads it at the
cell `(0, 2)`. -/
theorem isValid_differs_from_min_at_containing_cells :
    (∀ o ∈ offsets_, containingCellDistance (fun _ => (1, 0)) exampleCostmapRowZero
      exampleOffsetState o = 1) ∧
    ValidityChecker.isValid (fun _ => (1, 0)) exampleCostmapRowZero exampleOffsetState = false ∧
    ((-268 / 1000, 0) : ℚ × ℚ) ∈ offsets_ ∧
    containingCellDistance (fun _ => (1, 0)) exampleCostmap exampleEdgeState (-268 / 1000, 0) =
      0 ∧
    offsetCell (fun _ => (1, 0)) exampleCostmap exampleEdgeState (-268 / 1000, 0) = (0, 2) ∧
    ValidityChecker.isValid (fun _ => (1, 0)) exampleCostmap exampleEdgeState = true := by
  refine ⟨by decide!, by decide!, by decide!, by decide!, by decide!, by decide!⟩

end OmniRRT

namespace costmap_2d

theorem rowLoop_spec (cell : Nat → Nat → Nat) (count : Nat) :
    ∀ (it : Nat) (master : CharMap), it + count ≤ 2 ^ 32 → ∀ k : Nat,
      rowLoop cell count it master k =
        if it ≤ k ∧ k < it + count then cell k (master k) else master k := by
  induction count with
  | zero =>
    intro it master _ k
    have hno : ¬ (it ≤ k ∧ k < it + 0) := by omega
    rw [if_neg hno]
    rfl
  | succ n ih =>
    intro it master hb k
    rw [rowLoop]
    rcases Nat.lt_or_ge (it + 1) (2 ^ 32) with hlt | hge
    · rw [Nat.mod_eq_of_lt hlt, ih (it + 1) _ (by omega) k]
      unfold setAt
      by_cases hk : k = it
      · subst hk
        have h1 : ¬ (k + 1 ≤ k ∧ k < k + 1 + n) := by omega
        have h2 : k ≤ k ∧ k < k + (n + 1) := by omega
        rw [if_neg h1, if_pos h2, if_pos rfl]
      · rw [if_neg hk]
        by_cases hin : it + 1 ≤ k ∧ k < it + 1 + n
        · have h2 : it ≤ k ∧ k < it + (n + 1) := by omega
          rw [if_pos hin, if_pos h2]
        · have h2 : ¬ (it ≤ k ∧ k < it + (n + 1)) := by omega
          rw [if_neg hin, if_neg h2]
    · have hn : n = 0 := by omega
      subst hn
      rw [rowLoop]
      unfold setAt
      by_cases hk : k = it
      · subst hk
        have h2 : k ≤ k ∧ k < k + (0 + 1) := by omega
        rw [if_pos rfl, if_pos h2]
      · have h2 : ¬ (it ≤ k ∧ k < it + (0 + 1)) := by omega
        rw [if_neg hk, if_neg h2]

theorem row_index_iff (span min_i max_i i j j0 : Nat) (hi : i < span) (hmax : max_i ≤ span) :
    (j0 * span + min_i ≤ j * span + i ∧ j * span + i < j0 * span + max_i) ↔
      (j = j0 ∧ min_i ≤ i ∧ i < max_i) := by
  constructor
  · rintro ⟨h1, h2⟩
    rcases Nat.lt_trichotomy j j0 with hlt | heq | hgt
    · have hm : (j + 1) * span ≤ j0 * span := Nat.mul_le_mul_right span hlt
      rw [Nat.succ_mul] at hm
      omega
    · subst heq
      omega
    · have hm : (j0 + 1) * span ≤ j * span := Nat.mul_le_mul_right span hgt
      rw [Nat.succ_mul] at hm
      omega
  · rintro ⟨rfl, h1, h2⟩
    omega

theorem windowLoop_spec (cell : Nat → Nat → Nat) (span min_i max_i i j : Nat) (hi : i < span)
    (hmax : max_i ≤ span) (count : Nat) :
    ∀ (j0 : Nat) (master : CharMap), (j0 + count) * span ≤ 2 ^ 32 →
      windowLoop cell span min_i max_i count j0 master (j * span + i) =
        if (j0 ≤ j ∧ j < j0 + count) ∧ min_i ≤ i ∧ i < max_i then
          cell (j * span + i) (master (j * span + i))
        else master (j * span + i) := by
  induction count with
  | zero =>
    intro j0 master _
    have hno : ¬ ((j0 ≤ j ∧ j < j0 + 0) ∧ min_i ≤ i ∧ i < max_i) := by omega
    rw [if_neg hno]
    rfl
  | succ n ih =>
    intro j0 master hb
    have hb2 : (j0 + 1 + n) * span ≤ 2 ^ 32 := by
      have e : j0 + 1 + n = j0 + (n + 1) := by omega
      rw [e]; exact hb
    rw [windowLoop, ih (j0 + 1) _ hb2]
    have hrow : rowLoop cell (max_i - min_i) ((j0 * span + min_i) % 2 ^ 32) master (j * span + i) =
        if j = j0 ∧ min_i ≤ i ∧ i < max_i then cell (j * span + i) (master (j * span + i))
        else master (j * span + i) := by
      by_cases hw : min_i < max_i
      · have hle : (j0 + 1) * span ≤ (j0 + (n + 1)) * span :=
          Nat.mul_le_mul_right span (by omega)
        rw [Nat.succ_mul] at hle
        have hlt : j0 * span + min_i < 2 ^ 32 := by omega
        rw [Nat.mod_eq_of_lt hlt, rowLoop_spec cell _ _ _ (by omega)]
        have e : j0 * span + min_i + (max_i - min_i) = j0 * span + max_i := by omega
        rw [e]
        by_cases hc : j = j0 ∧ min_i ≤ i ∧ i < max_i
        · rw [if_pos hc, if_pos ((row_index_iff span min_i max_i i j j0 hi hmax).mpr hc)]
        · rw [if_neg hc, if_neg (fun h => hc ((row_index_iff span min_i max_i i j j0 hi hmax).mp h))]
      · have e : max_i - min_i = 0 := by omega
        have hc : ¬ (j = j0 ∧ min_i ≤ i ∧ i < max_i) := by omega
        rw [e, if_neg hc]
        rfl
    rw [hrow]
    by_cases h0 : j = j0 ∧ min_i ≤ i ∧ i < max_i
    · have h1 : ¬ ((j0 + 1 ≤ j ∧ j < j0 + 1 + n) ∧ min_i ≤ i ∧ i < max_i) := by omega
      have h2 : (j0 ≤ j ∧ j < j0 + (n + 1)) ∧ min_i ≤ i ∧ i < max_i := by omega
      rw [if_neg h1, if_pos h0, if_pos h2]
    · rw [if_neg h0]
      by_cases h1 : (j0 + 1 ≤ j ∧ j < j0 + 1 + n) ∧ min_i ≤ i ∧ i < max_i
      · have h2 : (j0 ≤ j ∧ j < j0 + (n + 1)) ∧ min_i ≤ i ∧ i < max_i := by omega
        rw [if_pos h1, if_pos h2]
      · have h2 : ¬ ((j0 ≤ j ∧ j < j0 + (n + 1)) ∧ min_i ≤ i ∧ i < max_i) := by omega
        rw [if_neg h1, if_neg h2]

/-- C18: for an enabled layer and a window inside the grid, `updateWithMax` sets the master cell
`(i, j)` to the layer's cell exactly when the cell is inside the window, the layer's cell is not
`NO_INFORMATION` and the master cell is `NO_INFORMATION` or smaller than the layer's cell, and
keeps the master cell otherwise (in particular outside the window); a disabled layer changes
nothing. -/
theorem updateWithMax_window (NO_INFORMATION : Nat) (layer : CostmapLayer)
    (master_grid : Costmap2D) (min_i min_j max_i max_j i j : Nat)
    (hx : max_i ≤ master_grid.size_x) (hy : max_j ≤ master_grid.size_y)
    (hsize : master_grid.size_x * master_grid.size_y ≤ 2 ^ 32)
    (hi : i < master_grid.size_x) :
    (layer.enabled_ = true →
      (layer.updateWithMax NO_INFORMATION master_grid min_i min_j max_i max_j).costmap_
          (j * master_grid.size_x + i) =
        if (min_i ≤ i ∧ i < max_i ∧ min_j ≤ j ∧ j < max_j) ∧
            layer.costmap_ (j * master_grid.size_x + i) ≠ NO_INFORMATION ∧
            (master_grid.costmap_ (j * master_grid.size_x + i) = NO_INFORMATION ∨
              master_grid.costmap_ (j * master_grid.size_x + i) <
                layer.costmap_ (j * master_grid.size_x + i)) then
          layer.costmap_ (j * master_grid.size_x + i)
        else master_grid.costmap_ (j * master_grid.size_x + i)) ∧
    (layer.enabled_ = false →
      layer.updateWithMax NO_INFORMATION master_grid min_i min_j max_i max_j = master_grid) := by
  constructor
  · intro he
    unfold CostmapLayer.updateWithMax
    simp only [he, Bool.not_true, Bool.false_eq_true, if_false]
    by_cases hw : min_j < max_j
    · have hb : (min_j + (max_j - min_j)) * master_grid.size_x ≤ 2 ^ 32 := by
        have e : min_j + (max_j - min_j) = max_j := by omega
        rw [e]
        calc max_j * master_grid.size_x ≤ master_grid.size_y * master_grid.size_x :=
              Nat.mul_le_mul_right _ hy
          _ = master_grid.size_x * master_grid.size_y := Nat.mul_comm _ _
          _ ≤ 2 ^ 32 := hsize
      rw [windowLoop_spec _ master_grid.size_x min_i max_i i j hi hx _ _ _ hb]
      unfold maxCell
      by_cases hin : (min_j ≤ j ∧ j < min_j + (max_j - min_j)) ∧ min_i ≤ i ∧ i < max_i
      · have hin2 : min_i ≤ i ∧ i < max_i ∧ min_j ≤ j ∧ j < max_j := by omega
        rw [if_pos hin]
        by_cases hl : layer.costmap_ (j * master_grid.size_x + i) = NO_INFORMATION
        · rw [if_pos hl, if_neg (fun h => h.2.1 hl)]
        · rw [if_neg hl]
          by_cases hm : master_grid.costmap_ (j * master_grid.size_x + i) = NO_INFORMATION ∨
              master_grid.costmap_ (j * master_grid.size_x + i) <
                layer.costmap_ (j * master_grid.size_x + i)
          · rw [if_pos hm, if_pos ⟨hin2, hl, hm⟩]
          · rw [if_neg hm, if_neg (fun h => hm h.2.2)]
      · have hin2 : ¬ (min_i ≤ i ∧ i < max_i ∧ min_j ≤ j ∧ j < max_j) := by omega
        rw [if_neg hin, if_neg (fun h => hin2 h.1)]
    · have e : max_j - min_j = 0 := by omega
      have hin2 : ¬ (min_i ≤ i ∧ i < max_i ∧ min_j ≤ j ∧ j < max_j) := by omega
      rw [e, if_neg (fun h => hin2 h.1)]
      rfl
  · intro he
    unfold CostmapLayer.updateWithMax
    simp only [he, Bool.not_false, if_true]

/-- Witness of C18: the example layer on the example master grid, window columns 1..2 and rows
1..2, cell `(2, 1)`. -/
theorem updateWithMax_window_witness :
    ((3 ≤ exampleMaster.size_x ∧ 3 ≤ exampleMaster.size_y ∧
        exampleMaster.size_x * exampleMaster.size_y ≤ 2 ^ 32 ∧ 2 < exampleMaster.size_x)) ∧
    ((exampleCostLayer.enabled_ = true →
      (exampleCostLayer.updateWithMax 255 exampleMaster 1 1 3 3).costmap_
          (1 * exampleMaster.size_x + 2) =
        if (1 ≤ 2 ∧ 2 < 3 ∧ 1 ≤ 1 ∧ 1 < 3) ∧
            exampleCostLayer.costmap_ (1 * exampleMaster.size_x + 2) ≠ 255 ∧
            (exampleMaster.costmap_ (1 * exampleMaster.size_x + 2) = 255 ∨
              exampleMaster.costmap_ (1 * exampleMaster.size_x + 2) <
                exampleCostLayer.costmap_ (1 * exampleMaster.size_x + 2)) then
          exampleCostLayer.costmap_ (1 * exampleMaster.size_x + 2)
        else exampleMaster.costmap_ (1 * exampleMaster.size_x + 2)) ∧
    (exampleCostLayer.enabled_ = false →
      exampleCostLayer.updateWithMax 255 exampleMaster 1 1 3 3 = exampleMaster)) :=
  ⟨⟨by decide, by decide, by decide, by decide⟩,
    updateWithMax_window 255 exampleCostLayer exampleMaster 1 1 3 3 2 1
      (by decide) (by decide) (by decide) (by decide)⟩

theorem additionCell_ge_inscribed (NO_INFORMATION INSCRIBED_INFLATED_OBSTACLE : Nat)
    (layer_cost old_cost : Nat) (hl : layer_cost ≠ NO_INFORMATION)
    (ho : old_cost ≠ NO_INFORMATION) :
    INSCRIBED_INFLATED_OBSTACLE % 256 ≤
      additionCell NO_INFORMATION INSCRIBED_INFLATED_OBSTACLE layer_cost old_cost := by
  unfold additionCell
  rw [if_neg hl, if_neg ho]
  exact le_max_right _ _

/-- C19 at the failing input: with `NO_INFORMATION = 255` and
`INSCRIBED_INFLATED_OBSTACLE = 253`, a master cell of cost 1 and a layer cell of cost 7 inside
the window have the sum 8, below 253, yet `updateWithAddition` writes 253. -/
theorem updateWithAddition_writes_inscribed_for_small_sum :
    exampleCostLayer.enabled_ = true ∧
    exampleMaster.costmap_ 6 = 1 ∧ exampleCostLayer.costmap_ 6 = 7 ∧
    (exampleCostLayer.updateWithAddition 255 253 exampleMaster 1 1 3 3).costmap_ 6 = 253 := by
  refine ⟨by decide, by decide, by decide, by decide!⟩

/-- C20 (as stated) fails: the footprint point `(0.46, 0)` with padding `0.01` (the case of the
test `footprint_empty`) is returned as `(0.47, 0)`: its `y` coordinate is not moved away from
zero by the padding. -/
theorem zero_coordinate_is_not_padded :
    (0 : ℚ) ≤ 1 / 100 ∧
    getRobotFootprint [(46 / 100, 0)] (1 / 100) = [{ x := 47 / 100, y := 0, z := 0 }] ∧
    ¬ (∀ q ∈ getRobotFootprint [(46 / 100, 0)] (1 / 100), |q.y| = |(0 : ℚ)| + 1 / 100) := by
  refine ⟨by norm_num, by decide!, ?_⟩
  intro h
  have h2 := h { x := 47 / 100, y := 0, z := 0 } (by decide!)
  norm_num at h2

theorem abs_add_sign0_mul (x p : ℚ) (hp : 0 ≤ p) (hx : x ≠ 0) :
    |x + sign0 x * p| = |x| + p := by
  unfold sign0
  rcases lt_trichotomy x 0 with h | h | h
  · rw [if_pos h, abs_of_neg h, abs_of_neg (by linarith)]; ring
  · exact absurd h hx
  · rw [if_neg (not_lt.mpr h.le), if_pos h, abs_of_pos h, abs_of_pos (by linarith)]; ring

/-- C20 (amended): for every footprint and padding `p ≥ 0`, `getRobotFootprint` returns the same
number of points in the same order with `z = 0`; every nonzero coordinate keeps its sign and is
moved away from zero by `p`, and a coordinate that is zero stays zero. -/
theorem getRobotFootprint_pads_nonzero_coordinates (points : List (ℚ × ℚ)) (p : ℚ)
    (hp : 0 ≤ p) :
    (getRobotFootprint points p).length = points.length ∧
    ∀ (k : Nat) (pt : ℚ × ℚ), points[k]? = some pt →
      ∃ q : Point, (getRobotFootprint points p)[k]? = some q ∧ q.z = 0 ∧
        (pt.1 ≠ 0 → |q.x| = |pt.1| + p ∧ 0 < q.x * pt.1) ∧ (pt.1 = 0 → q.x = 0) ∧
        (pt.2 ≠ 0 → |q.y| = |pt.2| + p ∧ 0 < q.y * pt.2) ∧ (pt.2 = 0 → q.y = 0) := by
  unfold getRobotFootprint padFootprint
  constructor
  · simp
  · intro k pt hk
    refine ⟨{ x := pt.1 + sign0 pt.1 * p, y := pt.2 + sign0 pt.2 * p, z := 0 }, ?_, rfl, ?_, ?_,
      ?_, ?_⟩
    · simp [List.getElem?_map, hk]
    · intro hx
      refine ⟨abs_add_sign0_mul _ _ hp hx, ?_⟩
      show 0 < (pt.1 + sign0 pt.1 * p) * pt.1
      unfold sign0
      rcases lt_trichotomy pt.1 0 with h | h | h
      · rw [if_pos h]; nlinarith
      · exact absurd h hx
      · rw [if_neg (not_lt.mpr h.le), if_pos h]; nlinarith
    · intro hx
      show pt.1 + sign0 pt.1 * p = 0
      rw [hx]; simp [sign0]
    · intro hy
      refine ⟨abs_add_sign0_mul _ _ hp hy, ?_⟩
      show 0 < (pt.2 + sign0 pt.2 * p) * pt.2
      unfold sign0
      rcases lt_trichotomy pt.2 0 with h | h | h
      · rw [if_pos h]; nlinarith
      · exact absurd h hy
      · rw [if_neg (not_lt.mpr h.le), if_pos h]; nlinarith
    · intro hy
      show pt.2 + sign0 pt.2 * p = 0
      rw [hy]; simp [sign0]

/-- Witness of the amended C20, together with the two footprints of the tests: the triangle
`[[1,1],[-1,1],[-1,-1]]` unpadded and padded by `0.5`. -/
theorem getRobotFootprint_pads_nonzero_coordinates_witness :
    (0 : ℚ) ≤ 1 / 2 ∧
    getRobotFootprint [(1, 1), (-1, 1), (-1, -1)] 0 =
      [{ x := 1, y := 1, z := 0 }, { x := -1, y := 1, z := 0 }, { x := -1, y := -1, z := 0 }] ∧
    getRobotFootprint [(1, 1), (-1, 1), (-1, -1)] (1 / 2) =
      [{ x := 3 / 2, y := 3 / 2, z := 0 }, { x := -3 / 2, y := 3 / 2, z := 0 },
        { x := -3 / 2, y := -3 / 2, z := 0 }] ∧
    ((getRobotFootprint [(1, 1), (-1, 1), (-1, -1)] (1 / 2)).length =
        [((1 : ℚ), (1 : ℚ)), (-1, 1), (-1, -1)].length ∧
      ∀ (k : Nat) (pt : ℚ × ℚ), [((1 : ℚ), (1 : ℚ)), (-1, 1), (-1, -1)][k]? = some pt →
        ∃ q : Point, (getRobotFootprint [(1, 1), (-1, 1), (-1, -1)] (1 / 2))[k]? = some q ∧
          q.z = 0 ∧
          (pt.1 ≠ 0 → |q.x| = |pt.1| + 1 / 2 ∧ 0 < q.x * pt.1) ∧ (pt.1 = 0 → q.x = 0) ∧
          (pt.2 ≠ 0 → |q.y| = |pt.2| + 1 / 2 ∧ 0 < q.y * pt.2) ∧ (pt.2 = 0 → q.y = 0)) :=
  ⟨by norm_num, by decide!, by decide!,
    getRobotFootprint_pads_nonzero_coordinates [(1, 1), (-1, 1), (-1, -1)] (1 / 2) (by norm_num)⟩

end costmap_2d

namespace autonomy

/-- C16: on a tick that produced a new path while a tracking path exists, the tracking path is
replaced by the new one (recognised by its fresh id) if and only if
`new_cost < path_swap_fraction * old_cost` or the time since the tracking path's
`last_successful_time` exceeds `path_persistence_time`, which is 6 seconds. -/
theorem tracking_path_swapped_iff (path_swap_fraction : ℚ) (cur : TrackingPath)
    (goal : OmniRRT.Isometry2d) (now new_cost old_cost : ℚ) (new_path : navigation_interface.Path) (fresh_id : String)
    (hid : fresh_id ≠ cur.path.id) :
    ((pathPlannerTick path_swap_fraction (some cur) goal now new_cost old_cost new_path
        fresh_id).map (fun t => t.path.id) = some fresh_id ↔
      (new_cost < path_swap_fraction * old_cost ∨ now - cur.last_successful_time > 6)) ∧
    ((pathPlannerTick path_swap_fraction (some cur) goal now new_cost old_cost new_path
        fresh_id).map (fun t => t.path.nodes) =
      some (if new_cost < path_swap_fraction * old_cost ∨ now - cur.last_successful_time > 6
        then new_path.nodes else cur.path.nodes)) := by
  unfold pathPlannerTick shouldSwap path_persistence_time_
  simp only []
  by_cases h : new_cost < path_swap_fraction * old_cost ∨ now - cur.last_successful_time > 6
  · have hb : (decide (new_cost < path_swap_fraction * old_cost) ||
        decide (now - cur.last_successful_time > 6)) = true := by
      simpa using h
    rw [if_pos hb, if_pos h]
    simp [adoptPath, h]
  · have hb : ¬ ((decide (new_cost < path_swap_fraction * old_cost) ||
        decide (now - cur.last_successful_time > 6)) = true) := by
      simpa using h
    rw [if_neg hb, if_neg h]
    simp only [Option.map_some', Option.some.injEq, iff_false_intro h, iff_false, and_true]
    exact fun e => hid e.symm

/-- Witness of C16: the example tracking path at time 10 (seven seconds after its last
successful re-cost), a new path of cost 9 against an old cost of 10 with swap fraction 4/5. -/
theorem tracking_path_swapped_iff_witness :
    "path-2" ≠ exampleTracking.path.id ∧
    (((pathPlannerTick (4 / 5) (some exampleTracking) { tx := 5, ty := 5, c := 1, s := 0 } 10 9 10
        { nodes := [], id := "" } "path-2").map (fun t => t.path.id) = some "path-2" ↔
      ((9 : ℚ) < 4 / 5 * 10 ∨ (10 : ℚ) - exampleTracking.last_successful_time > 6)) ∧
    ((pathPlannerTick (4 / 5) (some exampleTracking) { tx := 5, ty := 5, c := 1, s := 0 } 10 9 10
        { nodes := [], id := "" } "path-2").map (fun t => t.path.nodes) =
      some (if (9 : ℚ) < 4 / 5 * 10 ∨ (10 : ℚ) - exampleTracking.last_successful_time > 6
        then [] else exampleTracking.path.nodes))) :=
  ⟨by decide, tracking_path_swapped_iff (4 / 5) exampleTracking _ 10 9 10 _ "path-2" (by decide)⟩

end autonomy

namespace eband_local_planner

theorem controlFromBand_not_complete (P : EBandPlannerROS) (calls : ControlCalls) :
    (P.controlFromBand calls).1.state ≠ ControlState.COMPLETE := by
  unfold EBandPlannerROS.controlFromBand
  simp only []
  split_ifs <;> simp [failedControl]

theorem ok_state_not_complete {X : Control × EBandPlannerROS} {c : Control}
    {P2 : EBandPlannerROS} (h : (Except.ok X : Except String (Control × EBandPlannerROS)) =
      Except.ok (c, P2)) (hx : X.1.state ≠ ControlState.COMPLETE) :
    c.state ≠ ControlState.COMPLETE := by
  cases h
  exact hx

/-- Whatever the collaborators answer, a control returned by `computeControl` never has the
state `COMPLETE`. -/
theorem computeControl_never_complete (P : EBandPlannerROS) (calls : ControlCalls)
    (c : Control) (P2 : EBandPlannerROS) (h : P.computeControl calls = .ok (c, P2)) :
    c.state ≠ ControlState.COMPLETE := by
  have hf : failedControl.state ≠ ControlState.COMPLETE := by simp [failedControl]
  unfold EBandPlannerROS.computeControl at h
  simp only [bind, Except.bind] at h
  repeat' split at h
  all_goals
    first
    | exact ok_state_not_complete h hf
    | exact ok_state_not_complete h (controlFromBand_not_complete _ _)
    | exact Except.noConfusion h

/-- C15 at the failing input: every collaborator succeeds and the trajectory controller reports
the goal reached (`goal_reached_` is true afterwards), yet `computeControl` returns the state
`RUNNING`, not `COMPLETE`. -/
theorem computeControl_running_at_goal :
    exampleCallsAtGoal.getTwist.2.2 = true ∧
    (examplePlanner.computeControl exampleCallsAtGoal).toOption.map
        (fun r => (r.1.state, r.2.goal_reached_)) =
      some (ControlState.RUNNING, true) := by
  refine ⟨rfl, by decide!⟩

end eband_local_planner

namespace sim_band_planner

theorem firstCollision_none_of_clear (l : List Node) (h : ∀ n ∈ l, 0 ≤ n.closestDistance) :
    firstCollision l = none := by
  induction l with
  | nil => rfl
  | cons a rest ih =>
    have ha : ¬ a.closestDistance < 0 := not_lt.mpr (h a (List.mem_cons_self _ _))
    rw [firstCollision, if_neg ha, ih (fun n hn => h n (List.mem_cons_of_mem _ hn))]
    rfl

theorem firstCollision_eq_some (l : List Node) :
    ∀ (i : Nat) (n : Node), l[i]? = some n → n.closestDistance < 0 →
      (∀ (j : Nat) (m : Node), j < i → l[j]? = some m → 0 ≤ m.closestDistance) →
      firstCollision l = some i := by
  induction l with
  | nil => intro i n h _ _; simp at h
  | cons a rest ih =>
    intro i n hi hn hfirst
    cases i with
    | zero =>
      have ha : a = n := by simpa using hi
      subst ha
      rw [firstCollision, if_pos hn]
    | succ k =>
      have ha : ¬ a.closestDistance < 0 := not_lt.mpr (hfirst 0 a (Nat.succ_pos k) (by simp))
      have hk : rest[k]? = some n := by simpa using hi
      rw [firstCollision, if_neg ha,
        ih k n hk hn (fun j m hj hm => hfirst (j + 1) m (Nat.succ_lt_succ hj) (by simpa using hm))]
      rfl

theorem plan_eq_finish (P : SimBandPlanner) (calls : PlanCalls)
    (robot_state : navigation_interface.KinodynamicState) (map_to_odom : OmniRRT.Isometry2d)
    (mw mw1 : MovingWindow) (band : Band) (hmw : P.moving_window_ = some mw)
    (hsim : P.simulateBand calls mw robot_state map_to_odom = (mw1, .ok band)) :
    P.plan calls robot_state map_to_odom =
      ((P.finish calls mw1 band map_to_odom).1,
        { P with moving_window_ := some (P.finish calls mw1 band map_to_odom).2 }) := by
  unfold SimBandPlanner.plan
  rw [hmw]
  simp only [hsim]

/-- C12: with splining disabled, for a band after simulation (the robot's node in front): when
no node has a negative closest-control-point distance, `plan` returns `SUCCESSFUL` with one
state per band node; when the first such node has index `i ≥ 1`, it returns `PARTIAL` with
exactly the `i` states of the nodes `0 .. i-1` and empties the nodes of the moving window; when
that index is 0, it returns `FAILED`. -/
theorem plan_without_spline_trims_at_first_collision (P : SimBandPlanner) (calls : PlanCalls)
    (robot_state : navigation_interface.KinodynamicState) (map_to_odom : OmniRRT.Isometry2d)
    (mw mw1 : MovingWindow) (band : Band) (hmw : P.moving_window_ = some mw)
    (hsim : P.simulateBand calls mw robot_state map_to_odom = (mw1, .ok band))
    (hspline : P.spline_ = false) (hne : band.nodes ≠ []) :
    ((∀ n ∈ band.nodes, 0 ≤ n.closestDistance) →
      (P.plan calls robot_state map_to_odom).1.outcome = Outcome.SUCCESSFUL ∧
      (P.plan calls robot_state map_to_odom).1.trajectory.states =
        band.nodes.map (P.stateOf (inverse map_to_odom)) ∧
      (P.plan calls robot_state map_to_odom).1.trajectory.states.length = band.nodes.length) ∧
    (∀ (i : Nat) (n : Node), 1 ≤ i → band.nodes[i]? = some n → n.closestDistance < 0 →
      (∀ (j : Nat) (m : Node), j < i → band.nodes[j]? = some m → 0 ≤ m.closestDistance) →
      (P.plan calls robot_state map_to_odom).1.outcome = Outcome.PARTIAL ∧
      (P.plan calls robot_state map_to_odom).1.trajectory.states =
        (band.nodes.take i).map (P.stateOf (inverse map_to_odom)) ∧
      (P.plan calls robot_state map_to_odom).1.trajectory.states.length = i ∧
      (P.plan calls robot_state map_to_odom).2.moving_window_.map (fun w => w.window.nodes) =
        some []) ∧
    (∀ n : Node, band.nodes[0]? = some n → n.closestDistance < 0 →
      (P.plan calls robot_state map_to_odom).1.outcome = Outcome.FAILED) := by
  rw [plan_eq_finish P calls robot_state map_to_odom mw mw1 band hmw hsim]
  refine ⟨?_, ?_, ?_⟩
  · intro hclear
    have hfc := firstCollision_none_of_clear band.nodes hclear
    have hemp : band.nodes.isEmpty = false := by
      cases hb : band.nodes with
      | nil => exact absurd hb hne
      | cons a rest => rfl
    simp [SimBandPlanner.finish, hfc, hemp, hspline, SimBandPlanner.publish, emptyResult]
  · intro i n hi hn hneg hfirst
    have hfc := firstCollision_eq_some band.nodes i n hn hneg hfirst
    have hlen : i < band.nodes.length := by
      rcases Nat.lt_or_ge i band.nodes.length with h | h
      · exact h
      · rw [List.getElem?_eq_none h] at hn
        exact Option.noConfusion hn
    have hemp : (band.nodes.take i).isEmpty = false := by
      cases hb : band.nodes.take i with
      | nil =>
        have hl : (band.nodes.take i).length = 0 := by rw [hb]; rfl
        rw [List.length_take] at hl
        omega
      | cons a rest => rfl
    simp [SimBandPlanner.finish, hfc, hemp, hspline, SimBandPlanner.publish, emptyResult]
    omega
  · intro n hn hneg
    have hfc := firstCollision_eq_some band.nodes 0 n hn hneg
      (fun j m hj _ => absurd hj (Nat.not_lt_zero j))
    simp [SimBandPlanner.finish, hfc]

theorem finish_states (P : SimBandPlanner) (calls : PlanCalls) (mw : MovingWindow) (band : Band)
    (map_to_odom : OmniRRT.Isometry2d) :
    ((P.finish calls mw band map_to_odom).1.outcome = Outcome.FAILED ∧
        (P.finish calls mw band map_to_odom).1.trajectory.states = []) ∨
      ((P.finish calls mw band map_to_odom).1.outcome ≠ Outcome.FAILED ∧
        ∃ nodes : List Node, (P.finish calls mw band map_to_odom).1.trajectory.states =
          nodes.map (P.stateOf (inverse map_to_odom))) := by
  unfold SimBandPlanner.finish
  simp only []
  cases firstCollision band.nodes with
  | none =>
    simp only []
    split
    · exact Or.inl ⟨rfl, rfl⟩
    · split
      · split
        · exact Or.inl ⟨rfl, rfl⟩
        · split
          · exact Or.inl ⟨rfl, rfl⟩
          · exact Or.inr ⟨by simp [SimBandPlanner.publish, emptyResult],
              ⟨_, by simp [SimBandPlanner.publish, emptyResult]; rfl⟩⟩
      · exact Or.inr ⟨by simp [SimBandPlanner.publish, emptyResult],
          ⟨_, by simp [SimBandPlanner.publish, emptyResult]; rfl⟩⟩
  | some i =>
    simp only []
    split
    · exact Or.inl ⟨rfl, rfl⟩
    · split
      · split
        · exact Or.inl ⟨rfl, rfl⟩
        · split
          · exact Or.inl ⟨rfl, rfl⟩
          · exact Or.inr ⟨by simp [SimBandPlanner.publish, emptyResult],
              ⟨_, by simp [SimBandPlanner.publish, emptyResult]; rfl⟩⟩
      · exact Or.inr ⟨by simp [SimBandPlanner.publish, emptyResult],
          ⟨band.nodes.take i, by simp [SimBandPlanner.publish, emptyResult]⟩⟩

theorem plan_states (P : SimBandPlanner) (calls : PlanCalls)
    (robot_state : navigation_interface.KinodynamicState) (map_to_odom : OmniRRT.Isometry2d) :
    ((P.plan calls robot_state map_to_odom).1.outcome = Outcome.FAILED ∧
        (P.plan calls robot_state map_to_odom).1.trajectory.states = []) ∨
      ((P.plan calls robot_state map_to_odom).1.outcome ≠ Outcome.FAILED ∧
        ∃ nodes : List Node, (P.plan calls robot_state map_to_odom).1.trajectory.states =
          nodes.map (P.stateOf (inverse map_to_odom))) := by
  unfold SimBandPlanner.plan
  cases P.moving_window_ with
  | none => exact Or.inl ⟨rfl, rfl⟩
  | some mw =>
    simp only []
    split
    · exact Or.inl ⟨rfl, rfl⟩
    · exact finish_states P calls _ _ map_to_odom

theorem finish_states_of_final_band (P : SimBandPlanner) (calls : PlanCalls) (mw : MovingWindow)
    (band : Band) (map_to_odom : OmniRRT.Isometry2d) :
    ∃ nodes : List Node,
      (P.finish calls mw band map_to_odom).1.trajectory.states =
          nodes.map (P.stateOf (inverse map_to_odom)) ∧
        (nodes = [] ∨ nodes = trimToValid band.nodes ∨
          calls.splineBand { nodes := trimToValid band.nodes } = .ok { nodes := nodes }) := by
  have key : ∀ (nodes : List Node) (r : Result) (w : MovingWindow),
      r.trajectory.states = [] →
      ∃ out : List Node,
        ((if nodes.isEmpty then ({ r with outcome := Outcome.FAILED }, w)
          else if P.spline_ && decide (nodes.length > 1) then
            match calls.splineBand { nodes := nodes } with
            | .error _ => ({ r with outcome := Outcome.FAILED }, w)
            | .ok splined =>
              if splined.nodes.any (fun n => decide (n.closestDistance < 0)) then
                ({ r with outcome := Outcome.FAILED }, w)
              else (P.publish map_to_odom r splined.nodes, w)
          else (P.publish map_to_odom r nodes, w)) : Result × MovingWindow).1.trajectory.states =
            out.map (P.stateOf (inverse map_to_odom)) ∧
          (out = [] ∨ out = nodes ∨ calls.splineBand { nodes := nodes } = .ok { nodes := out }) := by
    intro nodes r w hr
    split
    · exact ⟨[], hr, Or.inl rfl⟩
    · split
      · cases hs : calls.splineBand { nodes := nodes } with
        | error e => exact ⟨[], hr, Or.inl rfl⟩
        | ok splined =>
          simp only []
          split
          · exact ⟨[], hr, Or.inl rfl⟩
          · exact ⟨splined.nodes, by simp [SimBandPlanner.publish, hr], Or.inr (Or.inr rfl)⟩
      · exact ⟨nodes, by simp [SimBandPlanner.publish, hr], Or.inr (Or.inl rfl)⟩
  unfold SimBandPlanner.finish trimToValid
  simp only []
  cases firstCollision band.nodes with
  | none => exact key _ _ _ rfl
  | some i => exact key _ _ _ rfl

theorem plan_states_of_final_band (P : SimBandPlanner) (calls : PlanCalls)
    (robot_state : navigation_interface.KinodynamicState) (map_to_odom : OmniRRT.Isometry2d) :
    ∃ nodes : List Node,
      (P.plan calls robot_state map_to_odom).1.trajectory.states =
          nodes.map (P.stateOf (inverse map_to_odom)) ∧
        (nodes = [] ∨ ∃ mw mw1 band, P.moving_window_ = some mw ∧
          P.simulateBand calls mw robot_state map_to_odom = (mw1, .ok band) ∧
          (nodes = trimToValid band.nodes ∨
            calls.splineBand { nodes := trimToValid band.nodes } = .ok { nodes := nodes })) := by
  unfold SimBandPlanner.plan
  cases hmw : P.moving_window_ with
  | none => exact ⟨[], rfl, Or.inl rfl⟩
  | some mw =>
    simp only []
    rcases hsim : P.simulateBand calls mw robot_state map_to_odom with ⟨mw1, e | band⟩
    · exact ⟨[], rfl, Or.inl rfl⟩
    · obtain ⟨nodes, h1, h2⟩ := finish_states_of_final_band P calls mw1 band map_to_odom
      refine ⟨nodes, h1, ?_⟩
      rcases h2 with h | h
      · exact Or.inl h
      · exact Or.inr ⟨mw, mw1, band, rfl, hsim, h⟩

/-- C13: the states of the trajectory returned by `plan` are built, in order, from the nodes of
the final band (the simulated band trimmed at the first node in collision, or the band that
splining made of it): the pose of a state is the inverse of `map_to_odom` composed with the
node's pose, and its velocity is
`(desired_speed * max(0.2, 1 if d >= max_distance else 4 d), 0, 0)` for the node's minimum
control-point distance `d`. A result without states is the case of the empty list. -/
theorem plan_states_pose_and_velocity (P : SimBandPlanner) (calls : PlanCalls)
    (robot_state : navigation_interface.KinodynamicState) (map_to_odom : OmniRRT.Isometry2d) :
    ∃ nodes : List Node,
      (P.plan calls robot_state map_to_odom).1.trajectory.states =
        nodes.map (fun node =>
          { pose := mul (inverse map_to_odom) node.pose,
            velocity := (P.desired_speed_ *
              max (1 / 5) (if node.closestDistance ≥ P.max_distance_ then 1
                else 4 * node.closestDistance), 0, 0) }) ∧
      (nodes = [] ∨ ∃ mw mw1 band, P.moving_window_ = some mw ∧
        P.simulateBand calls mw robot_state map_to_odom = (mw1, .ok band) ∧
        (nodes = trimToValid band.nodes ∨
          calls.splineBand { nodes := trimToValid band.nodes } = .ok { nodes := nodes })) := by
  obtain ⟨nodes, h1, h2⟩ := plan_states_of_final_band P calls robot_state map_to_odom
  exact ⟨nodes, by rw [h1]; rfl, h2⟩

theorem pair_ok_of_parts (x : MovingWindow × Except String Band) (mw1 : MovingWindow)
    (band : Band) (h1 : x.1 = mw1) (h2 : x.2.toOption = some band) : x = (mw1, .ok band) := by
  obtain ⟨a, b⟩ := x
  cases b with
  | error e => exact Option.noConfusion h2
  | ok v =>
    have hv : v = band := Option.some.inj h2
    simp only at h1
    rw [h1, hv]

theorem exampleSimulateBand :
    exampleBandPlanner.simulateBand exampleBandCalls exampleWindow exampleRobotState identityPose =
      (exampleWindow, .ok exampleSimulatedBand) :=
  pair_ok_of_parts _ _ _ (by decide!) (by decide!)

theorem exampleSimulatedBand_clear_before_two (j : Nat) (m : Node) (hj : j < 2)
    (hm : exampleSimulatedBand.nodes[j]? = some m) : 0 ≤ m.closestDistance := by
  interval_cases j
  · have e : m = exampleNode 0 (1 / 2) := (Option.some.inj hm).symm
    rw [e]; decide!
  · have e : m = exampleNode 1 1 := (Option.some.inj hm).symm
    rw [e]; decide!

/-- Witness of C12: the example planner; the simulated band has its first node in collision at
index 2. -/
theorem plan_without_spline_trims_at_first_collision_witness :
    (exampleBandPlanner.moving_window_ = some exampleWindow ∧
      exampleBandPlanner.simulateBand exampleBandCalls exampleWindow exampleRobotState
        identityPose = (exampleWindow, .ok exampleSimulatedBand) ∧
      exampleBandPlanner.spline_ = false ∧ exampleSimulatedBand.nodes ≠ []) ∧
    (exampleBandPlanner.plan exampleBandCalls exampleRobotState identityPose).1.outcome =
      Outcome.PARTIAL ∧
    (exampleBandPlanner.plan exampleBandCalls exampleRobotState
      identityPose).1.trajectory.states.length = 2 :=
  ⟨⟨rfl, exampleSimulateBand, rfl, by decide⟩,
    ((plan_without_spline_trims_at_first_collision exampleBandPlanner exampleBandCalls
      exampleRobotState identityPose exampleWindow exampleWindow exampleSimulatedBand rfl
      exampleSimulateBand rfl (by decide)).2.1 2 (exampleNode 2 (-1 / 10)) (by decide) rfl
      (by decide!) exampleSimulatedBand_clear_before_two).1,
    ((plan_without_spline_trims_at_first_collision exampleBandPlanner exampleBandCalls
      exampleRobotState identityPose exampleWindow exampleWindow exampleSimulatedBand rfl
      exampleSimulateBand rfl (by decide)).2.1 2 (exampleNode 2 (-1 / 10)) (by decide) rfl
      (by decide!) exampleSimulatedBand_clear_before_two).2.2.1⟩

theorem finish_splined_collision (P : SimBandPlanner) (calls : PlanCalls) (mw : MovingWindow)
    (band splined : Band) (map_to_odom : OmniRRT.Isometry2d) (hspline : P.spline_ = true)
    (hlen : (trimToValid band.nodes).length > 1)
    (hs : calls.splineBand { nodes := trimToValid band.nodes } = .ok splined)
    (hcol : ∃ n ∈ splined.nodes, n.closestDistance < 0) :
    (P.finish calls mw band map_to_odom).1.outcome = Outcome.FAILED := by
  have hany : splined.nodes.any (fun n => decide (n.closestDistance < 0)) = true := by
    obtain ⟨n, hn, hneg⟩ := hcol
    exact List.any_eq_true.mpr ⟨n, hn, by simpa using hneg⟩
  unfold trimToValid at hlen hs
  unfold SimBandPlanner.finish
  simp only []
  cases hfc : firstCollision band.nodes with
  | none =>
    rw [hfc] at hlen hs
    simp only [] at hlen hs ⊢
    have hemp : band.nodes.isEmpty = false := by
      cases hb : band.nodes with
      | nil => rw [hb] at hlen; simp at hlen
      | cons a rest => rfl
    simp [hemp, hspline, hlen, hs, hany]
  | some i =>
    rw [hfc] at hlen hs
    simp only [] at hlen hs ⊢
    have hemp : (band.nodes.take i).isEmpty = false := by
      cases hb : band.nodes.take i with
      | nil => rw [hb] at hlen; simp at hlen
      | cons a rest => rfl
    have hlen2 : 1 < i ∧ 1 < band.nodes.length := by
      simpa [List.length_take] using hlen
    simp [hemp, hspline, hlen2, hs, hany]

/-- C14: whenever `plan` returns `FAILED` the returned trajectory has no states; in particular,
with splining enabled, a splined band that contains a node in collision yields `FAILED` and no
states. -/
theorem plan_failed_has_no_states (P : SimBandPlanner) (calls : PlanCalls)
    (robot_state : navigation_interface.KinodynamicState) (map_to_odom : OmniRRT.Isometry2d)
    (h : (P.plan calls robot_state map_to_odom).1.outcome = Outcome.FAILED ∨
      ∃ (mw mw1 : MovingWindow) (band splined : Band),
        P.moving_window_ = some mw ∧
        P.simulateBand calls mw robot_state map_to_odom = (mw1, .ok band) ∧
        P.spline_ = true ∧ (trimToValid band.nodes).length > 1 ∧
        calls.splineBand { nodes := trimToValid band.nodes } = .ok splined ∧
        ∃ n ∈ splined.nodes, n.closestDistance < 0) :
    (P.plan calls robot_state map_to_odom).1.outcome = Outcome.FAILED ∧
      (P.plan calls robot_state map_to_odom).1.trajectory.states = [] := by
  have hfailed : (P.plan calls robot_state map_to_odom).1.outcome = Outcome.FAILED := by
    rcases h with h | ⟨mw, mw1, band, splined, hmw, hsim, hspline, hlen, hs, hcol⟩
    · exact h
    · rw [plan_eq_finish P calls robot_state map_to_odom mw mw1 band hmw hsim]
      exact finish_splined_collision P calls mw1 band splined map_to_odom hspline hlen hs hcol
  rcases plan_states P calls robot_state map_to_odom with ⟨_, h2⟩ | ⟨h1, _⟩
  · exact ⟨hfailed, h2⟩
  · exact absurd hfailed h1

theorem except_ok_of_toOption (x : Except String Band) (band : Band)
    (h : x.toOption = some band) : x = .ok band := by
  cases x with
  | error e => exact Option.noConfusion h
  | ok v => rw [Option.some.inj h]

/-- Witness of C14: the example planner with splining enabled; the two nodes kept by the
trimming are splined into a band whose nodes are in collision. -/
theorem plan_failed_has_no_states_witness :
    ((exampleSplinePlanner.plan exampleBandCalls exampleRobotState identityPose).1.outcome =
        Outcome.FAILED ∨
      ∃ (mw mw1 : MovingWindow) (band splined : Band),
        exampleSplinePlanner.moving_window_ = some mw ∧
        exampleSplinePlanner.simulateBand exampleBandCalls mw exampleRobotState identityPose =
          (mw1, .ok band) ∧
        exampleSplinePlanner.spline_ = true ∧ (trimToValid band.nodes).length > 1 ∧
        exampleBandCalls.splineBand { nodes := trimToValid band.nodes } = .ok splined ∧
        ∃ n ∈ splined.nodes, n.closestDistance < 0) ∧
    ((exampleSplinePlanner.plan exampleBandCalls exampleRobotState identityPose).1.outcome =
        Outcome.FAILED ∧
      (exampleSplinePlanner.plan exampleBandCalls exampleRobotState
        identityPose).1.trajectory.states = []) :=
  ⟨Or.inr ⟨exampleWindow, exampleWindow, exampleSimulatedBand, exampleSplinedBand, rfl,
      pair_ok_of_parts _ _ _ (by decide!) (by decide!), rfl, by decide!,
      except_ok_of_toOption _ _ (by decide!),
      ⟨exampleNode 0 (-1 / 20), by decide!, by decide!⟩⟩,
    plan_failed_has_no_states exampleSplinePlanner exampleBandCalls exampleRobotState identityPose
      (Or.inr ⟨exampleWindow, exampleWindow, exampleSimulatedBand, exampleSplinedBand, rfl,
        pair_ok_of_parts _ _ _ (by decide!) (by decide!), rfl, by decide!,
        except_ok_of_toOption _ _ (by decide!),
        ⟨exampleNode 0 (-1 / 20), by decide!, by decide!⟩⟩)⟩

/-- C27 (as stated) fails: with `max_holonomic_distance = 1`, `max_reverse_distance = 4` and
`rotation_factor = 1`, the nominal path of 3 m whose goal lies 1 m behind the robot, without
rotation, selects the reverse regime, and `simulate` receives the rotation factor 1, not 0,
together with `reverse_direction = true`. -/
theorem reverse_regime_keeps_rotation_factor :
    exampleReverseCalls.pathLength exampleWindow.nominal_path = 3 ∧
    ¬ (exampleReverseCalls.pathLength exampleWindow.nominal_path <
      exampleReversePlanner.max_holonomic_distance_) ∧
    exampleReversePlanner.reverseCondition exampleReverseCalls exampleWindow
      (mul identityPose exampleRobotStateBeyondGoal.pose) ∧
    exampleReversePlanner.regime exampleReverseCalls exampleWindow
      (mul identityPose exampleRobotStateBeyondGoal.pose) = (true, true) ∧
    exampleReversePlanner.rotation_factor_ = 1 ∧
    (exampleReversePlanner.simulateBand exampleReverseCalls exampleWindow
      exampleRobotStateBeyondGoal identityPose).2.toOption =
        some { nodes := [nodeAt ⟨1, 1, 1, 0⟩ 1] } := by
  refine ⟨rfl, by decide!, ?_, by decide!, rfl, by decide!⟩
  unfold SimBandPlanner.reverseCondition
  exact ⟨by decide!, by decide!, by decide!⟩

/-- C27 (amended): when the window update and the distance field succeed, `plan` hands to
`simulate` the rotation factor 0 (with `reverse_direction = false`) exactly in the short regime
`path_length < max_holonomic_distance`; in the reverse regime (not short, goal behind the
robot, `path_length < max_reverse_distance`, `|rotation to goal| < pi/2`) it hands on
`rotation_factor` with `reverse_direction = true`, and otherwise `rotation_factor` with
`reverse_direction = false`. -/
theorem simulate_receives_zero_factor_only_when_short (P : SimBandPlanner) (calls : PlanCalls)
    (mw mw1 : MovingWindow) (robot_state : navigation_interface.KinodynamicState)
    (map_to_odom : OmniRRT.Isometry2d)
    (hupd : calls.updateWindow mw (mul map_to_odom robot_state.pose) P.max_window_length_ =
      .ok mw1)
    (hdf : calls.distanceField = .ok ()) :
    (calls.pathLength mw1.nominal_path < P.max_holonomic_distance_ →
      P.simulateBand calls mw robot_state map_to_odom =
        (mw1, calls.simulate (simBand calls mw1 (mul map_to_odom robot_state.pose)) 0 false)) ∧
    (¬ calls.pathLength mw1.nominal_path < P.max_holonomic_distance_ →
      P.reverseCondition calls mw1 (mul map_to_odom robot_state.pose) →
      P.simulateBand calls mw robot_state map_to_odom =
        (mw1, calls.simulate (simBand calls mw1 (mul map_to_odom robot_state.pose))
          P.rotation_factor_ true)) ∧
    (¬ calls.pathLength mw1.nominal_path < P.max_holonomic_distance_ →
      ¬ P.reverseCondition calls mw1 (mul map_to_odom robot_state.pose) →
      P.simulateBand calls mw robot_state map_to_odom =
        (mw1, calls.simulate (simBand calls mw1 (mul map_to_odom robot_state.pose))
          P.rotation_factor_ false)) := by
  have hsb : P.simulateBand calls mw robot_state map_to_odom =
      (mw1, calls.simulate (simBand calls mw1 (mul map_to_odom robot_state.pose))
        (if (P.regime calls mw1 (mul map_to_odom robot_state.pose)).1 then P.rotation_factor_
          else 0)
        (P.regime calls mw1 (mul map_to_odom robot_state.pose)).2) := by
    unfold SimBandPlanner.simulateBand simBand
    simp only [hupd, hdf]
  refine ⟨?_, ?_, ?_⟩
  · intro hshort
    have hr : P.regime calls mw1 (mul map_to_odom robot_state.pose) = (false, false) := by
      unfold SimBandPlanner.regime
      simp only [if_pos hshort]
    rw [hsb, hr]
    rfl
  · intro hlong hrev
    have hr : P.regime calls mw1 (mul map_to_odom robot_state.pose) = (true, true) := by
      unfold SimBandPlanner.reverseCondition goalWrtRobot at hrev
      unfold SimBandPlanner.regime
      simp only [if_neg hlong, if_pos hrev]
    rw [hsb, hr]
    rfl
  · intro hlong hrev
    have hr : P.regime calls mw1 (mul map_to_odom robot_state.pose) = (true, false) := by
      unfold SimBandPlanner.reverseCondition goalWrtRobot at hrev
      unfold SimBandPlanner.regime
      simp only [if_neg hlong, if_neg hrev]
    rw [hsb, hr]
    rfl

/-- Witness of C27 (amended): the example planner with the example window and a nominal path
of 3 m, beyond both distance thresholds. -/
theorem simulate_receives_zero_factor_only_when_short_witness :
    (exampleBandCalls.updateWindow exampleWindow (mul identityPose exampleRobotState.pose)
        exampleBandPlanner.max_window_length_ = .ok exampleWindow ∧
      exampleBandCalls.distanceField = .ok () ∧
      ¬ exampleBandCalls.pathLength exampleWindow.nominal_path <
        exampleBandPlanner.max_holonomic_distance_ ∧
      ¬ exampleBandPlanner.reverseCondition exampleBandCalls exampleWindow
        (mul identityPose exampleRobotState.pose)) ∧
    exampleBandPlanner.simulateBand exampleBandCalls exampleWindow exampleRobotState
        identityPose =
      (exampleWindow, exampleBandCalls.simulate
        (simBand exampleBandCalls exampleWindow (mul identityPose exampleRobotState.pose))
        exampleBandPlanner.rotation_factor_ false) :=
  ⟨⟨rfl, rfl, by decide!,
      fun h => absurd h.1 (by decide!)⟩,
    (simulate_receives_zero_factor_only_when_short exampleBandPlanner exampleBandCalls
      exampleWindow exampleWindow exampleRobotState identityPose rfl rfl).2.2 (by decide!)
      (fun h => absurd h.1 (by decide!))⟩

theorem subSizeT_after_erase (end_i i : Nat) (hend : end_i + 1 < 2 ^ 64) :
    subSizeT end_i (subSizeT (subSizeT i 1) i) = end_i + 1 := by
  unfold subSizeT
  omega

/-- For a band truncated at its first node in collision, at index `i`, the value `plan` writes
to `path_end_i` is `end_i + 1` (for `end_i + 1` below `2^64`): the band's size is read after
the erase, when it is `i`, so `size() - 1 - i` wraps to the largest `std::size_t`. -/
theorem finish_path_end_after_erase (P : SimBandPlanner) (calls : PlanCalls) (mw : MovingWindow)
    (band : Band) (map_to_odom : OmniRRT.Isometry2d) (i : Nat) (n : Node)
    (hn : band.nodes[i]? = some n) (hneg : n.closestDistance < 0)
    (hclear : ∀ (j : Nat) (m : Node), j < i → band.nodes[j]? = some m → 0 ≤ m.closestDistance)
    (hend : mw.end_i + 1 < 2 ^ 64) :
    (P.finish calls mw band map_to_odom).1.path_end_i = mw.end_i + 1 := by
  have hfc := firstCollision_eq_some band.nodes i n hn hneg hclear
  have hlen : i < band.nodes.length := by
    rcases Nat.lt_or_ge i band.nodes.length with h | h
    · exact h
    · rw [List.getElem?_eq_none h] at hn
      exact Option.noConfusion hn
  have htake : (band.nodes.take i).length = i := by
    rw [List.length_take]
    omega
  have hval := subSizeT_after_erase mw.end_i i hend
  unfold SimBandPlanner.finish
  simp only [hfc, htake]
  split
  · exact hval
  · split
    · split
      · exact hval
      · split
        · exact hval
        · exact hval
    · exact hval

/-- C28 at the failing input: the simulated band of the example has `n = 4` nodes and its first
node in collision at index `i = 2`, the window ends at `end_i = 3`; `plan` returns `PARTIAL`
with `path_end_i = 4`, above `end_i`, where `end_i - (n - 1 - i)` is 2. -/
theorem path_end_exceeds_end_of_window :
    exampleBandPlanner.simulateBand exampleBandCalls exampleWindow exampleRobotState
      identityPose = (exampleWindow, .ok exampleSimulatedBand) ∧
    exampleSimulatedBand.nodes.length = 4 ∧
    firstCollision exampleSimulatedBand.nodes = some 2 ∧
    exampleWindow.end_i = 3 ∧
    (exampleBandPlanner.plan exampleBandCalls exampleRobotState identityPose).1.outcome =
      Outcome.PARTIAL ∧
    (exampleBandPlanner.plan exampleBandCalls exampleRobotState identityPose).1.path_end_i =
      4 := by
  refine ⟨exampleSimulateBand, rfl, by decide!, rfl, by decide!, by decide!⟩

/-- C29 (as stated) fails: with `desired_speed = 1/2`, `max_distance = 1` and a node whose
minimum distance is `1/2`, the assigned longitudinal velocity is `1/2 * max(0.2, 4 * 1/2) = 1`,
twice the desired speed. -/
theorem velocity_exceeds_desired_speed :
    (0 : ℚ) ≤ 1 / 2 ∧ (0 : ℚ) < 1 ∧
    ({ exampleBandPlanner with desired_speed_ := 1 / 2, max_distance_ := 1 }.stateOf
      identityPose (exampleNode 0 (1 / 2))).velocity.1 = 1 ∧
    ¬ ((1 : ℚ) ≤ 1 / 2) := by
  refine ⟨by norm_num, by norm_num, by decide!, by norm_num⟩

/-- C29 (amended): for every `desired_speed ≥ 0`, every `max_distance` and every node minimum
distance `d`, the longitudinal velocity `v` that `plan` assigns satisfies
`0.2 * desired_speed ≤ v ≤ max(1, 4 * max_distance) * desired_speed`; in particular
`v ≤ desired_speed` when `max_distance ≤ 1/4`. -/
theorem velocity_between_fifth_and_scaled_desired_speed (P : SimBandPlanner)
    (odom_to_map : OmniRRT.Isometry2d) (node : Node) (hds : 0 ≤ P.desired_speed_) :
    1 / 5 * P.desired_speed_ ≤ (P.stateOf odom_to_map node).velocity.1 ∧
    (P.stateOf odom_to_map node).velocity.1 ≤ max 1 (4 * P.max_distance_) * P.desired_speed_ ∧
    (P.max_distance_ ≤ 1 / 4 → (P.stateOf odom_to_map node).velocity.1 ≤ P.desired_speed_) ∧
    (P.stateOf odom_to_map node).velocity.2 = (0, 0) := by
  have hv : (P.stateOf odom_to_map node).velocity.1 =
      P.desired_speed_ * max (1 / 5)
        (if node.closestDistance ≥ P.max_distance_ then 1 else 4 * node.closestDistance) := rfl
  have hupper : max (1 / 5 : ℚ)
      (if node.closestDistance ≥ P.max_distance_ then 1 else 4 * node.closestDistance) ≤
        max 1 (4 * P.max_distance_) := by
    apply max_le
    · exact le_trans (by norm_num) (le_max_left _ _)
    · by_cases h : node.closestDistance ≥ P.max_distance_
      · rw [if_pos h]; exact le_max_left _ _
      · rw [if_neg h]
        have : node.closestDistance < P.max_distance_ := not_le.mp h
        exact le_trans (by linarith) (le_max_right _ _)
  refine ⟨?_, ?_, ?_, rfl⟩
  · rw [hv, mul_comm]
    exact mul_le_mul_of_nonneg_left (le_max_left _ _) hds
  · rw [hv, mul_comm]
    exact mul_le_mul_of_nonneg_right hupper hds
  · intro hmd
    have h1 : max 1 (4 * P.max_distance_) = 1 := max_eq_left (by linarith)
    have h2 := mul_le_mul_of_nonneg_left (le_trans hupper (le_of_eq h1)) hds
    rw [hv]
    linarith

/-- Witness of C29 (amended): the example planner (`desired_speed = 1/2`,
`max_distance = 2/5`) and a node at distance `3/10`. -/
theorem velocity_between_fifth_and_scaled_desired_speed_witness :
    (0 : ℚ) ≤ exampleBandPlanner.desired_speed_ ∧
    1 / 5 * exampleBandPlanner.desired_speed_ ≤
      (exampleBandPlanner.stateOf identityPose (exampleNode 0 (3 / 10))).velocity.1 ∧
    (exampleBandPlanner.stateOf identityPose (exampleNode 0 (3 / 10))).velocity.1 ≤
      max 1 (4 * exampleBandPlanner.max_distance_) * exampleBandPlanner.desired_speed_ :=
  ⟨by decide!,
    (velocity_between_fifth_and_scaled_desired_speed exampleBandPlanner identityPose
      (exampleNode 0 (3 / 10)) (by decide!)).1,
    (velocity_between_fifth_and_scaled_desired_speed exampleBandPlanner identityPose
      (exampleNode 0 (3 / 10)) (by decide!)).2.1⟩

end sim_band_planner
